import Mathlib

/-!
# Fastly provider: attribute handlers for `backend` and `logging_cloudfiles`

A shallow embedding of the payload builders, the delete error filters and the
state projections of

* `fastly/block_fastly_service_backend.go`
* `fastly/block_fastly_service_logging_cloudfiles.go`

of the read and the poll of `fastly/resource_fastly_tls_subscription_validation.go`,
and of the projection of `fastly/data_source_datacenters.go`.

Go values of type `any` are modelled by `Value`, a `map[string]any` by a lookup
function `GoMap` (`none` = key absent), a pointer-typed optional payload field
`*T` by `Option T` (`none` = nil pointer, the field is not sent), and a Go
runtime panic (failed type assertion) by the outer `Option` of a builder's
result (`none` = the call panicked, no payload exists).
-/

namespace Fastly

/-! ## Dynamic values and maps -/

/-- A dynamically typed Go value held in an attribute map (`any`): the three
schema types used by the handlers (`string`, `int`, `bool`), the untyped `nil`,
and `uint` and `[]string` values, which belong to none of the schema types. -/
inductive Value where
  | str (s : String)
  | int (i : Int)
  | bool (b : Bool)
  | nil
  | uint (n : Nat)
  | strings (l : List String)
  deriving DecidableEq, Repr

/-- Go `map[string]any`, as its lookup function: `m k = none` when `k` is not a
key of `m`. -/
abbrev GoMap := String → Option Value

/-- The map literal `map[string]any{k1: v1, ...}` (keys pairwise distinct). -/
def GoMap.ofList (l : List (String × Value)) : GoMap := fun k => l.lookup k

/-- The assignment `m[k] = v`. -/
def GoMap.set (m : GoMap) (k : String) (v : Value) : GoMap :=
  fun k' => if k' = k then some v else m k'

/-- The type assertion `m[k].(string)` applied to a lookup result: it panics
(`none`) when the key is absent (nil interface) or the value is not a string. -/
def assertString : Option Value → Option String
  | some (.str s) => some s
  | _ => none

/-- The type assertion `m[k].(int)` applied to a lookup result. -/
def assertInt : Option Value → Option Int
  | some (.int i) => some i
  | _ => none

/-- The type assertion `m[k].(bool)` applied to a lookup result. -/
def assertBool : Option Value → Option Bool
  | some (.bool b) => some b
  | _ => none

/-- The field initialiser `F: gofastly.String(m[k].(string))` of a payload under
construction: the assertion panics or the field `F` receives a pointer to the
string. -/
def fieldString {α : Type} (m : GoMap) (k : String) (assign : α → Option String → α)
    (opts : α) : Option α :=
  (assertString (m k)).map fun s => assign opts (some s)

/-- The field initialiser `F: gofastly.Int(m[k].(int))`. -/
def fieldInt {α : Type} (m : GoMap) (k : String) (assign : α → Option Int → α)
    (opts : α) : Option α :=
  (assertInt (m k)).map fun i => assign opts (some i)

/-- The field initialiser `F: gofastly.CBool(m[k].(bool))`. -/
def fieldBool {α : Type} (m : GoMap) (k : String) (assign : α → Option Bool → α)
    (opts : α) : Option α :=
  (assertBool (m k)).map fun b => assign opts (some b)

/-- The block `if v, ok := modified[k]; ok { opts.F = gofastly.String(v.(string)) }`:
`opts` is left as it is when the key is absent, the field `F` receives a pointer
to the string when the key is present, and the assertion panics when the key is
present with a value of another type. -/
def ifChangedString {α : Type} (modified : GoMap) (k : String)
    (assign : α → Option String → α) (opts : α) : Option α :=
  match modified k with
  | some v => (assertString (some v)).map fun s => assign opts (some s)
  | none => some opts

/-- The gated block
`if v, ok := modified[k]; ok { if gate { opts.F = gofastly.String(v.(string)) } }`:
the value is looked at (and its type asserted) only when the gate holds. -/
def ifChangedStringWhen {α : Type} (gate : Prop) [Decidable gate] (modified : GoMap)
    (k : String) (assign : α → Option String → α) (opts : α) : Option α :=
  match modified k with
  | some v =>
    if gate then (assertString (some v)).map fun s => assign opts (some s) else some opts
  | none => some opts

/-- The block `if v, ok := modified[k]; ok { opts.F = gofastly.Int(v.(int)) }`. -/
def ifChangedInt {α : Type} (modified : GoMap) (k : String)
    (assign : α → Option Int → α) (opts : α) : Option α :=
  match modified k with
  | some v => (assertInt (some v)).map fun i => assign opts (some i)
  | none => some opts

/-- The block `if v, ok := modified[k]; ok { opts.F = gofastly.CBool(v.(bool)) }`. -/
def ifChangedBool {α : Type} (modified : GoMap) (k : String)
    (assign : α → Option Bool → α) (opts : α) : Option α :=
  match modified k with
  | some v => (assertBool (some v)).map fun b => assign opts (some b)
  | none => some opts

/-! ## Service metadata -/

/-- The handler's `ServiceMetadata`: only `serviceType` is read by the code. -/
structure ServiceMetadata where
  serviceType : String
  deriving DecidableEq, Repr

/-- Modelled from the spec: the constant `ServiceTypeVCL` is declared outside the
files at hand; the spec only says that a field may exist "only for one of two
service variants". The code compares `serviceType` against this constant and
nothing depends on its spelling. -/
def ServiceTypeVCL : String := "vcl"

/-! ## Backend: wire types of the client library -/

/-- The fields of `gofastly.CreateBackendInput` written by the handler. Pointer
fields are optional; `*Compatibool` is a pointer to a boolean. -/
structure CreateBackendInput where
  Address : Option String := none
  AutoLoadbalance : Option Bool := none
  BetweenBytesTimeout : Option Int := none
  ConnectTimeout : Option Int := none
  ErrorThreshold : Option Int := none
  FirstByteTimeout : Option Int := none
  HealthCheck : Option String := none
  MaxConn : Option Int := none
  MaxTLSVersion : Option String := none
  MinTLSVersion : Option String := none
  Name : Option String := none
  OverrideHost : Option String := none
  Port : Option Int := none
  RequestCondition : Option String := none
  SSLCACert : Option String := none
  SSLCertHostname : Option String := none
  SSLCheckCert : Option Bool := none
  SSLCiphers : Option String := none
  SSLClientCert : Option String := none
  SSLClientKey : Option String := none
  SSLSNIHostname : Option String := none
  ServiceID : String
  ServiceVersion : Int
  Shield : Option String := none
  UseSSL : Option Bool := none
  Weight : Option Int := none
  deriving DecidableEq, Repr

/-- The fields of `gofastly.UpdateBackendInput` written by the handler. -/
structure UpdateBackendInput where
  ServiceID : String
  ServiceVersion : Int
  Name : String
  Address : Option String := none
  Port : Option Int := none
  OverrideHost : Option String := none
  ConnectTimeout : Option Int := none
  MaxConn : Option Int := none
  ErrorThreshold : Option Int := none
  FirstByteTimeout : Option Int := none
  BetweenBytesTimeout : Option Int := none
  AutoLoadbalance : Option Bool := none
  Weight : Option Int := none
  RequestCondition : Option String := none
  HealthCheck : Option String := none
  Shield : Option String := none
  UseSSL : Option Bool := none
  SSLCheckCert : Option Bool := none
  SSLCACert : Option String := none
  SSLClientCert : Option String := none
  SSLClientKey : Option String := none
  SSLCertHostname : Option String := none
  SSLSNIHostname : Option String := none
  MinTLSVersion : Option String := none
  MaxTLSVersion : Option String := none
  SSLCiphers : Option String := none
  deriving DecidableEq, Repr

/-- The payload of `gofastly.DeleteBackendInput`. -/
structure DeleteBackendInput where
  ServiceID : String
  ServiceVersion : Int
  Name : String
  deriving DecidableEq, Repr

/-- The fields of the remote `gofastly.Backend` read by `flattenBackend`. -/
structure Backend where
  Address : String
  AutoLoadbalance : Bool
  BetweenBytesTimeout : Int
  ConnectTimeout : Int
  ErrorThreshold : Int
  FirstByteTimeout : Int
  HealthCheck : String
  MaxConn : Int
  MaxTLSVersion : String
  MinTLSVersion : String
  Name : String
  OverrideHost : String
  Port : Int
  RequestCondition : String
  Shield : String
  SSLCACert : String
  SSLCertHostname : String
  SSLCheckCert : Bool
  SSLCiphers : String
  SSLClientCert : String
  SSLClientKey : String
  SSLSNIHostname : String
  UseSSL : Bool
  Weight : Int
  deriving DecidableEq, Repr

/-- The request parameters an update payload puts on the wire, keyed by the
attribute name of the field (its `url` tag): a nil pointer sends nothing. The
service ID, the version and the name address the request and are not part of
this view. -/
def UpdateBackendInput.wire (p : UpdateBackendInput) : GoMap := fun k =>
  if k = "address" then p.Address.map Value.str else
  if k = "port" then p.Port.map Value.int else
  if k = "override_host" then p.OverrideHost.map Value.str else
  if k = "connect_timeout" then p.ConnectTimeout.map Value.int else
  if k = "max_conn" then p.MaxConn.map Value.int else
  if k = "error_threshold" then p.ErrorThreshold.map Value.int else
  if k = "first_byte_timeout" then p.FirstByteTimeout.map Value.int else
  if k = "between_bytes_timeout" then p.BetweenBytesTimeout.map Value.int else
  if k = "auto_loadbalance" then p.AutoLoadbalance.map Value.bool else
  if k = "weight" then p.Weight.map Value.int else
  if k = "request_condition" then p.RequestCondition.map Value.str else
  if k = "healthcheck" then p.HealthCheck.map Value.str else
  if k = "shield" then p.Shield.map Value.str else
  if k = "use_ssl" then p.UseSSL.map Value.bool else
  if k = "ssl_check_cert" then p.SSLCheckCert.map Value.bool else
  if k = "ssl_ca_cert" then p.SSLCACert.map Value.str else
  if k = "ssl_client_cert" then p.SSLClientCert.map Value.str else
  if k = "ssl_client_key" then p.SSLClientKey.map Value.str else
  if k = "ssl_cert_hostname" then p.SSLCertHostname.map Value.str else
  if k = "ssl_sni_hostname" then p.SSLSNIHostname.map Value.str else
  if k = "min_tls_version" then p.MinTLSVersion.map Value.str else
  if k = "max_tls_version" then p.MaxTLSVersion.map Value.str else
  if k = "ssl_ciphers" then p.SSLCiphers.map Value.str else
  none

/-! ## Backend: schema -/

/-- The `schema.ValueType`s used by the two blocks. -/
inductive FieldType where
  | TypeString
  | TypeInt
  | TypeBool
  deriving DecidableEq, Repr

/-- Whether a stored value has the Go type a schema type stands for. -/
def Value.hasType : Value → FieldType → Bool
  | .str _, .TypeString => true
  | .int _, .TypeInt => true
  | .bool _, .TypeBool => true
  | _, _ => false

/-- A lookup result is compatible with a schema type: the key is absent, or its
value has the declared type. -/
def typedLookup (x : Option Value) (t : FieldType) : Bool :=
  match x with
  | some v => v.hasType t
  | none => true

/-- A map of changed fields is well typed for a schema: each attribute of the
schema that is a key of the map holds a value of its declared type. -/
def wellTypedChange (schema : List (String × FieldType)) (modified : GoMap) : Bool :=
  schema.all fun kt => typedLookup (modified kt.1) kt.2

/-- An element is well typed for a schema: each attribute of the schema is a key
of the map and holds a value of its declared type. -/
def wellTypedElement (schema : List (String × FieldType)) (e : GoMap) : Bool :=
  schema.all fun kt =>
    match e kt.1 with
    | some v => v.hasType kt.2
    | none => false

namespace BackendServiceAttributeHandler

/-- The attribute names and types of `GetSchema`: the 23 unconditional block
attributes in source order, and `request_condition` for a VCL service. -/
def GetSchema (sa : ServiceMetadata) : List (String × FieldType) :=
  let blockAttributes : List (String × FieldType) :=
    [ ("address", .TypeString),
      ("auto_loadbalance", .TypeBool),
      ("between_bytes_timeout", .TypeInt),
      ("connect_timeout", .TypeInt),
      ("error_threshold", .TypeInt),
      ("first_byte_timeout", .TypeInt),
      ("healthcheck", .TypeString),
      ("max_conn", .TypeInt),
      ("max_tls_version", .TypeString),
      ("min_tls_version", .TypeString),
      ("name", .TypeString),
      ("override_host", .TypeString),
      ("port", .TypeInt),
      ("shield", .TypeString),
      ("ssl_ca_cert", .TypeString),
      ("ssl_cert_hostname", .TypeString),
      ("ssl_check_cert", .TypeBool),
      ("ssl_ciphers", .TypeString),
      ("ssl_client_cert", .TypeString),
      ("ssl_client_key", .TypeString),
      ("ssl_sni_hostname", .TypeString),
      ("use_ssl", .TypeBool),
      ("weight", .TypeInt) ]
  if sa.serviceType = ServiceTypeVCL then
    blockAttributes ++ [("request_condition", .TypeString)]
  else
    blockAttributes

/-- The updatable attributes of a backend: every attribute of the (VCL) schema
except `name`. -/
def updatableFields : List String :=
  ((GetSchema { serviceType := ServiceTypeVCL }).map Prod.fst).filter fun k => k ≠ "name"

/-- The function `createDeleteBackendInput`: the delete payload, built from the
element's `name` alone. -/
def createDeleteBackendInput (service : String) (latestVersion : Int) (bf : GoMap) :
    Option DeleteBackendInput := do
  let name ← assertString (bf "name")
  pure { ServiceID := service, ServiceVersion := latestVersion, Name := name }

/-- The function `buildCreateBackendInput`. The struct literal is built field by
field in source order (each initialiser asserts the type of one attribute),
followed by the `override_host` guard and the VCL gate on `request_condition`. -/
def buildCreateBackendInput (sa : ServiceMetadata) (service : String) (latestVersion : Int)
    (df : GoMap) : Option CreateBackendInput :=
  some ({ ServiceID := service, ServiceVersion := latestVersion } : CreateBackendInput)
  >>= fieldString df "address" (fun opts v => { opts with Address := v })
  >>= fieldBool df "auto_loadbalance" (fun opts v => { opts with AutoLoadbalance := v })
  >>= fieldInt df "between_bytes_timeout" (fun opts v => { opts with BetweenBytesTimeout := v })
  >>= fieldInt df "connect_timeout" (fun opts v => { opts with ConnectTimeout := v })
  >>= fieldInt df "error_threshold" (fun opts v => { opts with ErrorThreshold := v })
  >>= fieldInt df "first_byte_timeout" (fun opts v => { opts with FirstByteTimeout := v })
  >>= fieldString df "healthcheck" (fun opts v => { opts with HealthCheck := v })
  >>= fieldInt df "max_conn" (fun opts v => { opts with MaxConn := v })
  >>= fieldString df "max_tls_version" (fun opts v => { opts with MaxTLSVersion := v })
  >>= fieldString df "min_tls_version" (fun opts v => { opts with MinTLSVersion := v })
  >>= fieldString df "name" (fun opts v => { opts with Name := v })
  >>= fieldInt df "port" (fun opts v => { opts with Port := v })
  >>= fieldString df "ssl_ca_cert" (fun opts v => { opts with SSLCACert := v })
  >>= fieldString df "ssl_cert_hostname" (fun opts v => { opts with SSLCertHostname := v })
  >>= fieldBool df "ssl_check_cert" (fun opts v => { opts with SSLCheckCert := v })
  >>= fieldString df "ssl_ciphers" (fun opts v => { opts with SSLCiphers := v })
  >>= fieldString df "ssl_client_cert" (fun opts v => { opts with SSLClientCert := v })
  >>= fieldString df "ssl_client_key" (fun opts v => { opts with SSLClientKey := v })
  >>= fieldString df "ssl_sni_hostname" (fun opts v => { opts with SSLSNIHostname := v })
  >>= fieldString df "shield" (fun opts v => { opts with Shield := v })
  >>= fieldBool df "use_ssl" (fun opts v => { opts with UseSSL := v })
  >>= fieldInt df "weight" (fun opts v => { opts with Weight := v })
  >>= (fun opts => (assertString (df "override_host")).map fun overrideHost =>
        if overrideHost ≠ "" then { opts with OverrideHost := some overrideHost } else opts)
  >>= (fun opts =>
        if sa.serviceType = ServiceTypeVCL then
          fieldString df "request_condition" (fun opts v => { opts with RequestCondition := v }) opts
        else
          some opts)

/-- The function `buildUpdateBackendInput`: `opts` starts with the service ID, the
version and the name of `resource`, and passes through the `if v, ok :=
modified[k]; ok` blocks in source order. A `request_condition` key is looked at
only for a VCL service. -/
def buildUpdateBackendInput (sa : ServiceMetadata) (serviceID : String) (latestVersion : Int)
    (resource modified : GoMap) : Option UpdateBackendInput :=
  ((assertString (resource "name")).map fun name =>
    ({ ServiceID := serviceID, ServiceVersion := latestVersion, Name := name } :
      UpdateBackendInput))
  >>= ifChangedString modified "address" (fun opts v => { opts with Address := v })
  >>= ifChangedInt modified "port" (fun opts v => { opts with Port := v })
  >>= ifChangedString modified "override_host" (fun opts v => { opts with OverrideHost := v })
  >>= ifChangedInt modified "connect_timeout" (fun opts v => { opts with ConnectTimeout := v })
  >>= ifChangedInt modified "max_conn" (fun opts v => { opts with MaxConn := v })
  >>= ifChangedInt modified "error_threshold" (fun opts v => { opts with ErrorThreshold := v })
  >>= ifChangedInt modified "first_byte_timeout" (fun opts v => { opts with FirstByteTimeout := v })
  >>= ifChangedInt modified "between_bytes_timeout" (fun opts v => { opts with BetweenBytesTimeout := v })
  >>= ifChangedBool modified "auto_loadbalance" (fun opts v => { opts with AutoLoadbalance := v })
  >>= ifChangedInt modified "weight" (fun opts v => { opts with Weight := v })
  >>= ifChangedStringWhen (sa.serviceType = ServiceTypeVCL) modified "request_condition"
        (fun opts v => { opts with RequestCondition := v })
  >>= ifChangedString modified "healthcheck" (fun opts v => { opts with HealthCheck := v })
  >>= ifChangedString modified "shield" (fun opts v => { opts with Shield := v })
  >>= ifChangedBool modified "use_ssl" (fun opts v => { opts with UseSSL := v })
  >>= ifChangedBool modified "ssl_check_cert" (fun opts v => { opts with SSLCheckCert := v })
  >>= ifChangedString modified "ssl_ca_cert" (fun opts v => { opts with SSLCACert := v })
  >>= ifChangedString modified "ssl_client_cert" (fun opts v => { opts with SSLClientCert := v })
  >>= ifChangedString modified "ssl_client_key" (fun opts v => { opts with SSLClientKey := v })
  >>= ifChangedString modified "ssl_cert_hostname" (fun opts v => { opts with SSLCertHostname := v })
  >>= ifChangedString modified "ssl_sni_hostname" (fun opts v => { opts with SSLSNIHostname := v })
  >>= ifChangedString modified "min_tls_version" (fun opts v => { opts with MinTLSVersion := v })
  >>= ifChangedString modified "max_tls_version" (fun opts v => { opts with MaxTLSVersion := v })
  >>= ifChangedString modified "ssl_ciphers" (fun opts v => { opts with SSLCiphers := v })

end BackendServiceAttributeHandler

/-- The function `flattenBackend`: one state map per remote backend, in order. -/
def flattenBackend (backendList : List Backend) (sa : ServiceMetadata) : List GoMap :=
  backendList.map fun resource =>
    let data : GoMap := GoMap.ofList
      [ ("address", .str resource.Address),
        ("auto_loadbalance", .bool resource.AutoLoadbalance),
        ("between_bytes_timeout", .int resource.BetweenBytesTimeout),
        ("connect_timeout", .int resource.ConnectTimeout),
        ("error_threshold", .int resource.ErrorThreshold),
        ("first_byte_timeout", .int resource.FirstByteTimeout),
        ("healthcheck", .str resource.HealthCheck),
        ("max_conn", .int resource.MaxConn),
        ("max_tls_version", .str resource.MaxTLSVersion),
        ("min_tls_version", .str resource.MinTLSVersion),
        ("name", .str resource.Name),
        ("override_host", .str resource.OverrideHost),
        ("port", .int resource.Port),
        ("shield", .str resource.Shield),
        ("ssl_ca_cert", .str resource.SSLCACert),
        ("ssl_cert_hostname", .str resource.SSLCertHostname),
        ("ssl_check_cert", .bool resource.SSLCheckCert),
        ("ssl_ciphers", .str resource.SSLCiphers),
        ("ssl_client_cert", .str resource.SSLClientCert),
        ("ssl_client_key", .str resource.SSLClientKey),
        ("ssl_sni_hostname", .str resource.SSLSNIHostname),
        ("use_ssl", .bool resource.UseSSL),
        ("weight", .int resource.Weight) ]
    if sa.serviceType = ServiceTypeVCL then
      data.set "request_condition" (.str resource.RequestCondition)
    else
      data

/-- The remote backend the API holds after a create request with payload `p`, as
the round-trip property reads it: a field the payload leaves unset is read back
as the zero value of its type. -/
def Backend.ofCreateInput (p : CreateBackendInput) : Backend where
  Address := p.Address.getD ""
  AutoLoadbalance := p.AutoLoadbalance.getD false
  BetweenBytesTimeout := p.BetweenBytesTimeout.getD 0
  ConnectTimeout := p.ConnectTimeout.getD 0
  ErrorThreshold := p.ErrorThreshold.getD 0
  FirstByteTimeout := p.FirstByteTimeout.getD 0
  HealthCheck := p.HealthCheck.getD ""
  MaxConn := p.MaxConn.getD 0
  MaxTLSVersion := p.MaxTLSVersion.getD ""
  MinTLSVersion := p.MinTLSVersion.getD ""
  Name := p.Name.getD ""
  OverrideHost := p.OverrideHost.getD ""
  Port := p.Port.getD 0
  RequestCondition := p.RequestCondition.getD ""
  Shield := p.Shield.getD ""
  SSLCACert := p.SSLCACert.getD ""
  SSLCertHostname := p.SSLCertHostname.getD ""
  SSLCheckCert := p.SSLCheckCert.getD false
  SSLCiphers := p.SSLCiphers.getD ""
  SSLClientCert := p.SSLClientCert.getD ""
  SSLClientKey := p.SSLClientKey.getD ""
  SSLSNIHostname := p.SSLSNIHostname.getD ""
  UseSSL := p.UseSSL.getD false
  Weight := p.Weight.getD 0

/-! ## Remote errors -/

/-- The client library's `gofastly.HTTPError`: the status code of the response and
the error details it carried. -/
structure HTTPError where
  StatusCode : Int
  Errors : List String := []
  deriving DecidableEq, Repr

/-- Modelled from the spec: `HTTPError.IsNotFound` belongs to the client library;
the spec describes it as the "machine-checkable \"not found\" classification used
by the 404-is-success rule", that is, the status code is 404. -/
def HTTPError.IsNotFound (e : HTTPError) : Bool := e.StatusCode == 404

/-- A non-nil Go `error` returned by the client: a `*gofastly.HTTPError`, or an
error of any other dynamic type (transport failure, validation, ...). The `error`
itself is an `Option GoError`, `none` being nil. -/
inductive GoError where
  | http (e : HTTPError)
  | other (msg : String)
  deriving DecidableEq, Repr

namespace BackendServiceAttributeHandler

/-- The method `Delete`: the payload is built (a panic when the name is not a
string), the client is called, and its error is filtered. `DeleteBackend` is the
client call `conn.DeleteBackend`. -/
def Delete (DeleteBackend : DeleteBackendInput → Option GoError) (serviceID : String)
    (resource : GoMap) (serviceVersion : Int) : Option (Option GoError) :=
  (createDeleteBackendInput serviceID serviceVersion resource).map fun opts =>
    let err := DeleteBackend opts
    match err with
    | some (.http errRes) => if errRes.StatusCode ≠ 404 then err else none
    | some (.other _) => err
    | none => none

end BackendServiceAttributeHandler

/-! ## Cloud Files logging: wire types of the client library -/

/-- The result of `getVCLLoggingAttributes`, as `buildCreate` reads it. -/
structure VCLLoggingAttributes where
  format : String
  formatVersion : Option Int
  placement : String
  responseCondition : String
  deriving DecidableEq, Repr

/-- The fields of `gofastly.CreateCloudfilesInput` written by the handler. -/
structure CreateCloudfilesInput where
  AccessKey : Option String := none
  BucketName : Option String := none
  CompressionCodec : Option String := none
  Format : Option String := none
  FormatVersion : Option Int := none
  GzipLevel : Option Int := none
  MessageType : Option String := none
  Name : Option String := none
  Path : Option String := none
  Period : Option Int := none
  Placement : Option String := none
  PublicKey : Option String := none
  Region : Option String := none
  ResponseCondition : Option String := none
  ServiceID : String
  ServiceVersion : Int
  TimestampFormat : Option String := none
  User : Option String := none
  deriving DecidableEq, Repr

/-- The fields of `gofastly.UpdateCloudfilesInput`: those written by the handler,
and `CompressionCodec`, which the library declares for the `compression_codec`
attribute. -/
structure UpdateCloudfilesInput where
  ServiceID : String
  ServiceVersion : Int
  Name : String
  User : Option String := none
  AccessKey : Option String := none
  BucketName : Option String := none
  Path : Option String := none
  Region : Option String := none
  Placement : Option String := none
  Period : Option Int := none
  GzipLevel : Option Int := none
  Format : Option String := none
  FormatVersion : Option Int := none
  ResponseCondition : Option String := none
  MessageType : Option String := none
  TimestampFormat : Option String := none
  PublicKey : Option String := none
  CompressionCodec : Option String := none
  deriving DecidableEq, Repr

/-- The payload of `gofastly.DeleteCloudfilesInput`. -/
structure DeleteCloudfilesInput where
  ServiceID : String
  ServiceVersion : Int
  Name : String
  deriving DecidableEq, Repr

/-- The request parameters a Cloud Files update payload puts on the wire, keyed by
attribute name (the `url` tag of the field): a nil pointer sends nothing. -/
def UpdateCloudfilesInput.wire (p : UpdateCloudfilesInput) : GoMap := fun k =>
  if k = "user" then p.User.map Value.str else
  if k = "access_key" then p.AccessKey.map Value.str else
  if k = "bucket_name" then p.BucketName.map Value.str else
  if k = "path" then p.Path.map Value.str else
  if k = "region" then p.Region.map Value.str else
  if k = "placement" then p.Placement.map Value.str else
  if k = "period" then p.Period.map Value.int else
  if k = "gzip_level" then p.GzipLevel.map Value.int else
  if k = "format" then p.Format.map Value.str else
  if k = "format_version" then p.FormatVersion.map Value.int else
  if k = "response_condition" then p.ResponseCondition.map Value.str else
  if k = "message_type" then p.MessageType.map Value.str else
  if k = "timestamp_format" then p.TimestampFormat.map Value.str else
  if k = "public_key" then p.PublicKey.map Value.str else
  if k = "compression_codec" then p.CompressionCodec.map Value.str else
  none

/-- A Go value of type `any` handed to a `buildX` method: an attribute map, or a
value of another dynamic type. -/
inductive GoAny where
  | map (m : GoMap)
  | value (v : Value)

/-- The type assertion `x.(map[string]any)`. -/
def assertMap : GoAny → Option GoMap
  | .map m => some m
  | .value _ => none

namespace CloudfilesServiceAttributeHandler

/-- The attribute names and types of `GetSchema`: the twelve unconditional block
attributes in source order, and the four VCL-only attributes. -/
def GetSchema (sa : ServiceMetadata) : List (String × FieldType) :=
  let blockAttributes : List (String × FieldType) :=
    [ ("access_key", .TypeString),
      ("bucket_name", .TypeString),
      ("compression_codec", .TypeString),
      ("gzip_level", .TypeInt),
      ("message_type", .TypeString),
      ("name", .TypeString),
      ("path", .TypeString),
      ("period", .TypeInt),
      ("public_key", .TypeString),
      ("region", .TypeString),
      ("timestamp_format", .TypeString),
      ("user", .TypeString) ]
  if sa.serviceType = ServiceTypeVCL then
    blockAttributes ++
      [ ("format", .TypeString),
        ("format_version", .TypeInt),
        ("response_condition", .TypeString),
        ("placement", .TypeString) ]
  else
    blockAttributes

/-- The payload `opts` of the method `Update` at the point where it is handed to
the client: it starts with the service ID, the version and the name of
`resource`, and passes through the `if v, ok := modified[k]; ok` blocks in source
order. -/
def updateOpts (serviceID : String) (serviceVersion : Int) (resource modified : GoMap) :
    Option UpdateCloudfilesInput :=
  ((assertString (resource "name")).map fun name =>
    ({ ServiceID := serviceID, ServiceVersion := serviceVersion, Name := name } :
      UpdateCloudfilesInput))
  >>= ifChangedString modified "user" (fun opts v => { opts with User := v })
  >>= ifChangedString modified "access_key" (fun opts v => { opts with AccessKey := v })
  >>= ifChangedString modified "bucket_name" (fun opts v => { opts with BucketName := v })
  >>= ifChangedString modified "path" (fun opts v => { opts with Path := v })
  >>= ifChangedString modified "region" (fun opts v => { opts with Region := v })
  >>= ifChangedString modified "placement" (fun opts v => { opts with Placement := v })
  >>= ifChangedInt modified "period" (fun opts v => { opts with Period := v })
  >>= ifChangedInt modified "gzip_level" (fun opts v => { opts with GzipLevel := v })
  >>= ifChangedString modified "format" (fun opts v => { opts with Format := v })
  >>= ifChangedInt modified "format_version" (fun opts v => { opts with FormatVersion := v })
  >>= ifChangedString modified "response_condition" (fun opts v => { opts with ResponseCondition := v })
  >>= ifChangedString modified "message_type" (fun opts v => { opts with MessageType := v })
  >>= ifChangedString modified "timestamp_format" (fun opts v => { opts with TimestampFormat := v })
  >>= ifChangedString modified "public_key" (fun opts v => { opts with PublicKey := v })

/-- The method `Update`: the payload is built and sent, and the error of the
client call `conn.UpdateCloudfiles` is returned. -/
def Update (UpdateCloudfiles : UpdateCloudfilesInput → Option GoError) (serviceID : String)
    (resource modified : GoMap) (serviceVersion : Int) : Option (Option GoError) :=
  (updateOpts serviceID serviceVersion resource modified).map fun opts =>
    UpdateCloudfiles opts

/-- The method `buildCreate`. The helper `getVCLLoggingAttributes` is defined
outside the files at hand and is taken as a parameter (it may panic on an
ill-typed attribute). The struct literal is built in source order: the fields
read from `vla` cannot fail, the others assert the type of one attribute each;
then come the `gzip_level` guard (a comma-ok assertion, which never panics) and
the `response_condition` guard. -/
def buildCreate (getVCLLoggingAttributes : GoMap → Option VCLLoggingAttributes)
    (cloudfilesMap : GoAny) (serviceID : String) (serviceVersion : Int) :
    Option CreateCloudfilesInput :=
  assertMap cloudfilesMap >>= fun df =>
  getVCLLoggingAttributes df >>= fun vla =>
  some ({ Format := some vla.format
          FormatVersion := vla.formatVersion
          Placement := some vla.placement
          ServiceID := serviceID
          ServiceVersion := serviceVersion } : CreateCloudfilesInput)
  >>= fieldString df "access_key" (fun opts v => { opts with AccessKey := v })
  >>= fieldString df "bucket_name" (fun opts v => { opts with BucketName := v })
  >>= fieldString df "compression_codec" (fun opts v => { opts with CompressionCodec := v })
  >>= fieldString df "message_type" (fun opts v => { opts with MessageType := v })
  >>= fieldString df "name" (fun opts v => { opts with Name := v })
  >>= fieldString df "path" (fun opts v => { opts with Path := v })
  >>= fieldInt df "period" (fun opts v => { opts with Period := v })
  >>= fieldString df "public_key" (fun opts v => { opts with PublicKey := v })
  >>= fieldString df "region" (fun opts v => { opts with Region := v })
  >>= fieldString df "timestamp_format" (fun opts v => { opts with TimestampFormat := v })
  >>= fieldString df "user" (fun opts v => { opts with User := v })
  >>= (fun opts =>
        match assertInt (df "gzip_level") with
        | some gl => if gl ≠ -1 then some { opts with GzipLevel := some gl } else some opts
        | none => some opts)
  >>= (fun opts =>
        if vla.responseCondition ≠ "" then
          some { opts with ResponseCondition := some vla.responseCondition }
        else
          some opts)

/-- The method `buildDelete`: the delete payload, built from the element's `name`
alone. -/
def buildDelete (cloudfilesMap : GoAny) (serviceID : String) (serviceVersion : Int) :
    Option DeleteCloudfilesInput :=
  assertMap cloudfilesMap >>= fun df =>
  (assertString (df "name")).map fun name =>
    { ServiceID := serviceID, ServiceVersion := serviceVersion, Name := name }

end CloudfilesServiceAttributeHandler

/-- The function `deleteCloudfiles`: the error of the client call
`conn.DeleteCloudfiles` is returned unless it is an HTTP error classified as
not found. -/
def deleteCloudfiles (DeleteCloudfiles : DeleteCloudfilesInput → Option GoError)
    (i : DeleteCloudfilesInput) : Option GoError :=
  let err := DeleteCloudfiles i
  match err with
  | some (.http errRes) => if !errRes.IsNotFound then err else none
  | _ => err

/-! ## Example elements -/

/-- A backend element of a VCL service, with every attribute of the schema. -/
def exampleBackend : GoMap := GoMap.ofList
  [ ("address", .str "origin.example.com"),
    ("auto_loadbalance", .bool false),
    ("between_bytes_timeout", .int 10000),
    ("connect_timeout", .int 1000),
    ("error_threshold", .int 0),
    ("first_byte_timeout", .int 15000),
    ("healthcheck", .str ""),
    ("max_conn", .int 200),
    ("max_tls_version", .str ""),
    ("min_tls_version", .str ""),
    ("name", .str "origin"),
    ("override_host", .str ""),
    ("port", .int 80),
    ("shield", .str ""),
    ("ssl_ca_cert", .str ""),
    ("ssl_cert_hostname", .str ""),
    ("ssl_check_cert", .bool true),
    ("ssl_ciphers", .str ""),
    ("ssl_client_cert", .str ""),
    ("ssl_client_key", .str ""),
    ("ssl_sni_hostname", .str ""),
    ("use_ssl", .bool false),
    ("weight", .int 100),
    ("request_condition", .str "") ]

/-- A Cloud Files element of a VCL service whose `gzip_level` is an explicit 0. -/
def exampleCloudfiles : GoMap := GoMap.ofList
  [ ("access_key", .str "secret"),
    ("bucket_name", .str "logs"),
    ("compression_codec", .str ""),
    ("gzip_level", .int 0),
    ("message_type", .str "classic"),
    ("name", .str "cf"),
    ("path", .str ""),
    ("period", .int 3600),
    ("public_key", .str ""),
    ("region", .str "ORD"),
    ("timestamp_format", .str "%Y-%m-%dT%H:%M:%S.000"),
    ("user", .str "me"),
    ("format", .str "%h"),
    ("format_version", .int 2),
    ("response_condition", .str "always"),
    ("placement", .str "none") ]

/-- The VCL logging attributes of `exampleCloudfiles`. -/
def exampleVLA : VCLLoggingAttributes :=
  { format := "%h", formatVersion := some 2, placement := "none", responseCondition := "always" }

/-! ## Cloud Files logging: state projection -/

/-- The fields of the remote `gofastly.Cloudfiles` read by `flattenCloudfiles`. -/
structure Cloudfiles where
  Name : String
  BucketName : String
  User : String
  AccessKey : String
  PublicKey : String
  GzipLevel : Int
  MessageType : String
  Path : String
  Region : String
  Period : Int
  TimestampFormat : String
  Format : String
  FormatVersion : Int
  Placement : String
  ResponseCondition : String
  CompressionCodec : String
  deriving DecidableEq, Repr

/-- The loop `for k, v := range m { if v == "" { delete(m, k) } }`: every key whose
value is the empty string is deleted; a value of another type never equals `""`. -/
def GoMap.pruneEmpty (m : GoMap) : GoMap := fun k =>
  match m k with
  | some (.str "") => none
  | x => x

/-- The loop of `flattenCloudfiles` over the prior state for one remote element
`ll`: the elements of `state` are visited in order, each is asserted to be a map
with a string `name`; an element of the same name has its `gzip_level` asserted
to be an int, and the first such element whose `gzip_level` is `-1` overwrites
`ll.GzipLevel` and ends the loop. The result is `ll` after the loop. -/
def carryGzipLevel (ll : Cloudfiles) : List GoAny → Option Cloudfiles
  | [] => some ll
  | s :: rest =>
    assertMap s >>= fun v =>
    assertString (v "name") >>= fun name =>
    if name = ll.Name then
      assertInt (v "gzip_level") >>= fun gzipLevel =>
      if gzipLevel = -1 then some { ll with GzipLevel := gzipLevel }
      else carryGzipLevel ll rest
    else carryGzipLevel ll rest

/-- The map `nll` that `flattenCloudfiles` builds for a remote element, after the
pruning of empty values. -/
def cloudfilesStateMap (ll : Cloudfiles) : GoMap :=
  GoMap.pruneEmpty (GoMap.ofList
    [ ("name", .str ll.Name),
      ("bucket_name", .str ll.BucketName),
      ("user", .str ll.User),
      ("access_key", .str ll.AccessKey),
      ("public_key", .str ll.PublicKey),
      ("gzip_level", .int ll.GzipLevel),
      ("message_type", .str ll.MessageType),
      ("path", .str ll.Path),
      ("region", .str ll.Region),
      ("period", .int ll.Period),
      ("timestamp_format", .str ll.TimestampFormat),
      ("format", .str ll.Format),
      ("format_version", .int ll.FormatVersion),
      ("placement", .str ll.Placement),
      ("response_condition", .str ll.ResponseCondition),
      ("compression_codec", .str ll.CompressionCodec) ])

/-- The function `flattenCloudfiles`: for each remote element in order, the
carry-forward loop over `state`, then the state map of the element as the loop
left it. A failed type assertion on `state` panics (`none`). -/
def flattenCloudfiles : List Cloudfiles → List GoAny → Option (List GoMap)
  | [], _ => some []
  | ll :: rest, state =>
    carryGzipLevel ll state >>= fun ll =>
    (flattenCloudfiles rest state).map fun lsl => cloudfilesStateMap ll :: lsl

/-- The remote list as `flattenCloudfiles` leaves it: the list holds pointers, so
the assignment `ll.GzipLevel = ...` of the loop is visible to the caller. -/
def cloudfilesListAfterFlatten : List Cloudfiles → List GoAny → Option (List Cloudfiles)
  | [], _ => some []
  | ll :: rest, state =>
    carryGzipLevel ll state >>= fun ll =>
    (cloudfilesListAfterFlatten rest state).map fun l => ll :: l

/-- The prior state handed to `flattenCloudfiles` is well typed for the loop: every
element is a map with a string `name` and an int `gzip_level`. -/
def wellTypedState (state : List GoAny) : Bool :=
  state.all fun s =>
    match s with
    | .map v => wellTypedElement [("name", .TypeString), ("gzip_level", .TypeInt)] v
    | .value _ => false

/-- A list of state maps, as the `[]any` a later read receives as prior state. -/
def asState (maps : List GoMap) : List GoAny := maps.map GoAny.map

/-- The prior state holds an element named `name` whose `gzip_level` is the
sentinel `-1`. -/
def hasSentinel (state : List GoAny) (name : String) : Bool :=
  state.any fun s =>
    match s with
    | .map v => v "name" == some (.str name) && v "gzip_level" == some (.int (-1))
    | .value _ => false

/-- A remote Cloud Files endpoint with gzip level 5. -/
def exampleRemoteCloudfiles : Cloudfiles :=
  { Name := "cf", BucketName := "logs", User := "me", AccessKey := "secret", PublicKey := "",
    GzipLevel := 5, MessageType := "classic", Path := "", Region := "ORD", Period := 3600,
    TimestampFormat := "%Y-%m-%dT%H:%M:%S.000", Format := "%h", FormatVersion := 2,
    Placement := "none", ResponseCondition := "", CompressionCodec := "" }

namespace CloudfilesServiceAttributeHandler

/-- The attributes whose type `buildCreate` asserts itself with a panicking
assertion: every attribute of the schema except `gzip_level` (read with a
comma-ok assertion) and the four VCL-only attributes (read by
`getVCLLoggingAttributes`). -/
def assertedFields : List (String × FieldType) :=
  (GetSchema { serviceType := ServiceTypeVCL }).filter fun kt =>
    kt.1 ∉ ["gzip_level", "format", "format_version", "response_condition", "placement"]

end CloudfilesServiceAttributeHandler



/-! ## TLS subscription validation -/

/-- The constant `subscriptionStateIssued`. -/
def subscriptionStateIssued : String := "issued"

/-- The `schema.ResourceData` of a subscription validation, as far as the code
reads and writes it: the resource ID (`d.Id()`, `d.SetId`) and the attribute
`subscription_id`, which the schema declares as a required string. -/
structure ResourceData where
  Id : String
  subscription_id : String
  deriving DecidableEq, Repr

/-- The field of `gofastly.TLSSubscription` read by the code. -/
structure TLSSubscription where
  State : String
  deriving DecidableEq, Repr

/-- The outcome of one call `conn.GetTLSSubscription`: a subscription, or a non-nil
error. -/
inductive LookupResult where
  | ok (subscription : TLSSubscription)
  | failed (err : GoError)
  deriving DecidableEq, Repr

/-- The function `resourceFastlyTLSSubscriptionValidationRead`, given the outcome
of its lookup: the resource data after the call and the diagnostics returned
(`none` for nil, `some err` for `diag.FromErr(err)`). -/
def resourceFastlyTLSSubscriptionValidationRead (lookup : LookupResult) (d : ResourceData) :
    ResourceData × Option GoError :=
  let subscriptionID := d.subscription_id
  match lookup with
  | .failed err =>
    match err with
    | .http e => if e.IsNotFound then ({ d with Id := "" }, none) else (d, some err)
    | .other _ => (d, some err)
  | .ok subscription =>
    if subscription.State ≠ subscriptionStateIssued then ({ d with Id := "" }, none)
    else ({ d with Id := subscriptionID }, none)

/-- The SDK's `resource.RetryError`: the error and whether the poll may go on. -/
structure RetryError where
  Err : GoError
  Retryable : Bool
  deriving DecidableEq, Repr

/-- The SDK constructor `resource.RetryableError`. -/
def RetryableError (err : GoError) : RetryError := { Err := err, Retryable := true }

/-- The SDK constructor `resource.NonRetryableError`. -/
def NonRetryableError (err : GoError) : RetryError := { Err := err, Retryable := false }

/-- The state a poll works on: the resource data, and how many lookups the remote
API has answered so far (the answer to a lookup may change from call to call). -/
structure PollState where
  d : ResourceData
  calls : Nat
  deriving DecidableEq, Repr

/-- The closure handed to `resource.RetryContext` in
`resourceFastlyTLSSubscriptionValidationCreate`. `GetTLSSubscription n` is the
answer of the remote API to the lookup number `n`; the helper `diagToErr` is
defined outside the files at hand and is taken as a parameter. -/
def validationRetryFunc (GetTLSSubscription : Nat → LookupResult)
    (diagToErr : Option GoError → Option GoError) (s : PollState) :
    PollState × Option RetryError :=
  match GetTLSSubscription s.calls with
  | .failed err => ({ s with calls := s.calls + 1 }, some (NonRetryableError err))
  | .ok subscription =>
    if subscription.State ≠ subscriptionStateIssued then
      ({ s with calls := s.calls + 1 },
        some (RetryableError (.other ("Expected subscription state to be " ++
          subscriptionStateIssued ++ " but it was " ++ subscription.State))))
    else
      let r := resourceFastlyTLSSubscriptionValidationRead (GetTLSSubscription (s.calls + 1)) s.d
      match diagToErr r.2 with
      | some err => ({ d := r.1, calls := s.calls + 2 }, some (NonRetryableError err))
      | none => ({ d := r.1, calls := s.calls + 2 }, none)

/-- Modelled from the spec: `resource.RetryContext` belongs to the SDK; the spec
describes it as "polling with backoff rather than erroring immediately, up to a
caller-supplied timeout". The function is called until it returns nil or an
error that is not retryable; the timeout is a bound on the number of attempts,
and when it is reached the last error is returned (`last`, initially the error
of the timeout itself). -/
def RetryContext {σ : Type} (f : σ → σ × Option RetryError) :
    Nat → GoError → σ → σ × Option GoError
  | 0, last, s => (s, some last)
  | attempts + 1, _, s =>
    match f s with
    | (s', none) => (s', none)
    | (s', some e) => if e.Retryable then RetryContext f attempts e.Err s' else (s', some e.Err)

/-- The function `resourceFastlyTLSSubscriptionValidationCreate`: the poll, and its
error as diagnostics. `attempts` stands for the timeout of the create. -/
def resourceFastlyTLSSubscriptionValidationCreate (GetTLSSubscription : Nat → LookupResult)
    (diagToErr : Option GoError → Option GoError) (attempts : Nat) (d : ResourceData) :
    ResourceData × Option GoError :=
  let r := RetryContext (validationRetryFunc GetTLSSubscription diagToErr) attempts
    (.other "timeout while waiting for state to become 'success'") { d := d, calls := 0 }
  (r.1.d, r.2)

/-! ## Datacenters and the slice a projection returns -/

/-- A Go slice as its caller can tell it apart: the nil slice, or a slice that is
not nil with its elements in order (possibly none, as `make([]T, 0)`). -/
inductive GoSlice (α : Type) where
  | nil
  | slice (elems : List α)

/-- The elements of a slice; the nil slice has none. -/
def GoSlice.toList {α : Type} : GoSlice α → List α
  | .nil => []
  | .slice elems => elems

/-- Whether a slice is the nil slice. -/
def GoSlice.isNil {α : Type} : GoSlice α → Bool
  | .nil => true
  | .slice _ => false

/-- The fields of `gofastly.Datacenter` read by `flattenDatacenters`. -/
structure Datacenter where
  Code : String := ""
  Name : String := ""
  Group : String := ""
  Shield : String := ""
  deriving DecidableEq, Repr

/-- The function `flattenDatacenters`: `result` is made with the length of the
input (so it is never nil) and returned at once for an empty input; otherwise
its slot `i` receives the map of the datacenter `i` after the pruning loop. -/
def flattenDatacenters (datacenters : List Datacenter) : GoSlice GoMap :=
  if datacenters.length = 0 then
    .slice []
  else
    .slice (datacenters.map fun resource =>
      GoMap.pruneEmpty (GoMap.ofList
        [ ("code", .str resource.Code),
          ("name", .str resource.Name),
          ("group", .str resource.Group),
          ("shield", .str resource.Shield) ]))

/-- The slice `flattenBackend` returns: `result` is made with
`make([]map[string]any, 0, len(backendList))`, which is not nil, and stays so
under `append`. -/
def flattenBackendResult (backendList : List Backend) (sa : ServiceMetadata) : GoSlice GoMap :=
  .slice (flattenBackend backendList sa)

/-! ## Schema defaults and the block flags -/

/-- The `Required` and `Optional` flags of the set-typed block a `GetSchema`
returns. -/
structure BlockFlags where
  Required : Bool
  Optional : Bool
  deriving DecidableEq, Repr

namespace BackendServiceAttributeHandler

/-- The `Default` of every block attribute of `GetSchema` that declares one, in
source order (`address` and `name` are required and declare none);
`request_condition` is added for a VCL service. -/
def GetSchemaDefaults (sa : ServiceMetadata) : List (String × Value) :=
  let blockAttributes : List (String × Value) :=
    [ ("auto_loadbalance", .bool false),
      ("between_bytes_timeout", .int 10000),
      ("connect_timeout", .int 1000),
      ("error_threshold", .int 0),
      ("first_byte_timeout", .int 15000),
      ("healthcheck", .str ""),
      ("max_conn", .int 200),
      ("max_tls_version", .str ""),
      ("min_tls_version", .str ""),
      ("override_host", .str ""),
      ("port", .int 80),
      ("shield", .str ""),
      ("ssl_ca_cert", .str ""),
      ("ssl_cert_hostname", .str ""),
      ("ssl_check_cert", .bool true),
      ("ssl_ciphers", .str ""),
      ("ssl_client_cert", .str ""),
      ("ssl_client_key", .str ""),
      ("ssl_sni_hostname", .str ""),
      ("use_ssl", .bool false),
      ("weight", .int 100) ]
  if sa.serviceType = ServiceTypeVCL then
    blockAttributes ++ [("request_condition", .str "")]
  else
    blockAttributes

/-- The flags of the block `GetSchema` returns: `required := false`, then
`Required: required, Optional: !required`, for every service type. -/
def GetSchemaBlock (_sa : ServiceMetadata) : BlockFlags :=
  let required := false
  { Required := required, Optional := !required }

/-- The method `Read`. `ListBackends` is the client call `conn.ListBackends` for a
service ID and a version, `dSet` is the result of `d.Set(h.GetKey(), bl)` and
`errorText` the text `%s` prints for an error; `id` is `d.Id()`, `resources` the
elements of the block in state and `imported` the attribute of that name. The
result is the lines logged and the error returned. -/
def Read (ListBackends : String → Int → Except GoError (List Backend))
    (dSet : List GoMap → Option GoError) (errorText : GoError → String)
    (sa : ServiceMetadata) (id : String) (resources : List GoAny) (imported : Bool)
    (serviceVersion : Int) : List String × Option GoError :=
  if resources.length > 0 ∨ imported = true then
    let debug := "[DEBUG] Refreshing Backends for (" ++ id ++ ")"
    match ListBackends id serviceVersion with
    | .error err =>
      ([debug], some (.other ("error looking up Backends for (" ++ id ++ "), version (" ++
        toString serviceVersion ++ "): " ++ errorText err)))
    | .ok backendList =>
      let bl := flattenBackend backendList sa
      match dSet bl with
      | some err =>
        ([debug, "[WARN] Error setting Backends for (" ++ id ++ "): " ++ errorText err], none)
      | none => ([debug], none)
  else
    ([], none)

end BackendServiceAttributeHandler

namespace CloudfilesServiceAttributeHandler

/-- The `Default` of every block attribute of `GetSchema` that declares one, in
source order; `format_version` is added for a VCL service (the other VCL
attributes declare none). -/
def GetSchemaDefaults (sa : ServiceMetadata) : List (String × Value) :=
  let blockAttributes : List (String × Value) :=
    [ ("gzip_level", .int (-1)),
      ("message_type", .str "classic"),
      ("period", .int 3600),
      ("timestamp_format", .str "%Y-%m-%dT%H:%M:%S.000") ]
  if sa.serviceType = ServiceTypeVCL then
    blockAttributes ++ [("format_version", .int 2)]
  else
    blockAttributes

/-- The flags of the block `GetSchema` returns: `Optional: true`, and `Required`
left at its zero value, for every service type. -/
def GetSchemaBlock (_sa : ServiceMetadata) : BlockFlags :=
  { Required := false, Optional := true }

/-- The method `Read`. `ListCloudfiles` is the client call `conn.ListCloudfiles`
for a service ID and a version, `dSet` is the result of `d.Set(h.GetKey(), ell)`
and `errorText` the text `%s` prints for an error; the helper
`pruneVCLLoggingAttributes` is defined outside the files at hand and is taken as
a parameter, as the map it leaves behind. The result is the lines logged and
the error returned; a failed type assertion of `flattenCloudfiles` panics
(`none`). -/
def Read (ListCloudfiles : String → Int → Except GoError (List Cloudfiles))
    (pruneVCLLoggingAttributes : GoMap → GoMap)
    (dSet : List GoMap → Option GoError) (errorText : GoError → String)
    (id : String) (resources : List GoAny) (imported : Bool)
    (serviceVersion : Int) : Option (List String × Option GoError) :=
  if resources.length > 0 ∨ imported = true then
    let debug := "[DEBUG] Refreshing Cloud Files logging endpoints for (" ++ id ++ ")"
    match ListCloudfiles id serviceVersion with
    | .error err =>
      some ([debug], some (.other ("error looking up Cloud Files logging endpoints for (" ++
        id ++ "), version (" ++ toString serviceVersion ++ "): " ++ errorText err)))
    | .ok cloudfilesList =>
      (flattenCloudfiles cloudfilesList resources).map fun ell =>
        let ell := ell.map pruneVCLLoggingAttributes
        match dSet ell with
        | some err =>
          ([debug, "[WARN] Error setting Cloud Files logging endpoints for (" ++ id ++ "): " ++
            errorText err], none)
        | none => ([debug], none)
  else
    some ([], none)

end CloudfilesServiceAttributeHandler

/-- The text of an error of the examples: the message of a plain error, the status
code for an HTTP error. -/
def exampleErrorText : GoError → String
  | .http e => toString e.StatusCode
  | .other msg => msg

end Fastly

namespace Fastly

/-! ## Lemmas on the building blocks -/

theorem typedLookup_string {x : Option Value} (h : typedLookup x .TypeString = true) :
    x = none ∨ ∃ s, x = some (.str s) := by
  rcases x with _ | v
  · exact Or.inl rfl
  · cases v <;> simp [typedLookup, Value.hasType] at h ⊢

theorem typedLookup_int {x : Option Value} (h : typedLookup x .TypeInt = true) :
    x = none ∨ ∃ i, x = some (.int i) := by
  rcases x with _ | v
  · exact Or.inl rfl
  · cases v <;> simp [typedLookup, Value.hasType] at h ⊢

theorem typedLookup_bool {x : Option Value} (h : typedLookup x .TypeBool = true) :
    x = none ∨ ∃ b, x = some (.bool b) := by
  rcases x with _ | v
  · exact Or.inl rfl
  · cases v <;> simp [typedLookup, Value.hasType] at h ⊢

theorem ifChangedString_eq {α : Type} (modified : GoMap) (k : String)
    (assign : α → Option String → α) (opts : α)
    (hty : typedLookup (modified k) .TypeString = true) (hnil : assign opts none = opts) :
    ifChangedString modified k assign opts = some (assign opts (assertString (modified k))) := by
  rcases typedLookup_string hty with h | ⟨s, h⟩ <;> simp [ifChangedString, h, assertString, hnil]

theorem ifChangedStringWhen_eq {α : Type} (gate : Prop) [Decidable gate] (modified : GoMap)
    (k : String) (assign : α → Option String → α) (opts : α)
    (hty : gate → typedLookup (modified k) .TypeString = true)
    (hnil : assign opts none = opts) :
    ifChangedStringWhen gate modified k assign opts =
      some (assign opts (if gate then assertString (modified k) else none)) := by
  by_cases hg : gate
  · rcases typedLookup_string (hty hg) with h | ⟨s, h⟩ <;>
      simp [ifChangedStringWhen, h, hg, assertString, hnil]
  · rcases h : modified k with _ | v <;> simp [ifChangedStringWhen, h, hg, hnil]

theorem wellTypedChange_lookup {schema : List (String × FieldType)} {modified : GoMap}
    (h : wellTypedChange schema modified = true) {k : String} {t : FieldType}
    (hk : (k, t) ∈ schema) : typedLookup (modified k) t = true := by
  simp only [wellTypedChange, List.all_eq_true] at h
  exact h (k, t) hk

theorem ifChangedInt_eq {α : Type} (modified : GoMap) (k : String)
    (assign : α → Option Int → α) (opts : α)
    (hty : typedLookup (modified k) .TypeInt = true) (hnil : assign opts none = opts) :
    ifChangedInt modified k assign opts = some (assign opts (assertInt (modified k))) := by
  rcases typedLookup_int hty with h | ⟨s, h⟩ <;> simp [ifChangedInt, h, assertInt, hnil]

theorem ifChangedBool_eq {α : Type} (modified : GoMap) (k : String)
    (assign : α → Option Bool → α) (opts : α)
    (hty : typedLookup (modified k) .TypeBool = true) (hnil : assign opts none = opts) :
    ifChangedBool modified k assign opts = some (assign opts (assertBool (modified k))) := by
  rcases typedLookup_bool hty with h | ⟨s, h⟩ <;> simp [ifChangedBool, h, assertBool, hnil]

/-! ## The backend update payload -/

open BackendServiceAttributeHandler

/-- The payload of `buildUpdateBackendInput` in closed form, for a resource with a
string name and a well-typed `modified`. -/
theorem buildUpdateBackendInput_eq (sa : ServiceMetadata) (serviceID : String)
    (latestVersion : Int) (resource modified : GoMap) (name : String)
    (hname : resource "name" = some (.str name))
    (hty : wellTypedChange (GetSchema sa) modified = true) :
    buildUpdateBackendInput sa serviceID latestVersion resource modified =
      some
        { ServiceID := serviceID
          ServiceVersion := latestVersion
          Name := name
          Address := assertString (modified "address")
          Port := assertInt (modified "port")
          OverrideHost := assertString (modified "override_host")
          ConnectTimeout := assertInt (modified "connect_timeout")
          MaxConn := assertInt (modified "max_conn")
          ErrorThreshold := assertInt (modified "error_threshold")
          FirstByteTimeout := assertInt (modified "first_byte_timeout")
          BetweenBytesTimeout := assertInt (modified "between_bytes_timeout")
          AutoLoadbalance := assertBool (modified "auto_loadbalance")
          Weight := assertInt (modified "weight")
          RequestCondition :=
            if sa.serviceType = ServiceTypeVCL then assertString (modified "request_condition")
            else none
          HealthCheck := assertString (modified "healthcheck")
          Shield := assertString (modified "shield")
          UseSSL := assertBool (modified "use_ssl")
          SSLCheckCert := assertBool (modified "ssl_check_cert")
          SSLCACert := assertString (modified "ssl_ca_cert")
          SSLClientCert := assertString (modified "ssl_client_cert")
          SSLClientKey := assertString (modified "ssl_client_key")
          SSLCertHostname := assertString (modified "ssl_cert_hostname")
          SSLSNIHostname := assertString (modified "ssl_sni_hostname")
          MinTLSVersion := assertString (modified "min_tls_version")
          MaxTLSVersion := assertString (modified "max_tls_version")
          SSLCiphers := assertString (modified "ssl_ciphers") } := by
  have hmem : ∀ k t, (k, t) ∈ GetSchema { serviceType := "" } →
      typedLookup (modified k) t = true := by
    intro k t hk
    apply wellTypedChange_lookup hty
    unfold GetSchema at hk ⊢
    split
    · exact List.mem_append_left _ (by simpa [ServiceTypeVCL] using hk)
    · simpa [ServiceTypeVCL] using hk
  have hrc : sa.serviceType = ServiceTypeVCL →
      typedLookup (modified "request_condition") .TypeString = true := by
    intro hvcl
    apply wellTypedChange_lookup hty
    simp [GetSchema, hvcl]
  unfold buildUpdateBackendInput
  rw [hname, show assertString (some (Value.str name)) = some name from rfl]
  simp only [Option.map_some', Option.some_bind, bind]
  rw [ifChangedString_eq modified "address" _ _ (hmem _ _ (by simp [GetSchema, ServiceTypeVCL])) rfl]
  simp only [Option.some_bind]
  rw [ifChangedInt_eq modified "port" _ _ (hmem _ _ (by simp [GetSchema, ServiceTypeVCL])) rfl]
  simp only [Option.some_bind]
  rw [ifChangedString_eq modified "override_host" _ _ (hmem _ _ (by simp [GetSchema, ServiceTypeVCL])) rfl]
  simp only [Option.some_bind]
  rw [ifChangedInt_eq modified "connect_timeout" _ _ (hmem _ _ (by simp [GetSchema, ServiceTypeVCL])) rfl]
  simp only [Option.some_bind]
  rw [ifChangedInt_eq modified "max_conn" _ _ (hmem _ _ (by simp [GetSchema, ServiceTypeVCL])) rfl]
  simp only [Option.some_bind]
  rw [ifChangedInt_eq modified "error_threshold" _ _ (hmem _ _ (by simp [GetSchema, ServiceTypeVCL])) rfl]
  simp only [Option.some_bind]
  rw [ifChangedInt_eq modified "first_byte_timeout" _ _ (hmem _ _ (by simp [GetSchema, ServiceTypeVCL])) rfl]
  simp only [Option.some_bind]
  rw [ifChangedInt_eq modified "between_bytes_timeout" _ _ (hmem _ _ (by simp [GetSchema, ServiceTypeVCL])) rfl]
  simp only [Option.some_bind]
  rw [ifChangedBool_eq modified "auto_loadbalance" _ _ (hmem _ _ (by simp [GetSchema, ServiceTypeVCL])) rfl]
  simp only [Option.some_bind]
  rw [ifChangedInt_eq modified "weight" _ _ (hmem _ _ (by simp [GetSchema, ServiceTypeVCL])) rfl]
  simp only [Option.some_bind]
  rw [ifChangedStringWhen_eq _ modified "request_condition" _ _ hrc rfl]
  simp only [Option.some_bind]
  rw [ifChangedString_eq modified "healthcheck" _ _ (hmem _ _ (by simp [GetSchema, ServiceTypeVCL])) rfl]
  simp only [Option.some_bind]
  rw [ifChangedString_eq modified "shield" _ _ (hmem _ _ (by simp [GetSchema, ServiceTypeVCL])) rfl]
  simp only [Option.some_bind]
  rw [ifChangedBool_eq modified "use_ssl" _ _ (hmem _ _ (by simp [GetSchema, ServiceTypeVCL])) rfl]
  simp only [Option.some_bind]
  rw [ifChangedBool_eq modified "ssl_check_cert" _ _ (hmem _ _ (by simp [GetSchema, ServiceTypeVCL])) rfl]
  simp only [Option.some_bind]
  rw [ifChangedString_eq modified "ssl_ca_cert" _ _ (hmem _ _ (by simp [GetSchema, ServiceTypeVCL])) rfl]
  simp only [Option.some_bind]
  rw [ifChangedString_eq modified "ssl_client_cert" _ _ (hmem _ _ (by simp [GetSchema, ServiceTypeVCL])) rfl]
  simp only [Option.some_bind]
  rw [ifChangedString_eq modified "ssl_client_key" _ _ (hmem _ _ (by simp [GetSchema, ServiceTypeVCL])) rfl]
  simp only [Option.some_bind]
  rw [ifChangedString_eq modified "ssl_cert_hostname" _ _ (hmem _ _ (by simp [GetSchema, ServiceTypeVCL])) rfl]
  simp only [Option.some_bind]
  rw [ifChangedString_eq modified "ssl_sni_hostname" _ _ (hmem _ _ (by simp [GetSchema, ServiceTypeVCL])) rfl]
  simp only [Option.some_bind]
  rw [ifChangedString_eq modified "min_tls_version" _ _ (hmem _ _ (by simp [GetSchema, ServiceTypeVCL])) rfl]
  simp only [Option.some_bind]
  rw [ifChangedString_eq modified "max_tls_version" _ _ (hmem _ _ (by simp [GetSchema, ServiceTypeVCL])) rfl]
  simp only [Option.some_bind]
  rw [ifChangedString_eq modified "ssl_ciphers" _ _ (hmem _ _ (by simp [GetSchema, ServiceTypeVCL])) rfl]


theorem assertString_map_str {x : Option Value} (h : typedLookup x .TypeString = true) :
    (assertString x).map Value.str = x := by
  rcases typedLookup_string h with h | ⟨s, h⟩ <;> simp [h, assertString]

theorem assertInt_map_int {x : Option Value} (h : typedLookup x .TypeInt = true) :
    (assertInt x).map Value.int = x := by
  rcases typedLookup_int h with h | ⟨s, h⟩ <;> simp [h, assertInt]

theorem assertBool_map_bool {x : Option Value} (h : typedLookup x .TypeBool = true) :
    (assertBool x).map Value.bool = x := by
  rcases typedLookup_bool h with h | ⟨s, h⟩ <;> simp [h, assertBool]

/-- What the backend update payload sends: on every updatable attribute, the value
`modified` holds, except that `request_condition` is sent for a VCL service
only. -/
theorem buildUpdateBackendInput_wire (sa : ServiceMetadata) (serviceID : String)
    (latestVersion : Int) (resource modified : GoMap) (name : String)
    (hname : resource "name" = some (.str name))
    (hty : wellTypedChange (GetSchema sa) modified = true) :
    ∃ opts, buildUpdateBackendInput sa serviceID latestVersion resource modified = some opts ∧
      opts.ServiceID = serviceID ∧ opts.ServiceVersion = latestVersion ∧ opts.Name = name ∧
      ∀ k ∈ updatableFields, opts.wire k =
        if k = "request_condition" ∧ sa.serviceType ≠ ServiceTypeVCL then none else modified k := by
  refine ⟨_, buildUpdateBackendInput_eq sa serviceID latestVersion resource modified name hname hty,
    rfl, rfl, rfl, ?_⟩
  have hmem : ∀ k t, (k, t) ∈ GetSchema { serviceType := "" } →
      typedLookup (modified k) t = true := by
    intro k t hk
    apply wellTypedChange_lookup hty
    unfold GetSchema at hk ⊢
    split
    · exact List.mem_append_left _ (by simpa [ServiceTypeVCL] using hk)
    · simpa [ServiceTypeVCL] using hk
  have hrc : sa.serviceType = ServiceTypeVCL →
      typedLookup (modified "request_condition") .TypeString = true := by
    intro hvcl
    apply wellTypedChange_lookup hty
    simp [GetSchema, hvcl]
  intro k hk
  simp only [updatableFields, GetSchema, ServiceTypeVCL, if_true, List.map_append, List.map_cons,
    List.map_nil, List.cons_append, List.nil_append] at hk
  simp at hk
  have hS := fun k (h : (k, FieldType.TypeString) ∈ GetSchema { serviceType := "" }) =>
    assertString_map_str (hmem k _ h)
  have hI := fun k (h : (k, FieldType.TypeInt) ∈ GetSchema { serviceType := "" }) =>
    assertInt_map_int (hmem k _ h)
  have hB := fun k (h : (k, FieldType.TypeBool) ∈ GetSchema { serviceType := "" }) =>
    assertBool_map_bool (hmem k _ h)
  rcases hk with rfl | rfl | rfl | rfl | rfl | rfl | rfl | rfl | rfl | rfl | rfl | rfl | rfl |
    rfl | rfl | rfl | rfl | rfl | rfl | rfl | rfl | rfl | rfl
  · simp [UpdateBackendInput.wire, hS "address" (by simp [GetSchema, ServiceTypeVCL])]
  · simp [UpdateBackendInput.wire, hB "auto_loadbalance" (by simp [GetSchema, ServiceTypeVCL])]
  · simp [UpdateBackendInput.wire, hI "between_bytes_timeout" (by simp [GetSchema, ServiceTypeVCL])]
  · simp [UpdateBackendInput.wire, hI "connect_timeout" (by simp [GetSchema, ServiceTypeVCL])]
  · simp [UpdateBackendInput.wire, hI "error_threshold" (by simp [GetSchema, ServiceTypeVCL])]
  · simp [UpdateBackendInput.wire, hI "first_byte_timeout" (by simp [GetSchema, ServiceTypeVCL])]
  · simp [UpdateBackendInput.wire, hS "healthcheck" (by simp [GetSchema, ServiceTypeVCL])]
  · simp [UpdateBackendInput.wire, hI "max_conn" (by simp [GetSchema, ServiceTypeVCL])]
  · simp [UpdateBackendInput.wire, hS "max_tls_version" (by simp [GetSchema, ServiceTypeVCL])]
  · simp [UpdateBackendInput.wire, hS "min_tls_version" (by simp [GetSchema, ServiceTypeVCL])]
  · simp [UpdateBackendInput.wire, hS "override_host" (by simp [GetSchema, ServiceTypeVCL])]
  · simp [UpdateBackendInput.wire, hI "port" (by simp [GetSchema, ServiceTypeVCL])]
  · simp [UpdateBackendInput.wire, hS "shield" (by simp [GetSchema, ServiceTypeVCL])]
  · simp [UpdateBackendInput.wire, hS "ssl_ca_cert" (by simp [GetSchema, ServiceTypeVCL])]
  · simp [UpdateBackendInput.wire, hS "ssl_cert_hostname" (by simp [GetSchema, ServiceTypeVCL])]
  · simp [UpdateBackendInput.wire, hB "ssl_check_cert" (by simp [GetSchema, ServiceTypeVCL])]
  · simp [UpdateBackendInput.wire, hS "ssl_ciphers" (by simp [GetSchema, ServiceTypeVCL])]
  · simp [UpdateBackendInput.wire, hS "ssl_client_cert" (by simp [GetSchema, ServiceTypeVCL])]
  · simp [UpdateBackendInput.wire, hS "ssl_client_key" (by simp [GetSchema, ServiceTypeVCL])]
  · simp [UpdateBackendInput.wire, hS "ssl_sni_hostname" (by simp [GetSchema, ServiceTypeVCL])]
  · simp [UpdateBackendInput.wire, hB "use_ssl" (by simp [GetSchema, ServiceTypeVCL])]
  · simp [UpdateBackendInput.wire, hI "weight" (by simp [GetSchema, ServiceTypeVCL])]
  · by_cases hvcl : sa.serviceType = ServiceTypeVCL
    · simp [UpdateBackendInput.wire, hvcl, assertString_map_str (hrc hvcl)]
    · simp [UpdateBackendInput.wire, hvcl]

/-- C1: for a resource with a string name and a well-typed `modified`,
`buildUpdateBackendInput` returns a payload addressed by the given service ID,
version and the resource's name, in which each of the 23 updatable fields is set
if and only if its key is present in `modified` (for `request_condition`: and the
service type is VCL), every set field holds exactly the value stored in
`modified`, and an empty `modified` yields the payload with no optional field. -/
theorem buildUpdateBackendInput_sets_exactly_modified (sa : ServiceMetadata)
    (serviceID : String) (latestVersion : Int) (resource modified : GoMap) (name : String)
    (hname : resource "name" = some (.str name))
    (hty : wellTypedChange (GetSchema sa) modified = true) :
    ∃ opts, buildUpdateBackendInput sa serviceID latestVersion resource modified = some opts ∧
      opts.ServiceID = serviceID ∧ opts.ServiceVersion = latestVersion ∧ opts.Name = name ∧
      updatableFields.length = 23 ∧
      (∀ k ∈ updatableFields,
        ((opts.wire k).isSome = true ↔
          ((modified k).isSome = true ∧
            (k = "request_condition" → sa.serviceType = ServiceTypeVCL))) ∧
        ∀ v, opts.wire k = some v → modified k = some v) ∧
      ((∀ k, modified k = none) →
        opts = { ServiceID := serviceID, ServiceVersion := latestVersion, Name := name }) := by
  obtain ⟨opts, hopts, hid, hver, hnm, hwire⟩ :=
    buildUpdateBackendInput_wire sa serviceID latestVersion resource modified name hname hty
  refine ⟨opts, hopts, hid, hver, hnm, by decide, ?_, ?_⟩
  · intro k hk
    rw [hwire k hk]
    by_cases hg : k = "request_condition" ∧ sa.serviceType ≠ ServiceTypeVCL
    · rw [if_pos hg]
      refine ⟨?_, fun v hv => by simp at hv⟩
      simp only [Option.isSome_none, Bool.false_eq_true, false_iff, not_and]
      intro _ h
      exact hg.2 (h hg.1)
    · rw [if_neg hg]
      refine ⟨?_, fun v hv => hv⟩
      constructor
      · intro h
        exact ⟨h, fun hk => by_contra fun hn => hg ⟨hk, hn⟩⟩
      · exact fun h => h.1
  · intro hempty
    rw [buildUpdateBackendInput_eq sa serviceID latestVersion resource modified name hname hty]
      at hopts
    rw [← Option.some.inj hopts]
    simp [hempty, assertString, assertInt, assertBool]

/-- C1, at a concrete input: a VCL backend named `origin` whose port changed. -/
theorem buildUpdateBackendInput_sets_exactly_modified_witness :
    ∃ opts,
      buildUpdateBackendInput { serviceType := ServiceTypeVCL } "svc" 3
        (GoMap.ofList [("name", .str "origin"), ("port", .int 80)])
        (GoMap.ofList [("port", .int 8080)]) = some opts ∧
      opts.ServiceID = "svc" ∧ opts.ServiceVersion = 3 ∧ opts.Name = "origin" ∧
      updatableFields.length = 23 ∧
      (∀ k ∈ updatableFields,
        ((opts.wire k).isSome = true ↔
          (((GoMap.ofList [("port", .int 8080)]) k).isSome = true ∧
            (k = "request_condition" →
              ({ serviceType := ServiceTypeVCL } : ServiceMetadata).serviceType =
                ServiceTypeVCL))) ∧
        ∀ v, opts.wire k = some v → (GoMap.ofList [("port", .int 8080)]) k = some v) ∧
      ((∀ k, (GoMap.ofList [("port", .int 8080)]) k = none) →
        opts = { ServiceID := "svc", ServiceVersion := 3, Name := "origin" }) :=
  buildUpdateBackendInput_sets_exactly_modified { serviceType := ServiceTypeVCL } "svc" 3
    (GoMap.ofList [("name", .str "origin"), ("port", .int 80)])
    (GoMap.ofList [("port", .int 8080)]) "origin" (by decide) (by decide)

/-! ## The Cloud Files update payload -/

/-- The payload of the Cloud Files `Update` in closed form, for a resource with a
string name and a well-typed `modified`. -/
theorem CloudfilesServiceAttributeHandler.updateOpts_eq (serviceID : String)
    (serviceVersion : Int) (resource modified : GoMap) (name : String)
    (hname : resource "name" = some (.str name))
    (hty : wellTypedChange
      (CloudfilesServiceAttributeHandler.GetSchema { serviceType := ServiceTypeVCL })
      modified = true) :
    CloudfilesServiceAttributeHandler.updateOpts serviceID serviceVersion resource modified =
      some
        { ServiceID := serviceID
          ServiceVersion := serviceVersion
          Name := name
          User := assertString (modified "user")
          AccessKey := assertString (modified "access_key")
          BucketName := assertString (modified "bucket_name")
          Path := assertString (modified "path")
          Region := assertString (modified "region")
          Placement := assertString (modified "placement")
          Period := assertInt (modified "period")
          GzipLevel := assertInt (modified "gzip_level")
          Format := assertString (modified "format")
          FormatVersion := assertInt (modified "format_version")
          ResponseCondition := assertString (modified "response_condition")
          MessageType := assertString (modified "message_type")
          TimestampFormat := assertString (modified "timestamp_format")
          PublicKey := assertString (modified "public_key") } := by
  have hmem : ∀ k t,
      (k, t) ∈ CloudfilesServiceAttributeHandler.GetSchema { serviceType := ServiceTypeVCL } →
      typedLookup (modified k) t = true :=
    fun k t hk => wellTypedChange_lookup hty hk
  unfold CloudfilesServiceAttributeHandler.updateOpts
  rw [hname, show assertString (some (Value.str name)) = some name from rfl]
  simp only [Option.map_some', Option.some_bind, bind]
  rw [ifChangedString_eq modified "user" _ _
    (hmem _ _ (by simp [CloudfilesServiceAttributeHandler.GetSchema])) rfl]
  simp only [Option.some_bind]
  rw [ifChangedString_eq modified "access_key" _ _
    (hmem _ _ (by simp [CloudfilesServiceAttributeHandler.GetSchema])) rfl]
  simp only [Option.some_bind]
  rw [ifChangedString_eq modified "bucket_name" _ _
    (hmem _ _ (by simp [CloudfilesServiceAttributeHandler.GetSchema])) rfl]
  simp only [Option.some_bind]
  rw [ifChangedString_eq modified "path" _ _
    (hmem _ _ (by simp [CloudfilesServiceAttributeHandler.GetSchema])) rfl]
  simp only [Option.some_bind]
  rw [ifChangedString_eq modified "region" _ _
    (hmem _ _ (by simp [CloudfilesServiceAttributeHandler.GetSchema])) rfl]
  simp only [Option.some_bind]
  rw [ifChangedString_eq modified "placement" _ _
    (hmem _ _ (by simp [CloudfilesServiceAttributeHandler.GetSchema])) rfl]
  simp only [Option.some_bind]
  rw [ifChangedInt_eq modified "period" _ _
    (hmem _ _ (by simp [CloudfilesServiceAttributeHandler.GetSchema])) rfl]
  simp only [Option.some_bind]
  rw [ifChangedInt_eq modified "gzip_level" _ _
    (hmem _ _ (by simp [CloudfilesServiceAttributeHandler.GetSchema])) rfl]
  simp only [Option.some_bind]
  rw [ifChangedString_eq modified "format" _ _
    (hmem _ _ (by simp [CloudfilesServiceAttributeHandler.GetSchema])) rfl]
  simp only [Option.some_bind]
  rw [ifChangedInt_eq modified "format_version" _ _
    (hmem _ _ (by simp [CloudfilesServiceAttributeHandler.GetSchema])) rfl]
  simp only [Option.some_bind]
  rw [ifChangedString_eq modified "response_condition" _ _
    (hmem _ _ (by simp [CloudfilesServiceAttributeHandler.GetSchema])) rfl]
  simp only [Option.some_bind]
  rw [ifChangedString_eq modified "message_type" _ _
    (hmem _ _ (by simp [CloudfilesServiceAttributeHandler.GetSchema])) rfl]
  simp only [Option.some_bind]
  rw [ifChangedString_eq modified "timestamp_format" _ _
    (hmem _ _ (by simp [CloudfilesServiceAttributeHandler.GetSchema])) rfl]
  simp only [Option.some_bind]
  rw [ifChangedString_eq modified "public_key" _ _
    (hmem _ _ (by simp [CloudfilesServiceAttributeHandler.GetSchema])) rfl]

/-- What the Cloud Files update payload sends: for each of the fourteen attributes
`Update` has a block for, the value `modified` holds; nothing for any other
key (`compression_codec` included). -/
theorem CloudfilesServiceAttributeHandler.updateOpts_wire (serviceID : String)
    (serviceVersion : Int) (resource modified : GoMap) (name : String)
    (hname : resource "name" = some (.str name))
    (hty : wellTypedChange
      (CloudfilesServiceAttributeHandler.GetSchema { serviceType := ServiceTypeVCL })
      modified = true) :
    ∃ opts,
      CloudfilesServiceAttributeHandler.updateOpts serviceID serviceVersion resource modified =
        some opts ∧
      opts.ServiceID = serviceID ∧ opts.ServiceVersion = serviceVersion ∧ opts.Name = name ∧
      ∀ k, opts.wire k =
        if k ∈ ["user", "access_key", "bucket_name", "path", "region", "placement", "period",
            "gzip_level", "format", "format_version", "response_condition", "message_type",
            "timestamp_format", "public_key"] then modified k
        else none := by
  refine ⟨_, CloudfilesServiceAttributeHandler.updateOpts_eq serviceID serviceVersion resource
    modified name hname hty, rfl, rfl, rfl, ?_⟩
  have hmem : ∀ k t,
      (k, t) ∈ CloudfilesServiceAttributeHandler.GetSchema { serviceType := ServiceTypeVCL } →
      typedLookup (modified k) t = true :=
    fun k t hk => wellTypedChange_lookup hty hk
  have h_user := assertString_map_str (hmem "user" _ (by simp [CloudfilesServiceAttributeHandler.GetSchema]))
  have h_access_key := assertString_map_str (hmem "access_key" _ (by simp [CloudfilesServiceAttributeHandler.GetSchema]))
  have h_bucket_name := assertString_map_str (hmem "bucket_name" _ (by simp [CloudfilesServiceAttributeHandler.GetSchema]))
  have h_path := assertString_map_str (hmem "path" _ (by simp [CloudfilesServiceAttributeHandler.GetSchema]))
  have h_region := assertString_map_str (hmem "region" _ (by simp [CloudfilesServiceAttributeHandler.GetSchema]))
  have h_placement := assertString_map_str (hmem "placement" _ (by simp [CloudfilesServiceAttributeHandler.GetSchema]))
  have h_period := assertInt_map_int (hmem "period" _ (by simp [CloudfilesServiceAttributeHandler.GetSchema]))
  have h_gzip_level := assertInt_map_int (hmem "gzip_level" _ (by simp [CloudfilesServiceAttributeHandler.GetSchema]))
  have h_format := assertString_map_str (hmem "format" _ (by simp [CloudfilesServiceAttributeHandler.GetSchema]))
  have h_format_version := assertInt_map_int (hmem "format_version" _ (by simp [CloudfilesServiceAttributeHandler.GetSchema]))
  have h_response_condition := assertString_map_str (hmem "response_condition" _ (by simp [CloudfilesServiceAttributeHandler.GetSchema]))
  have h_message_type := assertString_map_str (hmem "message_type" _ (by simp [CloudfilesServiceAttributeHandler.GetSchema]))
  have h_timestamp_format := assertString_map_str (hmem "timestamp_format" _ (by simp [CloudfilesServiceAttributeHandler.GetSchema]))
  have h_public_key := assertString_map_str (hmem "public_key" _ (by simp [CloudfilesServiceAttributeHandler.GetSchema]))
  intro k
  by_cases hk : k ∈ ["user", "access_key", "bucket_name", "path", "region", "placement", "period",
      "gzip_level", "format", "format_version", "response_condition", "message_type",
      "timestamp_format", "public_key"]
  · rw [if_pos hk]
    simp only [List.mem_cons, List.mem_singleton, List.not_mem_nil, or_false] at hk
    rcases hk with rfl | rfl | rfl | rfl | rfl | rfl | rfl | rfl | rfl | rfl | rfl | rfl | rfl | rfl
    · simp [UpdateCloudfilesInput.wire, h_user]
    · simp [UpdateCloudfilesInput.wire, h_access_key]
    · simp [UpdateCloudfilesInput.wire, h_bucket_name]
    · simp [UpdateCloudfilesInput.wire, h_path]
    · simp [UpdateCloudfilesInput.wire, h_region]
    · simp [UpdateCloudfilesInput.wire, h_placement]
    · simp [UpdateCloudfilesInput.wire, h_period]
    · simp [UpdateCloudfilesInput.wire, h_gzip_level]
    · simp [UpdateCloudfilesInput.wire, h_format]
    · simp [UpdateCloudfilesInput.wire, h_format_version]
    · simp [UpdateCloudfilesInput.wire, h_response_condition]
    · simp [UpdateCloudfilesInput.wire, h_message_type]
    · simp [UpdateCloudfilesInput.wire, h_timestamp_format]
    · simp [UpdateCloudfilesInput.wire, h_public_key]
  · rw [if_neg hk]
    simp only [List.mem_cons, List.mem_singleton, List.not_mem_nil, or_false, not_or] at hk
    obtain ⟨n1, n2, n3, n4, n5, n6, n7, n8, n9, n10, n11, n12, n13, n14⟩ := hk
    simp [UpdateCloudfilesInput.wire, n1, n2, n3, n4, n5, n6, n7, n8, n9, n10, n11, n12, n13, n14]

/-- C2: for a resource with a string name and a well-typed `modified` (typed
against the VCL schema, which contains the schema of every service type), the
Cloud Files update payload exists and sends no attribute whose key is absent
from `modified`, whatever `resource` holds for it. -/
theorem cloudfiles_update_sends_only_modified (serviceID : String) (serviceVersion : Int)
    (resource modified : GoMap) (name : String)
    (hname : resource "name" = some (.str name))
    (hty : wellTypedChange
      (CloudfilesServiceAttributeHandler.GetSchema { serviceType := ServiceTypeVCL })
      modified = true) :
    ∃ opts,
      CloudfilesServiceAttributeHandler.updateOpts serviceID serviceVersion resource modified =
        some opts ∧
      ∀ k, modified k = none → opts.wire k = none := by
  obtain ⟨opts, hopts, -, -, -, hwire⟩ :=
    CloudfilesServiceAttributeHandler.updateOpts_wire serviceID serviceVersion resource
      modified name hname hty
  refine ⟨opts, hopts, fun k hk => ?_⟩
  rw [hwire k]
  split_ifs
  · exact hk
  · rfl

/-! ## Create payloads -/

theorem wellTypedElement_lookup {schema : List (String × FieldType)} {e : GoMap}
    (h : wellTypedElement schema e = true) {k : String} {t : FieldType}
    (hk : (k, t) ∈ schema) : ∃ v, e k = some v ∧ v.hasType t = true := by
  simp only [wellTypedElement, List.all_eq_true] at h
  have := h (k, t) hk
  rcases hv : e k with _ | v
  · simp [hv] at this
  · exact ⟨v, rfl, by simpa [hv] using this⟩

theorem wellTypedElement_string {schema : List (String × FieldType)} {e : GoMap}
    (h : wellTypedElement schema e = true) {k : String}
    (hk : (k, FieldType.TypeString) ∈ schema) : ∃ s, e k = some (.str s) := by
  obtain ⟨v, hv, ht⟩ := wellTypedElement_lookup h hk
  cases v <;> simp [Value.hasType] at ht
  exact ⟨_, hv⟩

theorem wellTypedElement_int {schema : List (String × FieldType)} {e : GoMap}
    (h : wellTypedElement schema e = true) {k : String}
    (hk : (k, FieldType.TypeInt) ∈ schema) : ∃ i, e k = some (.int i) := by
  obtain ⟨v, hv, ht⟩ := wellTypedElement_lookup h hk
  cases v <;> simp [Value.hasType] at ht
  exact ⟨_, hv⟩

theorem wellTypedElement_bool {schema : List (String × FieldType)} {e : GoMap}
    (h : wellTypedElement schema e = true) {k : String}
    (hk : (k, FieldType.TypeBool) ∈ schema) : ∃ b, e k = some (.bool b) := by
  obtain ⟨v, hv, ht⟩ := wellTypedElement_lookup h hk
  cases v <;> simp [Value.hasType] at ht
  exact ⟨_, hv⟩

theorem fieldString_eq {α : Type} (m : GoMap) (k : String) (assign : α → Option String → α)
    (opts : α) (h : ∃ s, m k = some (.str s)) :
    fieldString m k assign opts = some (assign opts (assertString (m k))) := by
  obtain ⟨s, hs⟩ := h
  simp [fieldString, hs, assertString]

theorem fieldInt_eq {α : Type} (m : GoMap) (k : String) (assign : α → Option Int → α)
    (opts : α) (h : ∃ i, m k = some (.int i)) :
    fieldInt m k assign opts = some (assign opts (assertInt (m k))) := by
  obtain ⟨s, hs⟩ := h
  simp [fieldInt, hs, assertInt]

theorem fieldBool_eq {α : Type} (m : GoMap) (k : String) (assign : α → Option Bool → α)
    (opts : α) (h : ∃ b, m k = some (.bool b)) :
    fieldBool m k assign opts = some (assign opts (assertBool (m k))) := by
  obtain ⟨s, hs⟩ := h
  simp [fieldBool, hs, assertBool]

/-- The payload of the Cloud Files `buildCreate` in closed form, for a well-typed
element whose `gzip_level` is `g` and the record `vla` of its VCL logging
attributes. -/
theorem CloudfilesServiceAttributeHandler.buildCreate_eq
    (getVCLLoggingAttributes : GoMap → Option VCLLoggingAttributes) (sa : ServiceMetadata)
    (df : GoMap) (serviceID : String) (serviceVersion : Int) (vla : VCLLoggingAttributes)
    (g : Int)
    (hty : wellTypedElement (CloudfilesServiceAttributeHandler.GetSchema sa) df = true)
    (hvla : getVCLLoggingAttributes df = some vla)
    (hg : df "gzip_level" = some (.int g)) :
    CloudfilesServiceAttributeHandler.buildCreate getVCLLoggingAttributes (.map df) serviceID
        serviceVersion =
      some
        { Format := some vla.format
          FormatVersion := vla.formatVersion
          Placement := some vla.placement
          ServiceID := serviceID
          ServiceVersion := serviceVersion
          AccessKey := assertString (df "access_key")
          BucketName := assertString (df "bucket_name")
          CompressionCodec := assertString (df "compression_codec")
          MessageType := assertString (df "message_type")
          Name := assertString (df "name")
          Path := assertString (df "path")
          Period := assertInt (df "period")
          PublicKey := assertString (df "public_key")
          Region := assertString (df "region")
          TimestampFormat := assertString (df "timestamp_format")
          User := assertString (df "user")
          GzipLevel := if g ≠ -1 then some g else none
          ResponseCondition :=
            if vla.responseCondition ≠ "" then some vla.responseCondition else none } := by
  have hS : ∀ k, (k, FieldType.TypeString) ∈
      CloudfilesServiceAttributeHandler.GetSchema { serviceType := "" } →
      ∃ s, df k = some (.str s) := by
    intro k hk
    apply wellTypedElement_string hty
    unfold CloudfilesServiceAttributeHandler.GetSchema at hk ⊢
    split
    · exact List.mem_append_left _ (by simpa [ServiceTypeVCL] using hk)
    · simpa [ServiceTypeVCL] using hk
  have hI : ∀ k, (k, FieldType.TypeInt) ∈
      CloudfilesServiceAttributeHandler.GetSchema { serviceType := "" } →
      ∃ s, df k = some (.int s) := by
    intro k hk
    apply wellTypedElement_int hty
    unfold CloudfilesServiceAttributeHandler.GetSchema at hk ⊢
    split
    · exact List.mem_append_left _ (by simpa [ServiceTypeVCL] using hk)
    · simpa [ServiceTypeVCL] using hk
  unfold CloudfilesServiceAttributeHandler.buildCreate
  simp only [assertMap, hvla, Option.some_bind, bind]
  rw [fieldString_eq df "access_key" _ _
    (hS _ (by simp [CloudfilesServiceAttributeHandler.GetSchema, ServiceTypeVCL]))]
  simp only [Option.some_bind]
  rw [fieldString_eq df "bucket_name" _ _
    (hS _ (by simp [CloudfilesServiceAttributeHandler.GetSchema, ServiceTypeVCL]))]
  simp only [Option.some_bind]
  rw [fieldString_eq df "compression_codec" _ _
    (hS _ (by simp [CloudfilesServiceAttributeHandler.GetSchema, ServiceTypeVCL]))]
  simp only [Option.some_bind]
  rw [fieldString_eq df "message_type" _ _
    (hS _ (by simp [CloudfilesServiceAttributeHandler.GetSchema, ServiceTypeVCL]))]
  simp only [Option.some_bind]
  rw [fieldString_eq df "name" _ _
    (hS _ (by simp [CloudfilesServiceAttributeHandler.GetSchema, ServiceTypeVCL]))]
  simp only [Option.some_bind]
  rw [fieldString_eq df "path" _ _
    (hS _ (by simp [CloudfilesServiceAttributeHandler.GetSchema, ServiceTypeVCL]))]
  simp only [Option.some_bind]
  rw [fieldInt_eq df "period" _ _
    (hI _ (by simp [CloudfilesServiceAttributeHandler.GetSchema, ServiceTypeVCL]))]
  simp only [Option.some_bind]
  rw [fieldString_eq df "public_key" _ _
    (hS _ (by simp [CloudfilesServiceAttributeHandler.GetSchema, ServiceTypeVCL]))]
  simp only [Option.some_bind]
  rw [fieldString_eq df "region" _ _
    (hS _ (by simp [CloudfilesServiceAttributeHandler.GetSchema, ServiceTypeVCL]))]
  simp only [Option.some_bind]
  rw [fieldString_eq df "timestamp_format" _ _
    (hS _ (by simp [CloudfilesServiceAttributeHandler.GetSchema, ServiceTypeVCL]))]
  simp only [Option.some_bind]
  rw [fieldString_eq df "user" _ _
    (hS _ (by simp [CloudfilesServiceAttributeHandler.GetSchema, ServiceTypeVCL]))]
  simp only [Option.some_bind]
  rw [hg]
  simp only [assertInt]
  by_cases h1 : g = -1 <;> by_cases h2 : vla.responseCondition = "" <;> simp [h1, h2]

/-- The schema of a service type other than VCL (here the empty one) is the
common part of the schema of every service type. -/
theorem backend_schema_mem_of_base {sa : ServiceMetadata} {kt : String × FieldType}
    (h : kt ∈ BackendServiceAttributeHandler.GetSchema { serviceType := "" }) :
    kt ∈ BackendServiceAttributeHandler.GetSchema sa := by
  unfold BackendServiceAttributeHandler.GetSchema at h ⊢
  split
  · exact List.mem_append_left _ (by simpa [ServiceTypeVCL] using h)
  · simpa [ServiceTypeVCL] using h

/-- The payload of `buildCreateBackendInput` in closed form, for a well-typed
element whose `override_host` is `overrideHost`. -/
theorem BackendServiceAttributeHandler.buildCreateBackendInput_eq (sa : ServiceMetadata)
    (service : String) (latestVersion : Int) (df : GoMap) (overrideHost : String)
    (hty : wellTypedElement (BackendServiceAttributeHandler.GetSchema sa) df = true)
    (hoh : df "override_host" = some (.str overrideHost)) :
    BackendServiceAttributeHandler.buildCreateBackendInput sa service latestVersion df =
      some
        { ServiceID := service
          ServiceVersion := latestVersion
          Address := assertString (df "address")
          AutoLoadbalance := assertBool (df "auto_loadbalance")
          BetweenBytesTimeout := assertInt (df "between_bytes_timeout")
          ConnectTimeout := assertInt (df "connect_timeout")
          ErrorThreshold := assertInt (df "error_threshold")
          FirstByteTimeout := assertInt (df "first_byte_timeout")
          HealthCheck := assertString (df "healthcheck")
          MaxConn := assertInt (df "max_conn")
          MaxTLSVersion := assertString (df "max_tls_version")
          MinTLSVersion := assertString (df "min_tls_version")
          Name := assertString (df "name")
          Port := assertInt (df "port")
          SSLCACert := assertString (df "ssl_ca_cert")
          SSLCertHostname := assertString (df "ssl_cert_hostname")
          SSLCheckCert := assertBool (df "ssl_check_cert")
          SSLCiphers := assertString (df "ssl_ciphers")
          SSLClientCert := assertString (df "ssl_client_cert")
          SSLClientKey := assertString (df "ssl_client_key")
          SSLSNIHostname := assertString (df "ssl_sni_hostname")
          Shield := assertString (df "shield")
          UseSSL := assertBool (df "use_ssl")
          Weight := assertInt (df "weight")
          OverrideHost := if overrideHost ≠ "" then some overrideHost else none
          RequestCondition :=
            if sa.serviceType = ServiceTypeVCL then assertString (df "request_condition")
            else none } := by
  have hS : ∀ k, (k, FieldType.TypeString) ∈
      BackendServiceAttributeHandler.GetSchema { serviceType := "" } →
      ∃ s, df k = some (.str s) :=
    fun k hk => wellTypedElement_string hty (backend_schema_mem_of_base hk)
  have hI : ∀ k, (k, FieldType.TypeInt) ∈
      BackendServiceAttributeHandler.GetSchema { serviceType := "" } →
      ∃ s, df k = some (.int s) :=
    fun k hk => wellTypedElement_int hty (backend_schema_mem_of_base hk)
  have hB : ∀ k, (k, FieldType.TypeBool) ∈
      BackendServiceAttributeHandler.GetSchema { serviceType := "" } →
      ∃ s, df k = some (.bool s) :=
    fun k hk => wellTypedElement_bool hty (backend_schema_mem_of_base hk)
  unfold BackendServiceAttributeHandler.buildCreateBackendInput
  simp only [Option.some_bind, bind]
  rw [fieldString_eq df "address" _ _
    (hS _ (by simp [BackendServiceAttributeHandler.GetSchema, ServiceTypeVCL]))]
  simp only [Option.some_bind]
  rw [fieldBool_eq df "auto_loadbalance" _ _
    (hB _ (by simp [BackendServiceAttributeHandler.GetSchema, ServiceTypeVCL]))]
  simp only [Option.some_bind]
  rw [fieldInt_eq df "between_bytes_timeout" _ _
    (hI _ (by simp [BackendServiceAttributeHandler.GetSchema, ServiceTypeVCL]))]
  simp only [Option.some_bind]
  rw [fieldInt_eq df "connect_timeout" _ _
    (hI _ (by simp [BackendServiceAttributeHandler.GetSchema, ServiceTypeVCL]))]
  simp only [Option.some_bind]
  rw [fieldInt_eq df "error_threshold" _ _
    (hI _ (by simp [BackendServiceAttributeHandler.GetSchema, ServiceTypeVCL]))]
  simp only [Option.some_bind]
  rw [fieldInt_eq df "first_byte_timeout" _ _
    (hI _ (by simp [BackendServiceAttributeHandler.GetSchema, ServiceTypeVCL]))]
  simp only [Option.some_bind]
  rw [fieldString_eq df "healthcheck" _ _
    (hS _ (by simp [BackendServiceAttributeHandler.GetSchema, ServiceTypeVCL]))]
  simp only [Option.some_bind]
  rw [fieldInt_eq df "max_conn" _ _
    (hI _ (by simp [BackendServiceAttributeHandler.GetSchema, ServiceTypeVCL]))]
  simp only [Option.some_bind]
  rw [fieldString_eq df "max_tls_version" _ _
    (hS _ (by simp [BackendServiceAttributeHandler.GetSchema, ServiceTypeVCL]))]
  simp only [Option.some_bind]
  rw [fieldString_eq df "min_tls_version" _ _
    (hS _ (by simp [BackendServiceAttributeHandler.GetSchema, ServiceTypeVCL]))]
  simp only [Option.some_bind]
  rw [fieldString_eq df "name" _ _
    (hS _ (by simp [BackendServiceAttributeHandler.GetSchema, ServiceTypeVCL]))]
  simp only [Option.some_bind]
  rw [fieldInt_eq df "port" _ _
    (hI _ (by simp [BackendServiceAttributeHandler.GetSchema, ServiceTypeVCL]))]
  simp only [Option.some_bind]
  rw [fieldString_eq df "ssl_ca_cert" _ _
    (hS _ (by simp [BackendServiceAttributeHandler.GetSchema, ServiceTypeVCL]))]
  simp only [Option.some_bind]
  rw [fieldString_eq df "ssl_cert_hostname" _ _
    (hS _ (by simp [BackendServiceAttributeHandler.GetSchema, ServiceTypeVCL]))]
  simp only [Option.some_bind]
  rw [fieldBool_eq df "ssl_check_cert" _ _
    (hB _ (by simp [BackendServiceAttributeHandler.GetSchema, ServiceTypeVCL]))]
  simp only [Option.some_bind]
  rw [fieldString_eq df "ssl_ciphers" _ _
    (hS _ (by simp [BackendServiceAttributeHandler.GetSchema, ServiceTypeVCL]))]
  simp only [Option.some_bind]
  rw [fieldString_eq df "ssl_client_cert" _ _
    (hS _ (by simp [BackendServiceAttributeHandler.GetSchema, ServiceTypeVCL]))]
  simp only [Option.some_bind]
  rw [fieldString_eq df "ssl_client_key" _ _
    (hS _ (by simp [BackendServiceAttributeHandler.GetSchema, ServiceTypeVCL]))]
  simp only [Option.some_bind]
  rw [fieldString_eq df "ssl_sni_hostname" _ _
    (hS _ (by simp [BackendServiceAttributeHandler.GetSchema, ServiceTypeVCL]))]
  simp only [Option.some_bind]
  rw [fieldString_eq df "shield" _ _
    (hS _ (by simp [BackendServiceAttributeHandler.GetSchema, ServiceTypeVCL]))]
  simp only [Option.some_bind]
  rw [fieldBool_eq df "use_ssl" _ _
    (hB _ (by simp [BackendServiceAttributeHandler.GetSchema, ServiceTypeVCL]))]
  simp only [Option.some_bind]
  rw [fieldInt_eq df "weight" _ _
    (hI _ (by simp [BackendServiceAttributeHandler.GetSchema, ServiceTypeVCL]))]
  simp only [Option.some_bind]
  rw [hoh, show assertString (some (Value.str overrideHost)) = some overrideHost from rfl]
  simp only [Option.map_some', Option.some_bind]
  by_cases hvcl : sa.serviceType = ServiceTypeVCL
  · rw [if_pos hvcl, fieldString_eq df "request_condition" _ _
      (wellTypedElement_string hty (by simp [BackendServiceAttributeHandler.GetSchema, hvcl]))]
    by_cases h1 : overrideHost = "" <;> simp [h1, hvcl]
  · rw [if_neg hvcl]
    by_cases h1 : overrideHost = "" <;> simp [h1, hvcl]

/-! ## Claims on the Cloud Files payloads -/

/-- C2, at a concrete input: only the period of the endpoint `cf` changed. -/
theorem cloudfiles_update_sends_only_modified_witness :
    ∃ opts,
      CloudfilesServiceAttributeHandler.updateOpts "svc" 3 exampleCloudfiles
        (GoMap.ofList [("period", .int 7200)]) = some opts ∧
      ∀ k, (GoMap.ofList [("period", .int 7200)]) k = none → opts.wire k = none :=
  cloudfiles_update_sends_only_modified "svc" 3 exampleCloudfiles
    (GoMap.ofList [("period", .int 7200)]) "cf" (by decide) (by decide)

/-- C3: the schema declares `compression_codec`, yet `Update` has no block for it:
for the well-typed change `compression_codec = "zstd"` of the endpoint `cf` the
update payload carries the service ID, the version and the name and nothing
else, so the changed field is dropped. -/
theorem cloudfiles_update_drops_compression_codec :
    wellTypedChange
        (CloudfilesServiceAttributeHandler.GetSchema { serviceType := ServiceTypeVCL })
        (GoMap.ofList [("compression_codec", .str "zstd")]) = true ∧
      (GoMap.ofList [("compression_codec", .str "zstd")]) "compression_codec" =
        some (.str "zstd") ∧
      CloudfilesServiceAttributeHandler.updateOpts "svc" 3 exampleCloudfiles
          (GoMap.ofList [("compression_codec", .str "zstd")]) =
        some { ServiceID := "svc", ServiceVersion := 3, Name := "cf" } ∧
      (CloudfilesServiceAttributeHandler.updateOpts "svc" 3 exampleCloudfiles
          (GoMap.ofList [("compression_codec", .str "zstd")])).bind
        (fun opts => opts.wire "compression_codec") = none := by
  refine ⟨by decide, by decide, by decide, by decide⟩

/-- C4: for a well-typed Cloud Files element whose `gzip_level` is `g`, `buildCreate`
returns a payload whose `GzipLevel` is unset if and only if `g` is the sentinel
`-1`, and is set to exactly `g` for every other `g` (0 included). -/
theorem buildCreate_gzip_level_unset_iff_sentinel
    (getVCLLoggingAttributes : GoMap → Option VCLLoggingAttributes) (sa : ServiceMetadata)
    (df : GoMap) (serviceID : String) (serviceVersion : Int) (vla : VCLLoggingAttributes)
    (g : Int)
    (hty : wellTypedElement (CloudfilesServiceAttributeHandler.GetSchema sa) df = true)
    (hvla : getVCLLoggingAttributes df = some vla)
    (hg : df "gzip_level" = some (.int g)) :
    ∃ opts,
      CloudfilesServiceAttributeHandler.buildCreate getVCLLoggingAttributes (.map df) serviceID
        serviceVersion = some opts ∧
      (opts.GzipLevel = none ↔ g = -1) ∧ (g ≠ -1 → opts.GzipLevel = some g) := by
  refine ⟨_, CloudfilesServiceAttributeHandler.buildCreate_eq getVCLLoggingAttributes sa df
    serviceID serviceVersion vla g hty hvla hg, ?_, ?_⟩
  · by_cases h : g = -1 <;> simp [h]
  · intro h
    simp [h]

/-- C4, at a concrete input: an explicit `gzip_level = 0` is sent as 0. -/
theorem buildCreate_gzip_level_unset_iff_sentinel_witness :
    ∃ opts,
      CloudfilesServiceAttributeHandler.buildCreate (fun _ => some exampleVLA)
        (.map exampleCloudfiles) "svc" 3 = some opts ∧
      (opts.GzipLevel = none ↔ (0 : Int) = -1) ∧ ((0 : Int) ≠ -1 → opts.GzipLevel = some 0) :=
  buildCreate_gzip_level_unset_iff_sentinel (fun _ => some exampleVLA)
    { serviceType := ServiceTypeVCL } exampleCloudfiles "svc" 3 exampleVLA 0
    (by decide) rfl (by decide)

/-- C6: for a well-typed Cloud Files element and the record `vla` returned by
`getVCLLoggingAttributes`, `buildCreate` returns a payload whose
`ResponseCondition` is unset if and only if `vla.responseCondition` is the empty
string, and is otherwise set to exactly that string. -/
theorem buildCreate_response_condition_unset_iff_empty
    (getVCLLoggingAttributes : GoMap → Option VCLLoggingAttributes) (sa : ServiceMetadata)
    (df : GoMap) (serviceID : String) (serviceVersion : Int) (vla : VCLLoggingAttributes)
    (hty : wellTypedElement (CloudfilesServiceAttributeHandler.GetSchema sa) df = true)
    (hvla : getVCLLoggingAttributes df = some vla) :
    ∃ opts,
      CloudfilesServiceAttributeHandler.buildCreate getVCLLoggingAttributes (.map df) serviceID
        serviceVersion = some opts ∧
      (opts.ResponseCondition = none ↔ vla.responseCondition = "") ∧
      (vla.responseCondition ≠ "" → opts.ResponseCondition = some vla.responseCondition) := by
  obtain ⟨g, hg⟩ : ∃ g, df "gzip_level" = some (.int g) := by
    apply wellTypedElement_int hty
    unfold CloudfilesServiceAttributeHandler.GetSchema
    split <;> simp
  refine ⟨_, CloudfilesServiceAttributeHandler.buildCreate_eq getVCLLoggingAttributes sa df
    serviceID serviceVersion vla g hty hvla hg, ?_, ?_⟩
  · by_cases h : vla.responseCondition = "" <;> simp [h]
  · intro h
    simp [h]

/-- C6, at a concrete input: the response condition `always` is sent. -/
theorem buildCreate_response_condition_unset_iff_empty_witness :
    ∃ opts,
      CloudfilesServiceAttributeHandler.buildCreate (fun _ => some exampleVLA)
        (.map exampleCloudfiles) "svc" 3 = some opts ∧
      (opts.ResponseCondition = none ↔ exampleVLA.responseCondition = "") ∧
      (exampleVLA.responseCondition ≠ "" →
        opts.ResponseCondition = some exampleVLA.responseCondition) :=
  buildCreate_response_condition_unset_iff_empty (fun _ => some exampleVLA)
    { serviceType := ServiceTypeVCL } exampleCloudfiles "svc" 3 exampleVLA (by decide) rfl

/-! ## Claims on `override_host`, delete and the delete payloads -/

/-- C5 does not hold of the update path: no backend payload should carry
`override_host` as an empty string, and the create path leaves `OverrideHost`
unset for an element whose `override_host` is empty, but for the well-typed
change `override_host = ""` of the same element `buildUpdateBackendInput`
returns a payload whose `OverrideHost` is set to the empty string. The update
block misses the guard the create path has. -/
theorem buildUpdateBackendInput_sends_empty_override_host :
    wellTypedElement (BackendServiceAttributeHandler.GetSchema { serviceType := ServiceTypeVCL })
        exampleBackend = true ∧
      exampleBackend "override_host" = some (.str "") ∧
      (BackendServiceAttributeHandler.buildCreateBackendInput { serviceType := ServiceTypeVCL }
          "svc" 3 exampleBackend).map (fun opts => opts.OverrideHost) = some none ∧
      wellTypedChange (BackendServiceAttributeHandler.GetSchema { serviceType := ServiceTypeVCL })
        (GoMap.ofList [("override_host", .str "")]) = true ∧
      (BackendServiceAttributeHandler.buildUpdateBackendInput { serviceType := ServiceTypeVCL }
          "svc" 3 exampleBackend (GoMap.ofList [("override_host", .str "")])).map
        (fun opts => opts.OverrideHost) = some (some "") := by
  refine ⟨by decide, by decide, by decide, by decide, by decide⟩

/-- The reach of the `override_host` guard. For a well-typed element the payload of
`buildCreateBackendInput` never has `OverrideHost` set to the empty string (the
field is unset exactly when the element's `override_host` is empty, and
otherwise holds it); the update block has no such guard, so for a resource with
a string name and a well-typed `modified`, the payload of
`buildUpdateBackendInput` has `OverrideHost` set to the empty string exactly
when `modified` holds `override_host = ""`. -/
theorem override_host_empty_only_on_update (sa : ServiceMetadata) (service : String)
    (latestVersion : Int) (df resource modified : GoMap) (name : String)
    (hdf : wellTypedElement (BackendServiceAttributeHandler.GetSchema sa) df = true)
    (hname : resource "name" = some (.str name))
    (hty : wellTypedChange (BackendServiceAttributeHandler.GetSchema sa) modified = true) :
    (∃ c, BackendServiceAttributeHandler.buildCreateBackendInput sa service latestVersion df =
        some c ∧
      c.OverrideHost ≠ some "" ∧
      (c.OverrideHost = none ↔ df "override_host" = some (.str "")) ∧
      ∀ s, s ≠ "" → df "override_host" = some (.str s) → c.OverrideHost = some s) ∧
    (∃ u, BackendServiceAttributeHandler.buildUpdateBackendInput sa service latestVersion
        resource modified = some u ∧
      (u.OverrideHost = some "" ↔ modified "override_host" = some (.str ""))) := by
  constructor
  · obtain ⟨oh, hoh⟩ : ∃ s, df "override_host" = some (.str s) :=
      wellTypedElement_string hdf (backend_schema_mem_of_base (by
        simp [BackendServiceAttributeHandler.GetSchema, ServiceTypeVCL]))
    refine ⟨_, BackendServiceAttributeHandler.buildCreateBackendInput_eq sa service
      latestVersion df oh hdf hoh, ?_, ?_, ?_⟩
    · by_cases h : oh = "" <;> simp [h]
    · by_cases h : oh = "" <;> simp [h, hoh]
    · intro s hs hdfs
      rw [hoh] at hdfs
      have : oh = s := by simpa using hdfs
      subst this
      simp [hs]
  · refine ⟨_, buildUpdateBackendInput_eq sa service latestVersion resource modified name
      hname hty, ?_⟩
    have h := wellTypedChange_lookup hty (k := "override_host") (t := .TypeString)
      (backend_schema_mem_of_base (by
        simp [BackendServiceAttributeHandler.GetSchema, ServiceTypeVCL]))
    rcases typedLookup_string h with h | ⟨s, h⟩ <;> simp [h, assertString]

/-- The reach of the `override_host` guard at a concrete input: creating
`exampleBackend` (empty `override_host`) and changing its `override_host` to
`""`. -/
theorem override_host_empty_only_on_update_witness :
    (∃ c, BackendServiceAttributeHandler.buildCreateBackendInput
        { serviceType := ServiceTypeVCL } "svc" 3 exampleBackend = some c ∧
      c.OverrideHost ≠ some "" ∧
      (c.OverrideHost = none ↔ exampleBackend "override_host" = some (.str "")) ∧
      ∀ s, s ≠ "" → exampleBackend "override_host" = some (.str s) → c.OverrideHost = some s) ∧
    (∃ u, BackendServiceAttributeHandler.buildUpdateBackendInput
        { serviceType := ServiceTypeVCL } "svc" 3 exampleBackend
        (GoMap.ofList [("override_host", .str "")]) = some u ∧
      (u.OverrideHost = some "" ↔
        (GoMap.ofList [("override_host", .str "")]) "override_host" = some (.str ""))) :=
  override_host_empty_only_on_update { serviceType := ServiceTypeVCL } "svc" 3 exampleBackend
    exampleBackend (GoMap.ofList [("override_host", .str "")]) "origin"
    (by decide) (by decide) (by decide)

/-- C7: when the remote delete call answers with an HTTP error of status 404,
`BackendServiceAttributeHandler.Delete` and `deleteCloudfiles` return no error. -/
theorem delete_not_found_is_success
    (DeleteBackend : DeleteBackendInput → Option GoError)
    (DeleteCloudfiles : DeleteCloudfilesInput → Option GoError)
    (serviceID : String) (resource : GoMap) (serviceVersion : Int)
    (opts : DeleteBackendInput) (i : DeleteCloudfilesInput) (e e' : HTTPError)
    (hopts : BackendServiceAttributeHandler.createDeleteBackendInput serviceID serviceVersion
      resource = some opts)
    (hb : DeleteBackend opts = some (.http e)) (he : e.StatusCode = 404)
    (hc : DeleteCloudfiles i = some (.http e')) (he' : e'.StatusCode = 404) :
    BackendServiceAttributeHandler.Delete DeleteBackend serviceID resource serviceVersion =
        some none ∧
      deleteCloudfiles DeleteCloudfiles i = none := by
  constructor
  · simp [BackendServiceAttributeHandler.Delete, hopts, hb, he]
  · simp [deleteCloudfiles, hc, HTTPError.IsNotFound, he']

/-- C7, at a concrete input: both remote calls answer 404. -/
theorem delete_not_found_is_success_witness :
    BackendServiceAttributeHandler.Delete
        (fun _ => some (.http { StatusCode := 404, Errors := ["Record not found"] }))
        "svc" exampleBackend 3 = some none ∧
      deleteCloudfiles (fun _ => some (.http { StatusCode := 404 }))
        { ServiceID := "svc", ServiceVersion := 3, Name := "cf" } = none :=
  delete_not_found_is_success
    (fun _ => some (.http { StatusCode := 404, Errors := ["Record not found"] }))
    (fun _ => some (.http { StatusCode := 404 })) "svc" exampleBackend 3
    { ServiceID := "svc", ServiceVersion := 3, Name := "origin" }
    { ServiceID := "svc", ServiceVersion := 3, Name := "cf" }
    { StatusCode := 404, Errors := ["Record not found"] } { StatusCode := 404 }
    (by decide) rfl rfl rfl rfl

/-- C8: every result of the remote delete call other than an HTTP error of status
404 is returned unmodified by `BackendServiceAttributeHandler.Delete` and by
`deleteCloudfiles`: nil on success, the same error value for an HTTP error of
another status and for a non-HTTP error. -/
theorem delete_returns_other_results_unmodified
    (DeleteBackend : DeleteBackendInput → Option GoError)
    (DeleteCloudfiles : DeleteCloudfilesInput → Option GoError)
    (serviceID : String) (resource : GoMap) (serviceVersion : Int)
    (opts : DeleteBackendInput) (i : DeleteCloudfilesInput) (r r' : Option GoError)
    (hopts : BackendServiceAttributeHandler.createDeleteBackendInput serviceID serviceVersion
      resource = some opts)
    (hb : DeleteBackend opts = r) (hr : ∀ e, r = some (.http e) → e.StatusCode ≠ 404)
    (hc : DeleteCloudfiles i = r') (hr' : ∀ e, r' = some (.http e) → e.StatusCode ≠ 404) :
    BackendServiceAttributeHandler.Delete DeleteBackend serviceID resource serviceVersion =
        some r ∧
      deleteCloudfiles DeleteCloudfiles i = r' := by
  constructor
  · rcases r with _ | (e | msg)
    · simp [BackendServiceAttributeHandler.Delete, hopts, hb]
    · simp [BackendServiceAttributeHandler.Delete, hopts, hb, hr e rfl]
    · simp [BackendServiceAttributeHandler.Delete, hopts, hb]
  · rcases r' with _ | (e | msg)
    · simp [deleteCloudfiles, hc]
    · simp [deleteCloudfiles, hc, HTTPError.IsNotFound, hr' e rfl]
    · simp [deleteCloudfiles, hc]

/-- C8, at a concrete input: a 500 for the backend, a transport error for Cloud
Files. -/
theorem delete_returns_other_results_unmodified_witness :
    BackendServiceAttributeHandler.Delete
        (fun _ => some (.http { StatusCode := 500, Errors := ["boom"] }))
        "svc" exampleBackend 3 = some (some (.http { StatusCode := 500, Errors := ["boom"] })) ∧
      deleteCloudfiles (fun _ => some (.other "connection reset"))
        { ServiceID := "svc", ServiceVersion := 3, Name := "cf" } =
        some (.other "connection reset") :=
  delete_returns_other_results_unmodified
    (fun _ => some (.http { StatusCode := 500, Errors := ["boom"] }))
    (fun _ => some (.other "connection reset")) "svc" exampleBackend 3
    { ServiceID := "svc", ServiceVersion := 3, Name := "origin" }
    { ServiceID := "svc", ServiceVersion := 3, Name := "cf" }
    (some (.http { StatusCode := 500, Errors := ["boom"] })) (some (.other "connection reset"))
    (by decide) rfl (by intro e h; cases h; decide) rfl (by intro e h; cases h)

/-- C9: for element maps with a string name, `createDeleteBackendInput` and
`buildDelete` return the payload made of the given service ID, the given version
and the element's name, and two elements with the same name yield the same
payload whatever their other fields. -/
theorem delete_payload_keyed_by_name (service : String) (latestVersion : Int)
    (bf bf' : GoMap) (name : String)
    (h : bf "name" = some (.str name)) (h' : bf' "name" = some (.str name)) :
    BackendServiceAttributeHandler.createDeleteBackendInput service latestVersion bf =
        some { ServiceID := service, ServiceVersion := latestVersion, Name := name } ∧
      CloudfilesServiceAttributeHandler.buildDelete (.map bf) service latestVersion =
        some { ServiceID := service, ServiceVersion := latestVersion, Name := name } ∧
      BackendServiceAttributeHandler.createDeleteBackendInput service latestVersion bf' =
        BackendServiceAttributeHandler.createDeleteBackendInput service latestVersion bf ∧
      CloudfilesServiceAttributeHandler.buildDelete (.map bf') service latestVersion =
        CloudfilesServiceAttributeHandler.buildDelete (.map bf) service latestVersion := by
  simp [BackendServiceAttributeHandler.createDeleteBackendInput,
    CloudfilesServiceAttributeHandler.buildDelete, assertMap, assertString, h, h', bind]

/-- C9, at a concrete input: the full backend element and a map holding only the
same name. -/
theorem delete_payload_keyed_by_name_witness :
    BackendServiceAttributeHandler.createDeleteBackendInput "svc" 3 exampleBackend =
        some { ServiceID := "svc", ServiceVersion := 3, Name := "origin" } ∧
      CloudfilesServiceAttributeHandler.buildDelete (.map exampleBackend) "svc" 3 =
        some { ServiceID := "svc", ServiceVersion := 3, Name := "origin" } ∧
      BackendServiceAttributeHandler.createDeleteBackendInput "svc" 3
          (GoMap.ofList [("name", .str "origin")]) =
        BackendServiceAttributeHandler.createDeleteBackendInput "svc" 3 exampleBackend ∧
      CloudfilesServiceAttributeHandler.buildDelete
          (.map (GoMap.ofList [("name", .str "origin")])) "svc" 3 =
        CloudfilesServiceAttributeHandler.buildDelete (.map exampleBackend) "svc" 3 :=
  delete_payload_keyed_by_name "svc" 3 exampleBackend (GoMap.ofList [("name", .str "origin")])
    "origin" (by decide) (by decide)

/-! ## Round trip of a backend through creation and re-read -/

/-- C10: for a well-typed backend element `e` holding exactly the attributes of
the schema of its service type, `buildCreateBackendInput` returns a payload, and
projecting the remote backend whose fields equal those of the payload (unset
fields read back as zero values) with `flattenBackend` gives the one-element
list `[e]`. -/
theorem flattenBackend_buildCreateBackendInput_roundtrip (sa : ServiceMetadata)
    (service : String) (latestVersion : Int) (e : GoMap)
    (hty : wellTypedElement (BackendServiceAttributeHandler.GetSchema sa) e = true)
    (hkeys : ∀ k, k ∉ (BackendServiceAttributeHandler.GetSchema sa).map Prod.fst → e k = none) :
    ∃ p, BackendServiceAttributeHandler.buildCreateBackendInput sa service latestVersion e =
        some p ∧
      flattenBackend [Backend.ofCreateInput p] sa = [e] := by
  obtain ⟨v_address, h_address⟩ := wellTypedElement_string hty (k := "address") (backend_schema_mem_of_base (by
    simp [BackendServiceAttributeHandler.GetSchema, ServiceTypeVCL]))
  obtain ⟨v_auto_loadbalance, h_auto_loadbalance⟩ := wellTypedElement_bool hty (k := "auto_loadbalance") (backend_schema_mem_of_base (by
    simp [BackendServiceAttributeHandler.GetSchema, ServiceTypeVCL]))
  obtain ⟨v_between_bytes_timeout, h_between_bytes_timeout⟩ := wellTypedElement_int hty (k := "between_bytes_timeout") (backend_schema_mem_of_base (by
    simp [BackendServiceAttributeHandler.GetSchema, ServiceTypeVCL]))
  obtain ⟨v_connect_timeout, h_connect_timeout⟩ := wellTypedElement_int hty (k := "connect_timeout") (backend_schema_mem_of_base (by
    simp [BackendServiceAttributeHandler.GetSchema, ServiceTypeVCL]))
  obtain ⟨v_error_threshold, h_error_threshold⟩ := wellTypedElement_int hty (k := "error_threshold") (backend_schema_mem_of_base (by
    simp [BackendServiceAttributeHandler.GetSchema, ServiceTypeVCL]))
  obtain ⟨v_first_byte_timeout, h_first_byte_timeout⟩ := wellTypedElement_int hty (k := "first_byte_timeout") (backend_schema_mem_of_base (by
    simp [BackendServiceAttributeHandler.GetSchema, ServiceTypeVCL]))
  obtain ⟨v_healthcheck, h_healthcheck⟩ := wellTypedElement_string hty (k := "healthcheck") (backend_schema_mem_of_base (by
    simp [BackendServiceAttributeHandler.GetSchema, ServiceTypeVCL]))
  obtain ⟨v_max_conn, h_max_conn⟩ := wellTypedElement_int hty (k := "max_conn") (backend_schema_mem_of_base (by
    simp [BackendServiceAttributeHandler.GetSchema, ServiceTypeVCL]))
  obtain ⟨v_max_tls_version, h_max_tls_version⟩ := wellTypedElement_string hty (k := "max_tls_version") (backend_schema_mem_of_base (by
    simp [BackendServiceAttributeHandler.GetSchema, ServiceTypeVCL]))
  obtain ⟨v_min_tls_version, h_min_tls_version⟩ := wellTypedElement_string hty (k := "min_tls_version") (backend_schema_mem_of_base (by
    simp [BackendServiceAttributeHandler.GetSchema, ServiceTypeVCL]))
  obtain ⟨v_name, h_name⟩ := wellTypedElement_string hty (k := "name") (backend_schema_mem_of_base (by
    simp [BackendServiceAttributeHandler.GetSchema, ServiceTypeVCL]))
  obtain ⟨v_override_host, h_override_host⟩ := wellTypedElement_string hty (k := "override_host") (backend_schema_mem_of_base (by
    simp [BackendServiceAttributeHandler.GetSchema, ServiceTypeVCL]))
  obtain ⟨v_port, h_port⟩ := wellTypedElement_int hty (k := "port") (backend_schema_mem_of_base (by
    simp [BackendServiceAttributeHandler.GetSchema, ServiceTypeVCL]))
  obtain ⟨v_shield, h_shield⟩ := wellTypedElement_string hty (k := "shield") (backend_schema_mem_of_base (by
    simp [BackendServiceAttributeHandler.GetSchema, ServiceTypeVCL]))
  obtain ⟨v_ssl_ca_cert, h_ssl_ca_cert⟩ := wellTypedElement_string hty (k := "ssl_ca_cert") (backend_schema_mem_of_base (by
    simp [BackendServiceAttributeHandler.GetSchema, ServiceTypeVCL]))
  obtain ⟨v_ssl_cert_hostname, h_ssl_cert_hostname⟩ := wellTypedElement_string hty (k := "ssl_cert_hostname") (backend_schema_mem_of_base (by
    simp [BackendServiceAttributeHandler.GetSchema, ServiceTypeVCL]))
  obtain ⟨v_ssl_check_cert, h_ssl_check_cert⟩ := wellTypedElement_bool hty (k := "ssl_check_cert") (backend_schema_mem_of_base (by
    simp [BackendServiceAttributeHandler.GetSchema, ServiceTypeVCL]))
  obtain ⟨v_ssl_ciphers, h_ssl_ciphers⟩ := wellTypedElement_string hty (k := "ssl_ciphers") (backend_schema_mem_of_base (by
    simp [BackendServiceAttributeHandler.GetSchema, ServiceTypeVCL]))
  obtain ⟨v_ssl_client_cert, h_ssl_client_cert⟩ := wellTypedElement_string hty (k := "ssl_client_cert") (backend_schema_mem_of_base (by
    simp [BackendServiceAttributeHandler.GetSchema, ServiceTypeVCL]))
  obtain ⟨v_ssl_client_key, h_ssl_client_key⟩ := wellTypedElement_string hty (k := "ssl_client_key") (backend_schema_mem_of_base (by
    simp [BackendServiceAttributeHandler.GetSchema, ServiceTypeVCL]))
  obtain ⟨v_ssl_sni_hostname, h_ssl_sni_hostname⟩ := wellTypedElement_string hty (k := "ssl_sni_hostname") (backend_schema_mem_of_base (by
    simp [BackendServiceAttributeHandler.GetSchema, ServiceTypeVCL]))
  obtain ⟨v_use_ssl, h_use_ssl⟩ := wellTypedElement_bool hty (k := "use_ssl") (backend_schema_mem_of_base (by
    simp [BackendServiceAttributeHandler.GetSchema, ServiceTypeVCL]))
  obtain ⟨v_weight, h_weight⟩ := wellTypedElement_int hty (k := "weight") (backend_schema_mem_of_base (by
    simp [BackendServiceAttributeHandler.GetSchema, ServiceTypeVCL]))
  refine ⟨_, BackendServiceAttributeHandler.buildCreateBackendInput_eq sa service latestVersion
    e v_override_host hty h_override_host, ?_⟩
  simp only [flattenBackend, List.map_cons, List.map_nil, Backend.ofCreateInput]
  congr 1
  funext k
  by_cases hvcl : sa.serviceType = ServiceTypeVCL
  · obtain ⟨v_rc, h_rc⟩ := wellTypedElement_string hty (k := "request_condition")
      (by simp [BackendServiceAttributeHandler.GetSchema, hvcl])
    by_cases hk : k ∈ (BackendServiceAttributeHandler.GetSchema sa).map Prod.fst
    · simp [BackendServiceAttributeHandler.GetSchema, hvcl] at hk
      rcases hk with rfl | rfl | rfl | rfl | rfl | rfl | rfl | rfl | rfl | rfl | rfl | rfl | rfl |
        rfl | rfl | rfl | rfl | rfl | rfl | rfl | rfl | rfl | rfl | rfl
      · simp [GoMap.ofList, GoMap.set, List.lookup, hvcl, h_address, assertString, assertInt, assertBool]
      · simp [GoMap.ofList, GoMap.set, List.lookup, hvcl, h_auto_loadbalance, assertString, assertInt, assertBool]
      · simp [GoMap.ofList, GoMap.set, List.lookup, hvcl, h_between_bytes_timeout, assertString, assertInt, assertBool]
      · simp [GoMap.ofList, GoMap.set, List.lookup, hvcl, h_connect_timeout, assertString, assertInt, assertBool]
      · simp [GoMap.ofList, GoMap.set, List.lookup, hvcl, h_error_threshold, assertString, assertInt, assertBool]
      · simp [GoMap.ofList, GoMap.set, List.lookup, hvcl, h_first_byte_timeout, assertString, assertInt, assertBool]
      · simp [GoMap.ofList, GoMap.set, List.lookup, hvcl, h_healthcheck, assertString, assertInt, assertBool]
      · simp [GoMap.ofList, GoMap.set, List.lookup, hvcl, h_max_conn, assertString, assertInt, assertBool]
      · simp [GoMap.ofList, GoMap.set, List.lookup, hvcl, h_max_tls_version, assertString, assertInt, assertBool]
      · simp [GoMap.ofList, GoMap.set, List.lookup, hvcl, h_min_tls_version, assertString, assertInt, assertBool]
      · simp [GoMap.ofList, GoMap.set, List.lookup, hvcl, h_name, assertString, assertInt, assertBool]
      · by_cases h0 : v_override_host = "" <;>
          simp [GoMap.ofList, GoMap.set, List.lookup, hvcl, h_override_host, h0]
      · simp [GoMap.ofList, GoMap.set, List.lookup, hvcl, h_port, assertString, assertInt, assertBool]
      · simp [GoMap.ofList, GoMap.set, List.lookup, hvcl, h_shield, assertString, assertInt, assertBool]
      · simp [GoMap.ofList, GoMap.set, List.lookup, hvcl, h_ssl_ca_cert, assertString, assertInt, assertBool]
      · simp [GoMap.ofList, GoMap.set, List.lookup, hvcl, h_ssl_cert_hostname, assertString, assertInt, assertBool]
      · simp [GoMap.ofList, GoMap.set, List.lookup, hvcl, h_ssl_check_cert, assertString, assertInt, assertBool]
      · simp [GoMap.ofList, GoMap.set, List.lookup, hvcl, h_ssl_ciphers, assertString, assertInt, assertBool]
      · simp [GoMap.ofList, GoMap.set, List.lookup, hvcl, h_ssl_client_cert, assertString, assertInt, assertBool]
      · simp [GoMap.ofList, GoMap.set, List.lookup, hvcl, h_ssl_client_key, assertString, assertInt, assertBool]
      · simp [GoMap.ofList, GoMap.set, List.lookup, hvcl, h_ssl_sni_hostname, assertString, assertInt, assertBool]
      · simp [GoMap.ofList, GoMap.set, List.lookup, hvcl, h_use_ssl, assertString, assertInt, assertBool]
      · simp [GoMap.ofList, GoMap.set, List.lookup, hvcl, h_weight, assertString, assertInt, assertBool]
      · simp [GoMap.set, hvcl, h_rc, assertString]
    · rw [hkeys k hk]
      simp [BackendServiceAttributeHandler.GetSchema, hvcl, not_or] at hk
      obtain ⟨n1, n2, n3, n4, n5, n6, n7, n8, n9, n10, n11, n12, n13, n14, n15, n16, n17, n18,
        n19, n20, n21, n22, n23, n24⟩ := hk
      simp [GoMap.ofList, GoMap.set, List.lookup, hvcl, n24, beq_eq_false_iff_ne.mpr n1,
        beq_eq_false_iff_ne.mpr n2, beq_eq_false_iff_ne.mpr n3, beq_eq_false_iff_ne.mpr n4,
        beq_eq_false_iff_ne.mpr n5, beq_eq_false_iff_ne.mpr n6, beq_eq_false_iff_ne.mpr n7,
        beq_eq_false_iff_ne.mpr n8, beq_eq_false_iff_ne.mpr n9, beq_eq_false_iff_ne.mpr n10,
        beq_eq_false_iff_ne.mpr n11, beq_eq_false_iff_ne.mpr n12, beq_eq_false_iff_ne.mpr n13,
        beq_eq_false_iff_ne.mpr n14, beq_eq_false_iff_ne.mpr n15, beq_eq_false_iff_ne.mpr n16,
        beq_eq_false_iff_ne.mpr n17, beq_eq_false_iff_ne.mpr n18, beq_eq_false_iff_ne.mpr n19,
        beq_eq_false_iff_ne.mpr n20, beq_eq_false_iff_ne.mpr n21, beq_eq_false_iff_ne.mpr n22,
        beq_eq_false_iff_ne.mpr n23]
  · by_cases hk : k ∈ (BackendServiceAttributeHandler.GetSchema sa).map Prod.fst
    · simp [BackendServiceAttributeHandler.GetSchema, hvcl] at hk
      rcases hk with rfl | rfl | rfl | rfl | rfl | rfl | rfl | rfl | rfl | rfl | rfl | rfl | rfl |
        rfl | rfl | rfl | rfl | rfl | rfl | rfl | rfl | rfl | rfl
      · simp [GoMap.ofList, List.lookup, hvcl, h_address, assertString, assertInt, assertBool]
      · simp [GoMap.ofList, List.lookup, hvcl, h_auto_loadbalance, assertString, assertInt, assertBool]
      · simp [GoMap.ofList, List.lookup, hvcl, h_between_bytes_timeout, assertString, assertInt, assertBool]
      · simp [GoMap.ofList, List.lookup, hvcl, h_connect_timeout, assertString, assertInt, assertBool]
      · simp [GoMap.ofList, List.lookup, hvcl, h_error_threshold, assertString, assertInt, assertBool]
      · simp [GoMap.ofList, List.lookup, hvcl, h_first_byte_timeout, assertString, assertInt, assertBool]
      · simp [GoMap.ofList, List.lookup, hvcl, h_healthcheck, assertString, assertInt, assertBool]
      · simp [GoMap.ofList, List.lookup, hvcl, h_max_conn, assertString, assertInt, assertBool]
      · simp [GoMap.ofList, List.lookup, hvcl, h_max_tls_version, assertString, assertInt, assertBool]
      · simp [GoMap.ofList, List.lookup, hvcl, h_min_tls_version, assertString, assertInt, assertBool]
      · simp [GoMap.ofList, List.lookup, hvcl, h_name, assertString, assertInt, assertBool]
      · by_cases h0 : v_override_host = "" <;>
          simp [GoMap.ofList, List.lookup, hvcl, h_override_host, h0]
      · simp [GoMap.ofList, List.lookup, hvcl, h_port, assertString, assertInt, assertBool]
      · simp [GoMap.ofList, List.lookup, hvcl, h_shield, assertString, assertInt, assertBool]
      · simp [GoMap.ofList, List.lookup, hvcl, h_ssl_ca_cert, assertString, assertInt, assertBool]
      · simp [GoMap.ofList, List.lookup, hvcl, h_ssl_cert_hostname, assertString, assertInt, assertBool]
      · simp [GoMap.ofList, List.lookup, hvcl, h_ssl_check_cert, assertString, assertInt, assertBool]
      · simp [GoMap.ofList, List.lookup, hvcl, h_ssl_ciphers, assertString, assertInt, assertBool]
      · simp [GoMap.ofList, List.lookup, hvcl, h_ssl_client_cert, assertString, assertInt, assertBool]
      · simp [GoMap.ofList, List.lookup, hvcl, h_ssl_client_key, assertString, assertInt, assertBool]
      · simp [GoMap.ofList, List.lookup, hvcl, h_ssl_sni_hostname, assertString, assertInt, assertBool]
      · simp [GoMap.ofList, List.lookup, hvcl, h_use_ssl, assertString, assertInt, assertBool]
      · simp [GoMap.ofList, List.lookup, hvcl, h_weight, assertString, assertInt, assertBool]
    · rw [hkeys k hk]
      simp [BackendServiceAttributeHandler.GetSchema, hvcl, not_or] at hk
      obtain ⟨n1, n2, n3, n4, n5, n6, n7, n8, n9, n10, n11, n12, n13, n14, n15, n16, n17, n18,
        n19, n20, n21, n22, n23⟩ := hk
      simp [GoMap.ofList, List.lookup, hvcl, beq_eq_false_iff_ne.mpr n1,
        beq_eq_false_iff_ne.mpr n2, beq_eq_false_iff_ne.mpr n3, beq_eq_false_iff_ne.mpr n4,
        beq_eq_false_iff_ne.mpr n5, beq_eq_false_iff_ne.mpr n6, beq_eq_false_iff_ne.mpr n7,
        beq_eq_false_iff_ne.mpr n8, beq_eq_false_iff_ne.mpr n9, beq_eq_false_iff_ne.mpr n10,
        beq_eq_false_iff_ne.mpr n11, beq_eq_false_iff_ne.mpr n12, beq_eq_false_iff_ne.mpr n13,
        beq_eq_false_iff_ne.mpr n14, beq_eq_false_iff_ne.mpr n15, beq_eq_false_iff_ne.mpr n16,
        beq_eq_false_iff_ne.mpr n17, beq_eq_false_iff_ne.mpr n18, beq_eq_false_iff_ne.mpr n19,
        beq_eq_false_iff_ne.mpr n20, beq_eq_false_iff_ne.mpr n21, beq_eq_false_iff_ne.mpr n22,
        beq_eq_false_iff_ne.mpr n23]

/-- The keys of `exampleBackend` are those of the VCL schema. -/
theorem exampleBackend_keys (k : String)
    (hk : k ∉ (BackendServiceAttributeHandler.GetSchema
      { serviceType := ServiceTypeVCL }).map Prod.fst) : exampleBackend k = none := by
  simp [BackendServiceAttributeHandler.GetSchema, not_or] at hk
  obtain ⟨n1, n2, n3, n4, n5, n6, n7, n8, n9, n10, n11, n12, n13, n14, n15, n16, n17, n18,
    n19, n20, n21, n22, n23, n24⟩ := hk
  simp [exampleBackend, GoMap.ofList, List.lookup, beq_eq_false_iff_ne.mpr n1,
    beq_eq_false_iff_ne.mpr n2, beq_eq_false_iff_ne.mpr n3, beq_eq_false_iff_ne.mpr n4,
    beq_eq_false_iff_ne.mpr n5, beq_eq_false_iff_ne.mpr n6, beq_eq_false_iff_ne.mpr n7,
    beq_eq_false_iff_ne.mpr n8, beq_eq_false_iff_ne.mpr n9, beq_eq_false_iff_ne.mpr n10,
    beq_eq_false_iff_ne.mpr n11, beq_eq_false_iff_ne.mpr n12, beq_eq_false_iff_ne.mpr n13,
    beq_eq_false_iff_ne.mpr n14, beq_eq_false_iff_ne.mpr n15, beq_eq_false_iff_ne.mpr n16,
    beq_eq_false_iff_ne.mpr n17, beq_eq_false_iff_ne.mpr n18, beq_eq_false_iff_ne.mpr n19,
    beq_eq_false_iff_ne.mpr n20, beq_eq_false_iff_ne.mpr n21, beq_eq_false_iff_ne.mpr n22,
    beq_eq_false_iff_ne.mpr n23, beq_eq_false_iff_ne.mpr n24]

/-- C10, at a concrete input: `exampleBackend`, a VCL backend with an empty
`override_host`, survives creation and re-read. -/
theorem flattenBackend_buildCreateBackendInput_roundtrip_witness :
    ∃ p, BackendServiceAttributeHandler.buildCreateBackendInput
        { serviceType := ServiceTypeVCL } "svc" 3 exampleBackend = some p ∧
      flattenBackend [Backend.ofCreateInput p] { serviceType := ServiceTypeVCL } =
        [exampleBackend] :=
  flattenBackend_buildCreateBackendInput_roundtrip { serviceType := ServiceTypeVCL } "svc" 3
    exampleBackend (by decide) exampleBackend_keys

/-! ## The Cloud Files state projection -/

/-- The result of the carry-forward loop, whenever it returns: the `gzip_level` is
`-1` if the prior state holds an element of the same name with the sentinel, and
is left as it was otherwise. -/
theorem carryGzipLevel_eq_of_some (ll ll' : Cloudfiles) (state : List GoAny)
    (h : carryGzipLevel ll state = some ll') :
    ll' = { ll with GzipLevel := if hasSentinel state ll.Name = true then -1 else ll.GzipLevel } := by
  induction state with
  | nil =>
    simp only [carryGzipLevel, Option.some.injEq] at h
    simp [hasSentinel, ← h]
  | cons s rest ih =>
    rcases s with v | x
    · simp only [carryGzipLevel, assertMap, bind, Option.some_bind] at h
      rcases hn : v "name" with _ | nv
      · simp [hn, assertString] at h
      · cases nv <;> simp [hn, assertString] at h
        rename_i name
        by_cases hname : name = ll.Name
        · rw [if_pos hname] at h
          rcases hg : v "gzip_level" with _ | gv
          · simp [hg, assertInt] at h
          · cases gv <;> simp [hg, assertInt] at h
            rename_i gl
            by_cases hgl : gl = -1
            · rw [if_pos hgl] at h
              subst hgl hname
              have h' := (Option.some.inj h).symm
              simp [hasSentinel, hn, hg, h']
            · rw [if_neg hgl] at h
              rw [ih h]
              have : hasSentinel (GoAny.map v :: rest) ll.Name = hasSentinel rest ll.Name := by
                simp [hasSentinel, hg, hgl]
              rw [this]
        · rw [if_neg hname] at h
          rw [ih h]
          have : hasSentinel (GoAny.map v :: rest) ll.Name = hasSentinel rest ll.Name := by
            simp [hasSentinel, hn, hname]
          rw [this]
    · simp [carryGzipLevel, assertMap, bind] at h

/-- The carry-forward loop returns for a well-typed prior state. -/
theorem carryGzipLevel_isSome (ll : Cloudfiles) (state : List GoAny)
    (hwt : wellTypedState state = true) : ∃ ll', carryGzipLevel ll state = some ll' := by
  induction state with
  | nil => exact ⟨ll, rfl⟩
  | cons s rest ih =>
    simp only [wellTypedState, List.all_cons, Bool.and_eq_true] at hwt
    obtain ⟨hs, hrest⟩ := hwt
    obtain ⟨ll', hll'⟩ := ih (by simpa [wellTypedState] using hrest)
    rcases s with v | x
    · obtain ⟨name, hn⟩ := wellTypedElement_string (k := "name") hs (by simp)
      obtain ⟨gl, hg⟩ := wellTypedElement_int (k := "gzip_level") hs (by simp)
      simp only [carryGzipLevel, assertMap, bind, Option.some_bind, hn, hg, assertString,
        assertInt]
      by_cases hname : name = ll.Name
      · rw [if_pos hname]
        by_cases hgl : gl = -1
        · exact ⟨_, by rw [if_pos hgl]⟩
        · exact ⟨ll', by rw [if_neg hgl]; exact hll'⟩
      · exact ⟨ll', by rw [if_neg hname]; exact hll'⟩
    · simp at hs

/-- The projection of a remote list, whenever it returns: element by element, the
state map of the element with the carried `gzip_level`. -/
theorem flattenCloudfiles_eq_of_some (list : List Cloudfiles) (state : List GoAny)
    (r : List GoMap) (h : flattenCloudfiles list state = some r) :
    r = list.map fun ll => cloudfilesStateMap
      { ll with GzipLevel := if hasSentinel state ll.Name = true then -1 else ll.GzipLevel } := by
  induction list generalizing r with
  | nil =>
    simp only [flattenCloudfiles, Option.some.injEq] at h
    simp [← h]
  | cons ll rest ih =>
    simp only [flattenCloudfiles, bind, Option.bind_eq_some, Option.map_eq_some'] at h
    obtain ⟨ll', hll', lsl, hlsl, hr⟩ := h
    rw [← hr, ih lsl hlsl, carryGzipLevel_eq_of_some ll ll' state hll']
    rfl

/-- The projection returns for a well-typed prior state. -/
theorem flattenCloudfiles_isSome (list : List Cloudfiles) (state : List GoAny)
    (hwt : wellTypedState state = true) : ∃ r, flattenCloudfiles list state = some r := by
  induction list with
  | nil => exact ⟨[], rfl⟩
  | cons ll rest ih =>
    obtain ⟨lsl, hlsl⟩ := ih
    obtain ⟨ll', hll'⟩ := carryGzipLevel_isSome ll state hwt
    exact ⟨cloudfilesStateMap ll' :: lsl, by simp [flattenCloudfiles, bind, hll', hlsl]⟩

/-- The remote list after the projection, whenever it returns. -/
theorem cloudfilesListAfterFlatten_eq_of_some (list : List Cloudfiles) (state : List GoAny)
    (l : List Cloudfiles) (h : cloudfilesListAfterFlatten list state = some l) :
    l = list.map fun ll =>
      { ll with GzipLevel := if hasSentinel state ll.Name = true then -1 else ll.GzipLevel } := by
  induction list generalizing l with
  | nil =>
    simp only [cloudfilesListAfterFlatten, Option.some.injEq] at h
    simp [← h]
  | cons ll rest ih =>
    simp only [cloudfilesListAfterFlatten, bind, Option.bind_eq_some, Option.map_eq_some'] at h
    obtain ⟨ll', hll', lsl, hlsl, hr⟩ := h
    rw [← hr, ih lsl hlsl, carryGzipLevel_eq_of_some ll ll' state hll']
    rfl

/-- The remote list after the projection exists for a well-typed prior state. -/
theorem cloudfilesListAfterFlatten_isSome (list : List Cloudfiles) (state : List GoAny)
    (hwt : wellTypedState state = true) :
    ∃ l, cloudfilesListAfterFlatten list state = some l := by
  induction list with
  | nil => exact ⟨[], rfl⟩
  | cons ll rest ih =>
    obtain ⟨lsl, hlsl⟩ := ih
    obtain ⟨ll', hll'⟩ := carryGzipLevel_isSome ll state hwt
    exact ⟨ll' :: lsl, by simp [cloudfilesListAfterFlatten, bind, hll', hlsl]⟩

/-- A pruned map holds no empty string. -/
theorem GoMap.pruneEmpty_ne_empty (m : GoMap) (k : String) :
    GoMap.pruneEmpty m k ≠ some (.str "") := by
  unfold GoMap.pruneEmpty
  split
  · simp
  · rename_i h
    intro hk
    exact h hk

/-- A list is related element by element to its image under a map. -/
theorem forall₂_map_self {α β : Type} (P : α → β → Prop) (f : α → β) (l : List α)
    (h : ∀ a ∈ l, P a (f a)) : List.Forall₂ P l (l.map f) := by
  induction l with
  | nil => exact List.Forall₂.nil
  | cons a l ih =>
    exact List.Forall₂.cons (h a (List.mem_cons_self a l))
      (ih fun b hb => h b (List.mem_cons_of_mem a hb))

theorem cloudfilesStateMap_gzip_level (ll : Cloudfiles) :
    cloudfilesStateMap ll "gzip_level" = some (.int ll.GzipLevel) := by
  simp [cloudfilesStateMap, GoMap.pruneEmpty, GoMap.ofList, List.lookup]

theorem cloudfilesStateMap_period (ll : Cloudfiles) :
    cloudfilesStateMap ll "period" = some (.int ll.Period) := by
  simp [cloudfilesStateMap, GoMap.pruneEmpty, GoMap.ofList, List.lookup]

theorem cloudfilesStateMap_format_version (ll : Cloudfiles) :
    cloudfilesStateMap ll "format_version" = some (.int ll.FormatVersion) := by
  simp [cloudfilesStateMap, GoMap.pruneEmpty, GoMap.ofList, List.lookup]

theorem cloudfilesStateMap_name (ll : Cloudfiles) :
    cloudfilesStateMap ll "name" = if ll.Name = "" then none else some (.str ll.Name) := by
  by_cases h : ll.Name = "" <;>
    simp [cloudfilesStateMap, GoMap.pruneEmpty, GoMap.ofList, List.lookup, h]

theorem cloudfilesStateMap_bucket_name (ll : Cloudfiles) :
    cloudfilesStateMap ll "bucket_name" = if ll.BucketName = "" then none else some (.str ll.BucketName) := by
  by_cases h : ll.BucketName = "" <;>
    simp [cloudfilesStateMap, GoMap.pruneEmpty, GoMap.ofList, List.lookup, h]

theorem cloudfilesStateMap_user (ll : Cloudfiles) :
    cloudfilesStateMap ll "user" = if ll.User = "" then none else some (.str ll.User) := by
  by_cases h : ll.User = "" <;>
    simp [cloudfilesStateMap, GoMap.pruneEmpty, GoMap.ofList, List.lookup, h]

theorem cloudfilesStateMap_access_key (ll : Cloudfiles) :
    cloudfilesStateMap ll "access_key" = if ll.AccessKey = "" then none else some (.str ll.AccessKey) := by
  by_cases h : ll.AccessKey = "" <;>
    simp [cloudfilesStateMap, GoMap.pruneEmpty, GoMap.ofList, List.lookup, h]

theorem cloudfilesStateMap_public_key (ll : Cloudfiles) :
    cloudfilesStateMap ll "public_key" = if ll.PublicKey = "" then none else some (.str ll.PublicKey) := by
  by_cases h : ll.PublicKey = "" <;>
    simp [cloudfilesStateMap, GoMap.pruneEmpty, GoMap.ofList, List.lookup, h]

theorem cloudfilesStateMap_message_type (ll : Cloudfiles) :
    cloudfilesStateMap ll "message_type" = if ll.MessageType = "" then none else some (.str ll.MessageType) := by
  by_cases h : ll.MessageType = "" <;>
    simp [cloudfilesStateMap, GoMap.pruneEmpty, GoMap.ofList, List.lookup, h]

theorem cloudfilesStateMap_path (ll : Cloudfiles) :
    cloudfilesStateMap ll "path" = if ll.Path = "" then none else some (.str ll.Path) := by
  by_cases h : ll.Path = "" <;>
    simp [cloudfilesStateMap, GoMap.pruneEmpty, GoMap.ofList, List.lookup, h]

theorem cloudfilesStateMap_region (ll : Cloudfiles) :
    cloudfilesStateMap ll "region" = if ll.Region = "" then none else some (.str ll.Region) := by
  by_cases h : ll.Region = "" <;>
    simp [cloudfilesStateMap, GoMap.pruneEmpty, GoMap.ofList, List.lookup, h]

theorem cloudfilesStateMap_timestamp_format (ll : Cloudfiles) :
    cloudfilesStateMap ll "timestamp_format" = if ll.TimestampFormat = "" then none else some (.str ll.TimestampFormat) := by
  by_cases h : ll.TimestampFormat = "" <;>
    simp [cloudfilesStateMap, GoMap.pruneEmpty, GoMap.ofList, List.lookup, h]

theorem cloudfilesStateMap_format (ll : Cloudfiles) :
    cloudfilesStateMap ll "format" = if ll.Format = "" then none else some (.str ll.Format) := by
  by_cases h : ll.Format = "" <;>
    simp [cloudfilesStateMap, GoMap.pruneEmpty, GoMap.ofList, List.lookup, h]

theorem cloudfilesStateMap_placement (ll : Cloudfiles) :
    cloudfilesStateMap ll "placement" = if ll.Placement = "" then none else some (.str ll.Placement) := by
  by_cases h : ll.Placement = "" <;>
    simp [cloudfilesStateMap, GoMap.pruneEmpty, GoMap.ofList, List.lookup, h]

theorem cloudfilesStateMap_response_condition (ll : Cloudfiles) :
    cloudfilesStateMap ll "response_condition" = if ll.ResponseCondition = "" then none else some (.str ll.ResponseCondition) := by
  by_cases h : ll.ResponseCondition = "" <;>
    simp [cloudfilesStateMap, GoMap.pruneEmpty, GoMap.ofList, List.lookup, h]

theorem cloudfilesStateMap_compression_codec (ll : Cloudfiles) :
    cloudfilesStateMap ll "compression_codec" = if ll.CompressionCodec = "" then none else some (.str ll.CompressionCodec) := by
  by_cases h : ll.CompressionCodec = "" <;>
    simp [cloudfilesStateMap, GoMap.pruneEmpty, GoMap.ofList, List.lookup, h]

/-- C11, as stated, fails: the remote `gzip_level` is 5, not the zero value, and
the prior state holds the element `cf` with the sentinel; `flattenCloudfiles`
reports `-1`, not the remote value. -/
theorem flattenCloudfiles_carries_sentinel_over_nonzero_remote :
    exampleRemoteCloudfiles.GzipLevel = 5 ∧
      (flattenCloudfiles [exampleRemoteCloudfiles]
          [.map (GoMap.ofList [("name", .str "cf"), ("gzip_level", .int (-1))])]).map
        (fun r => r.map fun m => m "gzip_level") = some [some (.int (-1))] := by
  refine ⟨by decide, by decide⟩

/-- C11, amended: for a well-typed prior state, `flattenCloudfiles` returns one map
per remote element, in order, and the map reports `gzip_level = -1` exactly when
the remote `gzip_level` is `-1` or the prior state holds an element of the same
name whose `gzip_level` is the sentinel `-1`, whatever the remote value; in every
other case it reports the remote value. -/
theorem flattenCloudfiles_gzip_level_carry_forward (list : List Cloudfiles)
    (state : List GoAny) (hwt : wellTypedState state = true) :
    ∃ r, flattenCloudfiles list state = some r ∧
      List.Forall₂ (fun ll m =>
        (m "gzip_level" = some (.int (-1)) ↔
          (ll.GzipLevel = -1 ∨ hasSentinel state ll.Name = true)) ∧
        (¬ (ll.GzipLevel = -1 ∨ hasSentinel state ll.Name = true) →
          m "gzip_level" = some (.int ll.GzipLevel))) list r := by
  obtain ⟨r, hr⟩ := flattenCloudfiles_isSome list state hwt
  refine ⟨r, hr, ?_⟩
  rw [flattenCloudfiles_eq_of_some list state r hr]
  apply forall₂_map_self
  intro ll _
  rw [cloudfilesStateMap_gzip_level]
  by_cases hs : hasSentinel state ll.Name = true
  · simp [hs]
  · by_cases hg : ll.GzipLevel = -1 <;> simp [hs, hg]

/-- C11 amended, at a concrete input: remote level 5, prior state with the
sentinel for the same name. -/
theorem flattenCloudfiles_gzip_level_carry_forward_witness :
    ∃ r, flattenCloudfiles [exampleRemoteCloudfiles]
        [.map (GoMap.ofList [("name", .str "cf"), ("gzip_level", .int (-1))])] = some r ∧
      List.Forall₂ (fun ll m =>
        (m "gzip_level" = some (.int (-1)) ↔
          (ll.GzipLevel = -1 ∨
            hasSentinel [.map (GoMap.ofList [("name", .str "cf"), ("gzip_level", .int (-1))])]
              ll.Name = true)) ∧
        (¬ (ll.GzipLevel = -1 ∨
            hasSentinel [.map (GoMap.ofList [("name", .str "cf"), ("gzip_level", .int (-1))])]
              ll.Name = true) →
          m "gzip_level" = some (.int ll.GzipLevel))) [exampleRemoteCloudfiles] r :=
  flattenCloudfiles_gzip_level_carry_forward [exampleRemoteCloudfiles]
    [.map (GoMap.ofList [("name", .str "cf"), ("gzip_level", .int (-1))])] (by decide)

/-- C12: for a well-typed prior state, `flattenCloudfiles` returns one map per
remote element, in order; no map holds an empty string, each string-valued key
is present if and only if the remote field is non-empty and then holds the
remote value, and the integer keys `gzip_level`, `period` and `format_version`
are always present (the last two with the remote value, 0 included). -/
theorem flattenCloudfiles_prunes_empty_strings (list : List Cloudfiles) (state : List GoAny)
    (hwt : wellTypedState state = true) :
    ∃ r, flattenCloudfiles list state = some r ∧
      List.Forall₂ (fun ll m =>
        (∀ k, m k ≠ some (.str "")) ∧
        m "name" = (if ll.Name = "" then none else some (.str ll.Name)) ∧
        m "bucket_name" = (if ll.BucketName = "" then none else some (.str ll.BucketName)) ∧
        m "user" = (if ll.User = "" then none else some (.str ll.User)) ∧
        m "access_key" = (if ll.AccessKey = "" then none else some (.str ll.AccessKey)) ∧
        m "public_key" = (if ll.PublicKey = "" then none else some (.str ll.PublicKey)) ∧
        m "message_type" = (if ll.MessageType = "" then none else some (.str ll.MessageType)) ∧
        m "path" = (if ll.Path = "" then none else some (.str ll.Path)) ∧
        m "region" = (if ll.Region = "" then none else some (.str ll.Region)) ∧
        m "timestamp_format" = (if ll.TimestampFormat = "" then none else some (.str ll.TimestampFormat)) ∧
        m "format" = (if ll.Format = "" then none else some (.str ll.Format)) ∧
        m "placement" = (if ll.Placement = "" then none else some (.str ll.Placement)) ∧
        m "response_condition" = (if ll.ResponseCondition = "" then none else some (.str ll.ResponseCondition)) ∧
        m "compression_codec" = (if ll.CompressionCodec = "" then none else some (.str ll.CompressionCodec)) ∧
        (∃ g, m "gzip_level" = some (.int g)) ∧
        m "period" = some (.int ll.Period) ∧
        m "format_version" = some (.int ll.FormatVersion)) list r := by
  obtain ⟨r, hr⟩ := flattenCloudfiles_isSome list state hwt
  refine ⟨r, hr, ?_⟩
  rw [flattenCloudfiles_eq_of_some list state r hr]
  apply forall₂_map_self
  intro ll _
  refine ⟨fun k => GoMap.pruneEmpty_ne_empty _ k, cloudfilesStateMap_name _, cloudfilesStateMap_bucket_name _, cloudfilesStateMap_user _, cloudfilesStateMap_access_key _, cloudfilesStateMap_public_key _, cloudfilesStateMap_message_type _, cloudfilesStateMap_path _, cloudfilesStateMap_region _, cloudfilesStateMap_timestamp_format _, cloudfilesStateMap_format _, cloudfilesStateMap_placement _, cloudfilesStateMap_response_condition _, cloudfilesStateMap_compression_codec _,
    ⟨_, cloudfilesStateMap_gzip_level _⟩, cloudfilesStateMap_period _,
    cloudfilesStateMap_format_version _⟩

/-- C12, at a concrete input: the endpoint `cf` with an empty path, read with an
empty prior state. -/
theorem flattenCloudfiles_prunes_empty_strings_witness :
    ∃ r, flattenCloudfiles [exampleRemoteCloudfiles] [] = some r ∧
      List.Forall₂ (fun ll m =>
        (∀ k, m k ≠ some (.str "")) ∧
        m "name" = (if ll.Name = "" then none else some (.str ll.Name)) ∧
        m "bucket_name" = (if ll.BucketName = "" then none else some (.str ll.BucketName)) ∧
        m "user" = (if ll.User = "" then none else some (.str ll.User)) ∧
        m "access_key" = (if ll.AccessKey = "" then none else some (.str ll.AccessKey)) ∧
        m "public_key" = (if ll.PublicKey = "" then none else some (.str ll.PublicKey)) ∧
        m "message_type" = (if ll.MessageType = "" then none else some (.str ll.MessageType)) ∧
        m "path" = (if ll.Path = "" then none else some (.str ll.Path)) ∧
        m "region" = (if ll.Region = "" then none else some (.str ll.Region)) ∧
        m "timestamp_format" = (if ll.TimestampFormat = "" then none else some (.str ll.TimestampFormat)) ∧
        m "format" = (if ll.Format = "" then none else some (.str ll.Format)) ∧
        m "placement" = (if ll.Placement = "" then none else some (.str ll.Placement)) ∧
        m "response_condition" = (if ll.ResponseCondition = "" then none else some (.str ll.ResponseCondition)) ∧
        m "compression_codec" = (if ll.CompressionCodec = "" then none else some (.str ll.CompressionCodec)) ∧
        (∃ g, m "gzip_level" = some (.int g)) ∧
        m "period" = some (.int ll.Period) ∧
        m "format_version" = some (.int ll.FormatVersion)) [exampleRemoteCloudfiles] r :=
  flattenCloudfiles_prunes_empty_strings [exampleRemoteCloudfiles] [] (by decide)

/-- In a state made of the maps projected from a list with non-empty, pairwise
distinct names, the sentinel is found for a name of the list exactly when the map
of that element reports `-1`. -/
theorem hasSentinel_asState (list : List Cloudfiles) (f : Cloudfiles → Cloudfiles)
    (hname : ∀ x, (f x).Name = x.Name) (hne : ∀ ll ∈ list, ll.Name ≠ "")
    (hnd : (list.map fun ll => ll.Name).Nodup) (ll : Cloudfiles) (hll : ll ∈ list) :
    hasSentinel (asState (list.map fun x => cloudfilesStateMap (f x))) ll.Name =
      decide ((f ll).GzipLevel = -1) := by
  rw [Bool.eq_iff_iff]
  simp only [hasSentinel, asState, List.map_map, List.any_eq_true, List.mem_map,
    Function.comp_apply, decide_eq_true_eq]
  constructor
  · rintro ⟨s, ⟨x, hx, rfl⟩, hs⟩
    simp only [Bool.and_eq_true, beq_iff_eq, cloudfilesStateMap_name,
      cloudfilesStateMap_gzip_level, hname, if_neg (hne x hx), Option.some.injEq,
      Value.str.injEq, Value.int.injEq] at hs
    have hxl : x = ll := List.inj_on_of_nodup_map hnd hx hll hs.1
    rw [← hxl]
    exact hs.2
  · intro hg
    refine ⟨_, ⟨ll, hll, rfl⟩, ?_⟩
    simp [cloudfilesStateMap_name, cloudfilesStateMap_gzip_level, hname, hne ll hll, hg]

/-- The maps projected from a list with non-empty names form a well-typed state. -/
theorem wellTypedState_asState (list : List Cloudfiles) (f : Cloudfiles → Cloudfiles)
    (hname : ∀ x, (f x).Name = x.Name) (hne : ∀ ll ∈ list, ll.Name ≠ "") :
    wellTypedState (asState (list.map fun x => cloudfilesStateMap (f x))) = true := by
  simp only [wellTypedState, asState, List.map_map, List.all_eq_true, List.mem_map,
    Function.comp_apply]
  rintro s ⟨x, hx, rfl⟩
  simp [wellTypedElement, cloudfilesStateMap_name, cloudfilesStateMap_gzip_level, hname,
    hne x hx, Value.hasType]

/-- C13: for a remote list with non-empty, pairwise distinct names and a well-typed
prior state `s`, `flattenCloudfiles` returns a list `r`, and reading the same
remote list again with `r` as prior state returns `r` again; this holds for the
list as it was fetched and for the list as the first read left it (the loop
assigns `GzipLevel` through the list's pointers). -/
theorem flattenCloudfiles_idempotent (list : List Cloudfiles) (state : List GoAny)
    (hne : ∀ ll ∈ list, ll.Name ≠ "") (hnd : (list.map fun ll => ll.Name).Nodup)
    (hwt : wellTypedState state = true) :
    ∃ r, flattenCloudfiles list state = some r ∧
      flattenCloudfiles list (asState r) = some r ∧
      ∃ l, cloudfilesListAfterFlatten list state = some l ∧
        flattenCloudfiles l (asState r) = some r := by
  obtain ⟨r, hr⟩ := flattenCloudfiles_isSome list state hwt
  obtain ⟨l, hl⟩ := cloudfilesListAfterFlatten_isSome list state hwt
  have hreq := flattenCloudfiles_eq_of_some list state r hr
  have hleq := cloudfilesListAfterFlatten_eq_of_some list state l hl
  have hwt2 : wellTypedState (asState r) = true := by
    rw [hreq]
    exact wellTypedState_asState list
      (fun ll => { ll with
        GzipLevel := if hasSentinel state ll.Name = true then -1 else ll.GzipLevel })
      (fun _ => rfl) hne
  have hsent : ∀ ll ∈ list, hasSentinel (asState r) ll.Name =
      decide ((if hasSentinel state ll.Name = true then -1 else ll.GzipLevel) = -1) := by
    intro ll hll
    rw [hreq]
    exact hasSentinel_asState list
      (fun ll => { ll with
        GzipLevel := if hasSentinel state ll.Name = true then -1 else ll.GzipLevel })
      (fun _ => rfl) hne hnd ll hll
  refine ⟨r, hr, ?_, l, hl, ?_⟩
  · obtain ⟨r2, hr2⟩ := flattenCloudfiles_isSome list (asState r) hwt2
    rw [hr2, flattenCloudfiles_eq_of_some list (asState r) r2 hr2]
    congr 1
    conv_rhs => rw [hreq]
    apply List.map_congr_left
    intro ll hll
    rw [hsent ll hll]
    by_cases hs : hasSentinel state ll.Name = true
    · simp [hs]
    · by_cases hg : ll.GzipLevel = -1 <;> simp [hs, hg]
  · obtain ⟨r2, hr2⟩ := flattenCloudfiles_isSome l (asState r) hwt2
    rw [hr2, flattenCloudfiles_eq_of_some l (asState r) r2 hr2]
    congr 1
    conv_rhs => rw [hreq]
    rw [hleq, List.map_map]
    apply List.map_congr_left
    intro ll hll
    simp only [Function.comp_apply]
    rw [hsent ll hll]
    by_cases hs : hasSentinel state ll.Name = true
    · simp [hs]
    · by_cases hg : ll.GzipLevel = -1 <;> simp [hs, hg]

/-- C13, at a concrete input: the endpoint `cf` (remote level 5) read with a prior
state holding the sentinel for it. -/
theorem flattenCloudfiles_idempotent_witness :
    ∃ r, flattenCloudfiles [exampleRemoteCloudfiles]
        [.map (GoMap.ofList [("name", .str "cf"), ("gzip_level", .int (-1))])] = some r ∧
      flattenCloudfiles [exampleRemoteCloudfiles] (asState r) = some r ∧
      ∃ l, cloudfilesListAfterFlatten [exampleRemoteCloudfiles]
          [.map (GoMap.ofList [("name", .str "cf"), ("gzip_level", .int (-1))])] = some l ∧
        flattenCloudfiles l (asState r) = some r :=
  flattenCloudfiles_idempotent [exampleRemoteCloudfiles]
    [.map (GoMap.ofList [("name", .str "cf"), ("gzip_level", .int (-1))])]
    (by decide) (by decide) (by decide)

/-! ## Failure of the create builders on ill-typed elements -/

theorem assertString_eq_some {x : Option Value} {s : String} (h : assertString x = some s) :
    x = some (.str s) := by
  rcases x with _ | v
  · simp [assertString] at h
  · cases v <;> simp [assertString] at h
    rw [h]

theorem assertInt_eq_some {x : Option Value} {i : Int} (h : assertInt x = some i) :
    x = some (.int i) := by
  rcases x with _ | v
  · simp [assertInt] at h
  · cases v <;> simp [assertInt] at h
    rw [h]

theorem assertBool_eq_some {x : Option Value} {b : Bool} (h : assertBool x = some b) :
    x = some (.bool b) := by
  rcases x with _ | v
  · simp [assertBool] at h
  · cases v <;> simp [assertBool] at h
    rw [h]

/-- A successful step of a bind chain: the chain before it succeeded too. -/
theorem bind_eq_some_inv {α : Type} {x : Option α} {f : α → Option α} {p : α}
    (h : x >>= f = some p) : ∃ o, x = some o ∧ f o = some p := by
  rcases x with _ | o
  · simp [bind] at h
  · exact ⟨o, rfl, h⟩

theorem fieldString_some {α : Type} {m : GoMap} {k : String} {assign : α → Option String → α}
    {opts opts' : α} (h : fieldString m k assign opts = some opts') :
    ∃ s, m k = some (.str s) ∧ opts' = assign opts (some s) := by
  simp only [fieldString, Option.map_eq_some'] at h
  obtain ⟨s, hs, rfl⟩ := h
  exact ⟨s, assertString_eq_some hs, rfl⟩

theorem fieldInt_some {α : Type} {m : GoMap} {k : String} {assign : α → Option Int → α}
    {opts opts' : α} (h : fieldInt m k assign opts = some opts') :
    ∃ i, m k = some (.int i) ∧ opts' = assign opts (some i) := by
  simp only [fieldInt, Option.map_eq_some'] at h
  obtain ⟨s, hs, rfl⟩ := h
  exact ⟨s, assertInt_eq_some hs, rfl⟩

theorem fieldBool_some {α : Type} {m : GoMap} {k : String} {assign : α → Option Bool → α}
    {opts opts' : α} (h : fieldBool m k assign opts = some opts') :
    ∃ b, m k = some (.bool b) ∧ opts' = assign opts (some b) := by
  simp only [fieldBool, Option.map_eq_some'] at h
  obtain ⟨s, hs, rfl⟩ := h
  exact ⟨s, assertBool_eq_some hs, rfl⟩

/-- An element is ill typed exactly when some attribute of the schema is missing
or holds a value of another type. -/
theorem wellTypedElement_eq_false_iff (schema : List (String × FieldType)) (e : GoMap) :
    wellTypedElement schema e = false ↔
      ∃ kt ∈ schema, e kt.1 = none ∨ ∃ v, e kt.1 = some v ∧ v.hasType kt.2 = false := by
  simp only [wellTypedElement, List.all_eq_false]
  constructor
  · rintro ⟨kt, hkt, h⟩
    refine ⟨kt, hkt, ?_⟩
    rcases he : e kt.1 with _ | v
    · exact Or.inl rfl
    · exact Or.inr ⟨v, rfl, by simpa [he] using h⟩
  · rintro ⟨kt, hkt, h | ⟨v, hv, hty⟩⟩
    · exact ⟨kt, hkt, by simp [h]⟩
    · exact ⟨kt, hkt, by simp [hv, hty]⟩

/-- When `buildCreateBackendInput` returns a payload, the element was well typed:
every type assertion of the chain succeeded. -/
theorem BackendServiceAttributeHandler.wellTyped_of_buildCreateBackendInput
    (sa : ServiceMetadata) (service : String) (latestVersion : Int) (df : GoMap)
    (p : CreateBackendInput)
    (h : BackendServiceAttributeHandler.buildCreateBackendInput sa service latestVersion df =
      some p) :
    wellTypedElement (BackendServiceAttributeHandler.GetSchema sa) df = true := by
  unfold BackendServiceAttributeHandler.buildCreateBackendInput at h
  obtain ⟨o, h, hrc⟩ := bind_eq_some_inv h
  obtain ⟨o', h, hoh⟩ := bind_eq_some_inv h
  simp only [Option.map_eq_some'] at hoh
  obtain ⟨v_override_host, t_override_host, -⟩ := hoh
  replace t_override_host := assertString_eq_some t_override_host
  obtain ⟨o', h, hstep⟩ := bind_eq_some_inv h
  obtain ⟨v_weight, t_weight, -⟩ := fieldInt_some hstep
  clear hstep
  obtain ⟨o', h, hstep⟩ := bind_eq_some_inv h
  obtain ⟨v_use_ssl, t_use_ssl, -⟩ := fieldBool_some hstep
  clear hstep
  obtain ⟨o', h, hstep⟩ := bind_eq_some_inv h
  obtain ⟨v_shield, t_shield, -⟩ := fieldString_some hstep
  clear hstep
  obtain ⟨o', h, hstep⟩ := bind_eq_some_inv h
  obtain ⟨v_ssl_sni_hostname, t_ssl_sni_hostname, -⟩ := fieldString_some hstep
  clear hstep
  obtain ⟨o', h, hstep⟩ := bind_eq_some_inv h
  obtain ⟨v_ssl_client_key, t_ssl_client_key, -⟩ := fieldString_some hstep
  clear hstep
  obtain ⟨o', h, hstep⟩ := bind_eq_some_inv h
  obtain ⟨v_ssl_client_cert, t_ssl_client_cert, -⟩ := fieldString_some hstep
  clear hstep
  obtain ⟨o', h, hstep⟩ := bind_eq_some_inv h
  obtain ⟨v_ssl_ciphers, t_ssl_ciphers, -⟩ := fieldString_some hstep
  clear hstep
  obtain ⟨o', h, hstep⟩ := bind_eq_some_inv h
  obtain ⟨v_ssl_check_cert, t_ssl_check_cert, -⟩ := fieldBool_some hstep
  clear hstep
  obtain ⟨o', h, hstep⟩ := bind_eq_some_inv h
  obtain ⟨v_ssl_cert_hostname, t_ssl_cert_hostname, -⟩ := fieldString_some hstep
  clear hstep
  obtain ⟨o', h, hstep⟩ := bind_eq_some_inv h
  obtain ⟨v_ssl_ca_cert, t_ssl_ca_cert, -⟩ := fieldString_some hstep
  clear hstep
  obtain ⟨o', h, hstep⟩ := bind_eq_some_inv h
  obtain ⟨v_port, t_port, -⟩ := fieldInt_some hstep
  clear hstep
  obtain ⟨o', h, hstep⟩ := bind_eq_some_inv h
  obtain ⟨v_name, t_name, -⟩ := fieldString_some hstep
  clear hstep
  obtain ⟨o', h, hstep⟩ := bind_eq_some_inv h
  obtain ⟨v_min_tls_version, t_min_tls_version, -⟩ := fieldString_some hstep
  clear hstep
  obtain ⟨o', h, hstep⟩ := bind_eq_some_inv h
  obtain ⟨v_max_tls_version, t_max_tls_version, -⟩ := fieldString_some hstep
  clear hstep
  obtain ⟨o', h, hstep⟩ := bind_eq_some_inv h
  obtain ⟨v_max_conn, t_max_conn, -⟩ := fieldInt_some hstep
  clear hstep
  obtain ⟨o', h, hstep⟩ := bind_eq_some_inv h
  obtain ⟨v_healthcheck, t_healthcheck, -⟩ := fieldString_some hstep
  clear hstep
  obtain ⟨o', h, hstep⟩ := bind_eq_some_inv h
  obtain ⟨v_first_byte_timeout, t_first_byte_timeout, -⟩ := fieldInt_some hstep
  clear hstep
  obtain ⟨o', h, hstep⟩ := bind_eq_some_inv h
  obtain ⟨v_error_threshold, t_error_threshold, -⟩ := fieldInt_some hstep
  clear hstep
  obtain ⟨o', h, hstep⟩ := bind_eq_some_inv h
  obtain ⟨v_connect_timeout, t_connect_timeout, -⟩ := fieldInt_some hstep
  clear hstep
  obtain ⟨o', h, hstep⟩ := bind_eq_some_inv h
  obtain ⟨v_between_bytes_timeout, t_between_bytes_timeout, -⟩ := fieldInt_some hstep
  clear hstep
  obtain ⟨o', h, hstep⟩ := bind_eq_some_inv h
  obtain ⟨v_auto_loadbalance, t_auto_loadbalance, -⟩ := fieldBool_some hstep
  clear hstep
  obtain ⟨o', h, hstep⟩ := bind_eq_some_inv h
  obtain ⟨v_address, t_address, -⟩ := fieldString_some hstep
  clear hstep
  clear h
  by_cases hvcl : sa.serviceType = ServiceTypeVCL
  · rw [if_pos hvcl] at hrc
    obtain ⟨v_rc, t_rc, -⟩ := fieldString_some hrc
    simp [wellTypedElement, BackendServiceAttributeHandler.GetSchema, hvcl, Value.hasType,
      t_override_host, t_rc, t_address, t_auto_loadbalance, t_between_bytes_timeout, t_connect_timeout, t_error_threshold, t_first_byte_timeout, t_healthcheck, t_max_conn, t_max_tls_version, t_min_tls_version, t_name, t_port, t_ssl_ca_cert, t_ssl_cert_hostname, t_ssl_check_cert, t_ssl_ciphers, t_ssl_client_cert, t_ssl_client_key, t_ssl_sni_hostname, t_shield, t_use_ssl, t_weight]
  · simp [wellTypedElement, BackendServiceAttributeHandler.GetSchema, hvcl, Value.hasType,
      t_override_host, t_address, t_auto_loadbalance, t_between_bytes_timeout, t_connect_timeout, t_error_threshold, t_first_byte_timeout, t_healthcheck, t_max_conn, t_max_tls_version, t_min_tls_version, t_name, t_port, t_ssl_ca_cert, t_ssl_cert_hostname, t_ssl_check_cert, t_ssl_ciphers, t_ssl_client_cert, t_ssl_client_key, t_ssl_sni_hostname, t_shield, t_use_ssl, t_weight]

/-- C14: `buildCreateBackendInput` fails (a type assertion aborts and no payload is
returned) if and only if some attribute of the backend schema of the service
type is missing from the element or holds a value that is not of its declared
type; for every well-typed element it returns a payload. -/
theorem buildCreateBackendInput_fails_iff_ill_typed (sa : ServiceMetadata) (service : String)
    (latestVersion : Int) (df : GoMap) :
    (BackendServiceAttributeHandler.buildCreateBackendInput sa service latestVersion df = none ↔
      ∃ kt ∈ BackendServiceAttributeHandler.GetSchema sa,
        df kt.1 = none ∨ ∃ v, df kt.1 = some v ∧ v.hasType kt.2 = false) ∧
    (wellTypedElement (BackendServiceAttributeHandler.GetSchema sa) df = true →
      ∃ p, BackendServiceAttributeHandler.buildCreateBackendInput sa service latestVersion df =
        some p) := by
  have hsome : wellTypedElement (BackendServiceAttributeHandler.GetSchema sa) df = true →
      ∃ p, BackendServiceAttributeHandler.buildCreateBackendInput sa service latestVersion df =
        some p := by
    intro hty
    obtain ⟨oh, hoh⟩ : ∃ s, df "override_host" = some (.str s) :=
      wellTypedElement_string hty (backend_schema_mem_of_base (by
        simp [BackendServiceAttributeHandler.GetSchema, ServiceTypeVCL]))
    exact ⟨_, BackendServiceAttributeHandler.buildCreateBackendInput_eq sa service
      latestVersion df oh hty hoh⟩
  refine ⟨?_, hsome⟩
  rw [← wellTypedElement_eq_false_iff]
  constructor
  · intro hnone
    by_contra hne
    obtain ⟨p, hp⟩ := hsome (by simpa using hne)
    rw [hnone] at hp
    exact Option.noConfusion hp
  · intro hfalse
    by_contra hne
    obtain ⟨p, hp⟩ := Option.ne_none_iff_exists'.mp hne
    have := BackendServiceAttributeHandler.wellTyped_of_buildCreateBackendInput sa service
      latestVersion df p hp
    rw [hfalse] at this
    exact Bool.noConfusion this

/-- C14, at a concrete input: a backend whose `port` holds a string is rejected,
and the well-typed `exampleBackend` is accepted. -/
theorem buildCreateBackendInput_fails_iff_ill_typed_witness :
    BackendServiceAttributeHandler.buildCreateBackendInput { serviceType := ServiceTypeVCL }
        "svc" 3 (GoMap.set exampleBackend "port" (.str "80")) = none ∧
      ∃ p, BackendServiceAttributeHandler.buildCreateBackendInput
        { serviceType := ServiceTypeVCL } "svc" 3 exampleBackend = some p :=
  ⟨(buildCreateBackendInput_fails_iff_ill_typed { serviceType := ServiceTypeVCL } "svc" 3
      (GoMap.set exampleBackend "port" (.str "80"))).1.mpr
      ⟨("port", .TypeInt), by decide, Or.inr ⟨.str "80", by decide, by decide⟩⟩,
    (buildCreateBackendInput_fails_iff_ill_typed { serviceType := ServiceTypeVCL } "svc" 3
      exampleBackend).2 (by decide)⟩

/-- When the Cloud Files `buildCreate` returns a payload, the helper returned a
record and every attribute it asserts itself was well typed. -/
theorem CloudfilesServiceAttributeHandler.wellTyped_of_buildCreate
    (getVCLLoggingAttributes : GoMap → Option VCLLoggingAttributes) (df : GoMap)
    (serviceID : String) (serviceVersion : Int) (p : CreateCloudfilesInput)
    (h : CloudfilesServiceAttributeHandler.buildCreate getVCLLoggingAttributes (.map df)
      serviceID serviceVersion = some p) :
    (∃ vla, getVCLLoggingAttributes df = some vla) ∧
      wellTypedElement CloudfilesServiceAttributeHandler.assertedFields df = true ∧
      ((∀ g, df "gzip_level" ≠ some (.int g)) → p.GzipLevel = none) := by
  unfold CloudfilesServiceAttributeHandler.buildCreate at h
  simp only [assertMap, bind, Option.some_bind] at h
  rcases hv : getVCLLoggingAttributes df with _ | vla
  · simp [hv] at h
  simp only [hv, Option.some_bind] at h
  refine ⟨⟨vla, rfl⟩, ?_⟩
  obtain ⟨o2, h, hrc⟩ := Option.bind_eq_some.mp h
  obtain ⟨o1, h, hgz⟩ := Option.bind_eq_some.mp h
  obtain ⟨o_user, h, hstep⟩ := Option.bind_eq_some.mp h
  obtain ⟨v_user, t_user, e_user⟩ := fieldString_some hstep
  clear hstep
  obtain ⟨o_timestamp_format, h, hstep⟩ := Option.bind_eq_some.mp h
  obtain ⟨v_timestamp_format, t_timestamp_format, e_timestamp_format⟩ := fieldString_some hstep
  clear hstep
  obtain ⟨o_region, h, hstep⟩ := Option.bind_eq_some.mp h
  obtain ⟨v_region, t_region, e_region⟩ := fieldString_some hstep
  clear hstep
  obtain ⟨o_public_key, h, hstep⟩ := Option.bind_eq_some.mp h
  obtain ⟨v_public_key, t_public_key, e_public_key⟩ := fieldString_some hstep
  clear hstep
  obtain ⟨o_period, h, hstep⟩ := Option.bind_eq_some.mp h
  obtain ⟨v_period, t_period, e_period⟩ := fieldInt_some hstep
  clear hstep
  obtain ⟨o_path, h, hstep⟩ := Option.bind_eq_some.mp h
  obtain ⟨v_path, t_path, e_path⟩ := fieldString_some hstep
  clear hstep
  obtain ⟨o_name, h, hstep⟩ := Option.bind_eq_some.mp h
  obtain ⟨v_name, t_name, e_name⟩ := fieldString_some hstep
  clear hstep
  obtain ⟨o_message_type, h, hstep⟩ := Option.bind_eq_some.mp h
  obtain ⟨v_message_type, t_message_type, e_message_type⟩ := fieldString_some hstep
  clear hstep
  obtain ⟨o_compression_codec, h, hstep⟩ := Option.bind_eq_some.mp h
  obtain ⟨v_compression_codec, t_compression_codec, e_compression_codec⟩ := fieldString_some hstep
  clear hstep
  obtain ⟨o_bucket_name, h, hstep⟩ := Option.bind_eq_some.mp h
  obtain ⟨v_bucket_name, t_bucket_name, e_bucket_name⟩ := fieldString_some hstep
  clear hstep
  obtain ⟨v_access_key, t_access_key, e_access_key⟩ := fieldString_some h
  clear h
  have hpres : ∀ (a b c : CreateCloudfilesInput), a.GzipLevel = none →
      (if vla.responseCondition ≠ "" then
        some { b with ResponseCondition := some vla.responseCondition } else some b) = some c →
      ((∀ g, df "gzip_level" ≠ some (.int g)) → b = a) → 
      ((∀ g, df "gzip_level" ≠ some (.int g)) → c.GzipLevel = none) := by
    intro a b c ha hc hb hg
    rw [hb hg] at hc
    split at hc <;> simp only [Option.some.injEq] at hc <;> rw [← hc] <;> exact ha
  have hgz' : (∀ g, df "gzip_level" ≠ some (.int g)) → o2 = o1 := by
    intro hg
    rcases hgl : assertInt (df "gzip_level") with _ | gl
    · simp [hgl] at hgz
      exact hgz.symm
    · exact absurd (assertInt_eq_some hgl) (hg gl)
  have hgznone : o1.GzipLevel = none := by
    rw [e_user, e_timestamp_format, e_region, e_public_key, e_period, e_path, e_name,
      e_message_type, e_compression_codec, e_bucket_name, e_access_key]
  refine ⟨?_, hpres o1 o2 p hgznone hrc hgz'⟩
  simp [wellTypedElement, CloudfilesServiceAttributeHandler.assertedFields,
    CloudfilesServiceAttributeHandler.GetSchema, Value.hasType, t_access_key, t_bucket_name, t_compression_codec, t_message_type, t_name, t_path, t_period, t_public_key, t_region, t_timestamp_format, t_user]

/-- The Cloud Files `buildCreate` returns a payload as soon as the helper returns a
record and the attributes it asserts itself are well typed, whatever
`gzip_level` holds. -/
theorem CloudfilesServiceAttributeHandler.buildCreate_isSome
    (getVCLLoggingAttributes : GoMap → Option VCLLoggingAttributes) (df : GoMap)
    (serviceID : String) (serviceVersion : Int) (vla : VCLLoggingAttributes)
    (hvla : getVCLLoggingAttributes df = some vla)
    (hty : wellTypedElement CloudfilesServiceAttributeHandler.assertedFields df = true) :
    ∃ p, CloudfilesServiceAttributeHandler.buildCreate getVCLLoggingAttributes (.map df)
      serviceID serviceVersion = some p := by
  have hS : ∀ k, (k, FieldType.TypeString) ∈ CloudfilesServiceAttributeHandler.assertedFields →
      ∃ s, df k = some (.str s) := fun k hk => wellTypedElement_string hty hk
  have hI : ∀ k, (k, FieldType.TypeInt) ∈ CloudfilesServiceAttributeHandler.assertedFields →
      ∃ s, df k = some (.int s) := fun k hk => wellTypedElement_int hty hk
  unfold CloudfilesServiceAttributeHandler.buildCreate
  simp only [assertMap, hvla, Option.some_bind, bind]
  rw [fieldString_eq df "access_key" _ _
    (hS _ (by simp [CloudfilesServiceAttributeHandler.assertedFields,
      CloudfilesServiceAttributeHandler.GetSchema]))]
  simp only [Option.some_bind]
  rw [fieldString_eq df "bucket_name" _ _
    (hS _ (by simp [CloudfilesServiceAttributeHandler.assertedFields,
      CloudfilesServiceAttributeHandler.GetSchema]))]
  simp only [Option.some_bind]
  rw [fieldString_eq df "compression_codec" _ _
    (hS _ (by simp [CloudfilesServiceAttributeHandler.assertedFields,
      CloudfilesServiceAttributeHandler.GetSchema]))]
  simp only [Option.some_bind]
  rw [fieldString_eq df "message_type" _ _
    (hS _ (by simp [CloudfilesServiceAttributeHandler.assertedFields,
      CloudfilesServiceAttributeHandler.GetSchema]))]
  simp only [Option.some_bind]
  rw [fieldString_eq df "name" _ _
    (hS _ (by simp [CloudfilesServiceAttributeHandler.assertedFields,
      CloudfilesServiceAttributeHandler.GetSchema]))]
  simp only [Option.some_bind]
  rw [fieldString_eq df "path" _ _
    (hS _ (by simp [CloudfilesServiceAttributeHandler.assertedFields,
      CloudfilesServiceAttributeHandler.GetSchema]))]
  simp only [Option.some_bind]
  rw [fieldInt_eq df "period" _ _
    (hI _ (by simp [CloudfilesServiceAttributeHandler.assertedFields,
      CloudfilesServiceAttributeHandler.GetSchema]))]
  simp only [Option.some_bind]
  rw [fieldString_eq df "public_key" _ _
    (hS _ (by simp [CloudfilesServiceAttributeHandler.assertedFields,
      CloudfilesServiceAttributeHandler.GetSchema]))]
  simp only [Option.some_bind]
  rw [fieldString_eq df "region" _ _
    (hS _ (by simp [CloudfilesServiceAttributeHandler.assertedFields,
      CloudfilesServiceAttributeHandler.GetSchema]))]
  simp only [Option.some_bind]
  rw [fieldString_eq df "timestamp_format" _ _
    (hS _ (by simp [CloudfilesServiceAttributeHandler.assertedFields,
      CloudfilesServiceAttributeHandler.GetSchema]))]
  simp only [Option.some_bind]
  rw [fieldString_eq df "user" _ _
    (hS _ (by simp [CloudfilesServiceAttributeHandler.assertedFields,
      CloudfilesServiceAttributeHandler.GetSchema]))]
  simp only [Option.some_bind]
  rcases assertInt (df "gzip_level") with _ | gl
  · by_cases h2 : vla.responseCondition = "" <;> simp [h2]
  · by_cases h1 : gl = -1 <;> by_cases h2 : vla.responseCondition = "" <;> simp [h1, h2]

/-- C15, as stated, fails for `gzip_level`: the element is `exampleCloudfiles` with
`gzip_level` holding the string `"high"`, which is ill typed for the schema, and
`buildCreate` (with a helper that returns the record of the element) returns a
payload, with `GzipLevel` unset. -/
theorem buildCreate_accepts_non_integer_gzip_level :
    wellTypedElement
        (CloudfilesServiceAttributeHandler.GetSchema { serviceType := ServiceTypeVCL })
        (GoMap.set exampleCloudfiles "gzip_level" (.str "high")) = false ∧
      (CloudfilesServiceAttributeHandler.buildCreate (fun _ => some exampleVLA)
          (.map (GoMap.set exampleCloudfiles "gzip_level" (.str "high"))) "svc" 3).map
        (fun opts => opts.GzipLevel) = some none := by
  refine ⟨by decide, by decide⟩

/-- C15, amended: `buildCreate` fails instead of returning a payload exactly when
the helper `getVCLLoggingAttributes` fails or one of the attributes it asserts
itself (`access_key`, `bucket_name`, `compression_codec`, `message_type`,
`name`, `path`, `period`, `public_key`, `region`, `timestamp_format`, `user`)
is missing or holds a value that does not match its declared type; a
`gzip_level` that is not an integer does not make it fail: the payload is
returned with `GzipLevel` unset. -/
theorem buildCreate_fails_iff_asserted_attribute_ill_typed
    (getVCLLoggingAttributes : GoMap → Option VCLLoggingAttributes) (df : GoMap)
    (serviceID : String) (serviceVersion : Int) :
    CloudfilesServiceAttributeHandler.assertedFields.map Prod.fst =
        ["access_key", "bucket_name", "compression_codec", "message_type", "name", "path",
          "period", "public_key", "region", "timestamp_format", "user"] ∧
    (CloudfilesServiceAttributeHandler.buildCreate getVCLLoggingAttributes (.map df) serviceID
        serviceVersion = none ↔
      getVCLLoggingAttributes df = none ∨
        ∃ kt ∈ CloudfilesServiceAttributeHandler.assertedFields,
          df kt.1 = none ∨ ∃ v, df kt.1 = some v ∧ v.hasType kt.2 = false) ∧
    (∀ p, CloudfilesServiceAttributeHandler.buildCreate getVCLLoggingAttributes (.map df)
        serviceID serviceVersion = some p →
      (∀ g, df "gzip_level" ≠ some (.int g)) → p.GzipLevel = none) := by
  refine ⟨by decide, ?_, fun p hp =>
    (CloudfilesServiceAttributeHandler.wellTyped_of_buildCreate getVCLLoggingAttributes df
      serviceID serviceVersion p hp).2.2⟩
  rw [← wellTypedElement_eq_false_iff]
  constructor
  · intro hnone
    by_contra hne
    rw [not_or] at hne
    obtain ⟨vla, hvla⟩ := Option.ne_none_iff_exists'.mp hne.1
    obtain ⟨p, hp⟩ := CloudfilesServiceAttributeHandler.buildCreate_isSome
      getVCLLoggingAttributes df serviceID serviceVersion vla hvla (by simpa using hne.2)
    rw [hnone] at hp
    exact Option.noConfusion hp
  · intro hbad
    by_contra hne
    obtain ⟨p, hp⟩ := Option.ne_none_iff_exists'.mp hne
    obtain ⟨⟨vla, hvla⟩, hty, -⟩ :=
      CloudfilesServiceAttributeHandler.wellTyped_of_buildCreate getVCLLoggingAttributes df
        serviceID serviceVersion p hp
    rcases hbad with h | h
    · rw [h] at hvla
      exact Option.noConfusion hvla
    · rw [h] at hty
      exact Bool.noConfusion hty

/-- C15 amended, at a concrete input: a `period` holding a string makes
`buildCreate` fail. -/
theorem buildCreate_fails_iff_asserted_attribute_ill_typed_witness :
    CloudfilesServiceAttributeHandler.buildCreate (fun _ => some exampleVLA)
      (.map (GoMap.set exampleCloudfiles "period" (.str "hourly"))) "svc" 3 = none :=
  (buildCreate_fails_iff_asserted_attribute_ill_typed (fun _ => some exampleVLA)
    (GoMap.set exampleCloudfiles "period" (.str "hourly")) "svc" 3).2.1.mpr
    (Or.inr ⟨("period", .TypeInt), by decide, Or.inr ⟨.str "hourly", by decide, by decide⟩⟩)

/-! ## `request_condition` and the service type -/

theorem ifChangedString_some {α : Type} {modified : GoMap} {k : String}
    {assign : α → Option String → α} {opts opts' : α}
    (h : ifChangedString modified k assign opts = some opts') :
    opts' = opts ∨ ∃ v, opts' = assign opts v := by
  unfold ifChangedString at h
  split at h
  · simp only [Option.map_eq_some'] at h
    obtain ⟨s, -, rfl⟩ := h
    exact Or.inr ⟨_, rfl⟩
  · exact Or.inl (Option.some.inj h).symm

theorem ifChangedInt_some {α : Type} {modified : GoMap} {k : String}
    {assign : α → Option Int → α} {opts opts' : α}
    (h : ifChangedInt modified k assign opts = some opts') :
    opts' = opts ∨ ∃ v, opts' = assign opts v := by
  unfold ifChangedInt at h
  split at h
  · simp only [Option.map_eq_some'] at h
    obtain ⟨s, -, rfl⟩ := h
    exact Or.inr ⟨_, rfl⟩
  · exact Or.inl (Option.some.inj h).symm

theorem ifChangedBool_some {α : Type} {modified : GoMap} {k : String}
    {assign : α → Option Bool → α} {opts opts' : α}
    (h : ifChangedBool modified k assign opts = some opts') :
    opts' = opts ∨ ∃ v, opts' = assign opts v := by
  unfold ifChangedBool at h
  split at h
  · simp only [Option.map_eq_some'] at h
    obtain ⟨s, -, rfl⟩ := h
    exact Or.inr ⟨_, rfl⟩
  · exact Or.inl (Option.some.inj h).symm

theorem ifChangedStringWhen_some {α : Type} {gate : Prop} [Decidable gate] {modified : GoMap}
    {k : String} {assign : α → Option String → α} {opts opts' : α}
    (h : ifChangedStringWhen gate modified k assign opts = some opts') :
    opts' = opts ∨ (gate ∧ ∃ v, opts' = assign opts v) := by
  unfold ifChangedStringWhen at h
  split at h
  · split at h
    · rename_i hg
      simp only [Option.map_eq_some'] at h
      obtain ⟨s, -, rfl⟩ := h
      exact Or.inr ⟨hg, _, rfl⟩
    · exact Or.inl (Option.some.inj h).symm
  · exact Or.inl (Option.some.inj h).symm

/-- Whenever `buildUpdateBackendInput` returns a payload for a service type other
than VCL, `RequestCondition` is unset: the gated block is the only one that
assigns it. -/
theorem BackendServiceAttributeHandler.buildUpdateBackendInput_requestCondition
    (sa : ServiceMetadata) (serviceID : String) (latestVersion : Int)
    (resource modified : GoMap) (u : UpdateBackendInput)
    (h : BackendServiceAttributeHandler.buildUpdateBackendInput sa serviceID latestVersion
      resource modified = some u)
    (hvcl : sa.serviceType ≠ ServiceTypeVCL) : u.RequestCondition = none := by
  unfold BackendServiceAttributeHandler.buildUpdateBackendInput at h
  obtain ⟨o_ssl_ciphers, h, h_ssl_ciphers⟩ := bind_eq_some_inv h
  obtain ⟨o_max_tls_version, h, h_max_tls_version⟩ := bind_eq_some_inv h
  obtain ⟨o_min_tls_version, h, h_min_tls_version⟩ := bind_eq_some_inv h
  obtain ⟨o_ssl_sni_hostname, h, h_ssl_sni_hostname⟩ := bind_eq_some_inv h
  obtain ⟨o_ssl_cert_hostname, h, h_ssl_cert_hostname⟩ := bind_eq_some_inv h
  obtain ⟨o_ssl_client_key, h, h_ssl_client_key⟩ := bind_eq_some_inv h
  obtain ⟨o_ssl_client_cert, h, h_ssl_client_cert⟩ := bind_eq_some_inv h
  obtain ⟨o_ssl_ca_cert, h, h_ssl_ca_cert⟩ := bind_eq_some_inv h
  obtain ⟨o_ssl_check_cert, h, h_ssl_check_cert⟩ := bind_eq_some_inv h
  obtain ⟨o_use_ssl, h, h_use_ssl⟩ := bind_eq_some_inv h
  obtain ⟨o_shield, h, h_shield⟩ := bind_eq_some_inv h
  obtain ⟨o_healthcheck, h, h_healthcheck⟩ := bind_eq_some_inv h
  obtain ⟨o_request_condition, h, h_request_condition⟩ := bind_eq_some_inv h
  obtain ⟨o_weight, h, h_weight⟩ := bind_eq_some_inv h
  obtain ⟨o_auto_loadbalance, h, h_auto_loadbalance⟩ := bind_eq_some_inv h
  obtain ⟨o_between_bytes_timeout, h, h_between_bytes_timeout⟩ := bind_eq_some_inv h
  obtain ⟨o_first_byte_timeout, h, h_first_byte_timeout⟩ := bind_eq_some_inv h
  obtain ⟨o_error_threshold, h, h_error_threshold⟩ := bind_eq_some_inv h
  obtain ⟨o_max_conn, h, h_max_conn⟩ := bind_eq_some_inv h
  obtain ⟨o_connect_timeout, h, h_connect_timeout⟩ := bind_eq_some_inv h
  obtain ⟨o_override_host, h, h_override_host⟩ := bind_eq_some_inv h
  obtain ⟨o_port, h, h_port⟩ := bind_eq_some_inv h
  obtain ⟨o_address, h, h_address⟩ := bind_eq_some_inv h
  simp only [Option.map_eq_some'] at h
  obtain ⟨name, -, e0⟩ := h
  have q : o_address.RequestCondition = none := by rw [← e0]
  replace q : o_port.RequestCondition = none := by
    rcases ifChangedString_some h_address with e | ⟨v, e⟩ <;> rw [e] <;> exact q
  replace q : o_override_host.RequestCondition = none := by
    rcases ifChangedInt_some h_port with e | ⟨v, e⟩ <;> rw [e] <;> exact q
  replace q : o_connect_timeout.RequestCondition = none := by
    rcases ifChangedString_some h_override_host with e | ⟨v, e⟩ <;> rw [e] <;> exact q
  replace q : o_max_conn.RequestCondition = none := by
    rcases ifChangedInt_some h_connect_timeout with e | ⟨v, e⟩ <;> rw [e] <;> exact q
  replace q : o_error_threshold.RequestCondition = none := by
    rcases ifChangedInt_some h_max_conn with e | ⟨v, e⟩ <;> rw [e] <;> exact q
  replace q : o_first_byte_timeout.RequestCondition = none := by
    rcases ifChangedInt_some h_error_threshold with e | ⟨v, e⟩ <;> rw [e] <;> exact q
  replace q : o_between_bytes_timeout.RequestCondition = none := by
    rcases ifChangedInt_some h_first_byte_timeout with e | ⟨v, e⟩ <;> rw [e] <;> exact q
  replace q : o_auto_loadbalance.RequestCondition = none := by
    rcases ifChangedInt_some h_between_bytes_timeout with e | ⟨v, e⟩ <;> rw [e] <;> exact q
  replace q : o_weight.RequestCondition = none := by
    rcases ifChangedBool_some h_auto_loadbalance with e | ⟨v, e⟩ <;> rw [e] <;> exact q
  replace q : o_request_condition.RequestCondition = none := by
    rcases ifChangedInt_some h_weight with e | ⟨v, e⟩ <;> rw [e] <;> exact q
  replace q : o_healthcheck.RequestCondition = none := by
    rcases ifChangedStringWhen_some h_request_condition with e | ⟨hg, -⟩
    · rw [e]; exact q
    · exact absurd hg hvcl
  replace q : o_shield.RequestCondition = none := by
    rcases ifChangedString_some h_healthcheck with e | ⟨v, e⟩ <;> rw [e] <;> exact q
  replace q : o_use_ssl.RequestCondition = none := by
    rcases ifChangedString_some h_shield with e | ⟨v, e⟩ <;> rw [e] <;> exact q
  replace q : o_ssl_check_cert.RequestCondition = none := by
    rcases ifChangedBool_some h_use_ssl with e | ⟨v, e⟩ <;> rw [e] <;> exact q
  replace q : o_ssl_ca_cert.RequestCondition = none := by
    rcases ifChangedBool_some h_ssl_check_cert with e | ⟨v, e⟩ <;> rw [e] <;> exact q
  replace q : o_ssl_client_cert.RequestCondition = none := by
    rcases ifChangedString_some h_ssl_ca_cert with e | ⟨v, e⟩ <;> rw [e] <;> exact q
  replace q : o_ssl_client_key.RequestCondition = none := by
    rcases ifChangedString_some h_ssl_client_cert with e | ⟨v, e⟩ <;> rw [e] <;> exact q
  replace q : o_ssl_cert_hostname.RequestCondition = none := by
    rcases ifChangedString_some h_ssl_client_key with e | ⟨v, e⟩ <;> rw [e] <;> exact q
  replace q : o_ssl_sni_hostname.RequestCondition = none := by
    rcases ifChangedString_some h_ssl_cert_hostname with e | ⟨v, e⟩ <;> rw [e] <;> exact q
  replace q : o_min_tls_version.RequestCondition = none := by
    rcases ifChangedString_some h_ssl_sni_hostname with e | ⟨v, e⟩ <;> rw [e] <;> exact q
  replace q : o_max_tls_version.RequestCondition = none := by
    rcases ifChangedString_some h_min_tls_version with e | ⟨v, e⟩ <;> rw [e] <;> exact q
  replace q : o_ssl_ciphers.RequestCondition = none := by
    rcases ifChangedString_some h_max_tls_version with e | ⟨v, e⟩ <;> rw [e] <;> exact q
  replace q : u.RequestCondition = none := by
    rcases ifChangedString_some h_ssl_ciphers with e | ⟨v, e⟩ <;> rw [e] <;> exact q
  exact q

/-- C16: `request_condition` exists only for the VCL service variant. Whenever
`buildCreateBackendInput` returns a payload, its `RequestCondition` is set if and
only if the service type is VCL; whenever `buildUpdateBackendInput` returns a
payload with `RequestCondition` set, the service type is VCL; and a map projected
by `flattenBackend` has the key `request_condition` if and only if the service
type is VCL. For any other service type the payloads leave the field unset and
the maps have no such key, whatever the input maps contain. -/
theorem request_condition_only_for_vcl (sa : ServiceMetadata) (service : String)
    (latestVersion : Int) (df resource modified : GoMap) (backendList : List Backend) :
    (∀ p, BackendServiceAttributeHandler.buildCreateBackendInput sa service latestVersion df =
        some p →
      (p.RequestCondition.isSome = true ↔ sa.serviceType = ServiceTypeVCL)) ∧
    (∀ u, BackendServiceAttributeHandler.buildUpdateBackendInput sa service latestVersion
        resource modified = some u →
      (u.RequestCondition.isSome = true → sa.serviceType = ServiceTypeVCL)) ∧
    (∀ m ∈ flattenBackend backendList sa,
      ((m "request_condition").isSome = true ↔ sa.serviceType = ServiceTypeVCL)) := by
  refine ⟨?_, ?_, ?_⟩
  · intro p hp
    have hty := BackendServiceAttributeHandler.wellTyped_of_buildCreateBackendInput sa service
      latestVersion df p hp
    obtain ⟨oh, hoh⟩ : ∃ s, df "override_host" = some (.str s) :=
      wellTypedElement_string hty (backend_schema_mem_of_base (by
        simp [BackendServiceAttributeHandler.GetSchema, ServiceTypeVCL]))
    rw [BackendServiceAttributeHandler.buildCreateBackendInput_eq sa service latestVersion df
      oh hty hoh] at hp
    rw [← Option.some.inj hp]
    by_cases hvcl : sa.serviceType = ServiceTypeVCL
    · obtain ⟨rc, hrc⟩ : ∃ s, df "request_condition" = some (.str s) :=
        wellTypedElement_string hty
          (by simp [BackendServiceAttributeHandler.GetSchema, hvcl])
      simp [hvcl, hrc, assertString]
    · simp [hvcl]
  · intro u hu hset
    by_contra hvcl
    rw [BackendServiceAttributeHandler.buildUpdateBackendInput_requestCondition sa service
      latestVersion resource modified u hu hvcl] at hset
    exact Bool.noConfusion hset
  · intro m hm
    simp only [flattenBackend, List.mem_map] at hm
    obtain ⟨resource, -, rfl⟩ := hm
    by_cases hvcl : sa.serviceType = ServiceTypeVCL
    · simp [hvcl, GoMap.set]
    · simp [hvcl, GoMap.ofList, List.lookup]

/-- C16, at a concrete input: for a Compute service, creating `exampleBackend`
(which holds a `request_condition`) leaves `RequestCondition` unset. -/
theorem request_condition_only_for_vcl_witness :
    ∃ p, BackendServiceAttributeHandler.buildCreateBackendInput { serviceType := "wasm" }
        "svc" 3 exampleBackend = some p ∧
      ¬ p.RequestCondition.isSome = true :=
  match h : BackendServiceAttributeHandler.buildCreateBackendInput { serviceType := "wasm" }
      "svc" 3 exampleBackend with
  | some p =>
    ⟨p, rfl, fun hs =>
      absurd ((request_condition_only_for_vcl { serviceType := "wasm" } "svc" 3 exampleBackend
        exampleBackend exampleBackend []).1 p h |>.mp hs) (by decide)⟩
  | none => absurd h (by decide)

/-! ## TLS subscription validation: read and poll -/

/-- C17: `resourceFastlyTLSSubscriptionValidationRead` sets the resource ID to
`subscription_id` and returns no error when the lookup succeeds with the state
`issued`; it clears the ID and returns no error when the lookup succeeds with
any other state or fails with a not-found HTTP error; it returns the error and
leaves the resource data unchanged for every other lookup failure. For a
non-empty `subscription_id` the first outcome (ID set to `subscription_id`, no
error) is therefore reached if and only if the lookup succeeded with the state
`issued`. -/
theorem read_sets_id_iff_issued (lookup : LookupResult) (d : ResourceData) :
    (∀ sub, lookup = .ok sub → sub.State = subscriptionStateIssued →
      resourceFastlyTLSSubscriptionValidationRead lookup d =
        ({ d with Id := d.subscription_id }, none)) ∧
    (∀ sub, lookup = .ok sub → sub.State ≠ subscriptionStateIssued →
      resourceFastlyTLSSubscriptionValidationRead lookup d = ({ d with Id := "" }, none)) ∧
    (∀ e, lookup = .failed (.http e) → e.IsNotFound = true →
      resourceFastlyTLSSubscriptionValidationRead lookup d = ({ d with Id := "" }, none)) ∧
    (∀ err, lookup = .failed err → (∀ e, err = .http e → e.IsNotFound = false) →
      resourceFastlyTLSSubscriptionValidationRead lookup d = (d, some err)) ∧
    (d.subscription_id ≠ "" →
      (resourceFastlyTLSSubscriptionValidationRead lookup d =
          ({ d with Id := d.subscription_id }, none) ↔
        ∃ sub, lookup = .ok sub ∧ sub.State = subscriptionStateIssued)) := by
  refine ⟨?_, ?_, ?_, ?_, ?_⟩
  · rintro sub rfl hs
    simp [resourceFastlyTLSSubscriptionValidationRead, hs]
  · rintro sub rfl hs
    simp [resourceFastlyTLSSubscriptionValidationRead, hs]
  · rintro e rfl he
    simp [resourceFastlyTLSSubscriptionValidationRead, he]
  · rintro err rfl he
    rcases err with e | msg
    · simp [resourceFastlyTLSSubscriptionValidationRead, he e rfl]
    · simp [resourceFastlyTLSSubscriptionValidationRead]
  · intro hne
    have hne' : ¬ "" = d.subscription_id := fun h => hne h.symm
    rcases lookup with sub | err
    · by_cases hs : sub.State = subscriptionStateIssued
      · simp [resourceFastlyTLSSubscriptionValidationRead, hs]
      · simp [resourceFastlyTLSSubscriptionValidationRead, hs, hne']
    · rcases err with e | msg
      · by_cases he : e.IsNotFound = true
        · simp [resourceFastlyTLSSubscriptionValidationRead, he, hne']
        · simp [resourceFastlyTLSSubscriptionValidationRead, he]
      · simp [resourceFastlyTLSSubscriptionValidationRead]

/-- C17, at a concrete input: an issued subscription sets the ID. -/
theorem read_sets_id_iff_issued_witness :
    resourceFastlyTLSSubscriptionValidationRead (.ok { State := "issued" })
        { Id := "", subscription_id := "sub-1" } =
      ({ Id := "sub-1", subscription_id := "sub-1" }, none) :=
  (read_sets_id_iff_issued (.ok { State := "issued" })
    { Id := "", subscription_id := "sub-1" }).1 { State := "issued" } rfl rfl

/-- C18, as stated, fails: the first lookup of the poll fails with a transport
error; the closure classifies it as not retryable, and the create ends with that
error after this single lookup although 100 attempts were allowed. -/
theorem create_does_not_retry_transport_error :
    (validationRetryFunc (fun _ => .failed (.other "connection reset")) id
        { d := { Id := "", subscription_id := "sub-1" }, calls := 0 }).2 =
      some { Err := .other "connection reset", Retryable := false } ∧
    resourceFastlyTLSSubscriptionValidationCreate
        (fun n => if n = 0 then .failed (.other "connection reset")
          else .ok { State := "issued" })
        id 100 { Id := "", subscription_id := "sub-1" } =
      ({ Id := "", subscription_id := "sub-1" }, some (.other "connection reset")) := by
  refine ⟨by decide, by decide⟩

/-- C18, amended: in the polling step every error of the subscription lookup,
transient transport errors included, is classified as not retryable, and the
create ends with that error without another lookup; only a successful lookup
whose state is not `issued` is classified as retryable. -/
theorem create_ends_with_lookup_error (GetTLSSubscription : Nat → LookupResult)
    (diagToErr : Option GoError → Option GoError) (attempts : Nat) (d : ResourceData)
    (s : PollState) :
    (∀ err, GetTLSSubscription s.calls = .failed err →
      validationRetryFunc GetTLSSubscription diagToErr s =
        ({ s with calls := s.calls + 1 }, some (NonRetryableError err)) ∧
      (NonRetryableError err).Retryable = false) ∧
    (∀ err, GetTLSSubscription 0 = .failed err →
      resourceFastlyTLSSubscriptionValidationCreate GetTLSSubscription diagToErr
        (attempts + 1) d = (d, some err)) ∧
    (∀ sub, GetTLSSubscription s.calls = .ok sub → sub.State ≠ subscriptionStateIssued →
      ∃ e, (validationRetryFunc GetTLSSubscription diagToErr s).2 = some e ∧
        e.Retryable = true) := by
  refine ⟨?_, ?_, ?_⟩
  · intro err herr
    simp [validationRetryFunc, herr, NonRetryableError]
  · intro err herr
    simp [resourceFastlyTLSSubscriptionValidationCreate, RetryContext, validationRetryFunc,
      herr, NonRetryableError]
  · intro sub hsub hs
    simp [validationRetryFunc, hsub, hs, RetryableError]

/-- C18 amended, at a concrete input: a transport error on the first lookup ends
the create. -/
theorem create_ends_with_lookup_error_witness :
    resourceFastlyTLSSubscriptionValidationCreate
        (fun _ => .failed (.other "connection reset")) id (99 + 1)
        { Id := "", subscription_id := "sub-1" } =
      ({ Id := "", subscription_id := "sub-1" }, some (.other "connection reset")) :=
  (create_ends_with_lookup_error (fun _ => .failed (.other "connection reset")) id 99
    { Id := "", subscription_id := "sub-1" }
    { d := { Id := "", subscription_id := "sub-1" }, calls := 0 }).2.1
    (.other "connection reset") rfl

/-! ## Pruned maps and map literals -/

theorem GoMap.pruneEmpty_of_none {m : GoMap} {k : String} (h : m k = none) :
    GoMap.pruneEmpty m k = none := by
  simp [GoMap.pruneEmpty, h]

/-- A key that is not in a map literal is absent from the map. -/
theorem GoMap.ofList_of_not_mem {l : List (String × Value)} {k : String}
    (h : k ∉ l.map Prod.fst) : GoMap.ofList l k = none := by
  induction l with
  | nil => rfl
  | cons p l ih =>
    simp only [List.map_cons, List.mem_cons, not_or] at h
    have hne : (k == p.1) = false := beq_eq_false_iff_ne.mpr h.1
    simp only [GoMap.ofList, List.lookup, hne]
    exact ih h.2

/-! ## Datacenters -/

/-- C22: for every list of datacenters, `flattenDatacenters` returns a slice that
is not nil (an empty one for an empty input) with one map per datacenter, in
order, in which each of `code`, `name`, `group` and `shield` is present if and
only if the datacenter's field is a non-empty string, and then holds it; there
is no other key, and no map holds an empty string. -/
theorem flattenDatacenters_keys (datacenters : List Datacenter) :
    ∃ result, flattenDatacenters datacenters = .slice result ∧
      (flattenDatacenters datacenters).isNil = false ∧
      result.length = datacenters.length ∧
      List.Forall₂ (fun d m =>
        m "code" = (if d.Code = "" then none else some (.str d.Code)) ∧
        m "name" = (if d.Name = "" then none else some (.str d.Name)) ∧
        m "group" = (if d.Group = "" then none else some (.str d.Group)) ∧
        m "shield" = (if d.Shield = "" then none else some (.str d.Shield)) ∧
        (∀ k, k ∉ ["code", "name", "group", "shield"] → m k = none) ∧
        ∀ k, m k ≠ some (.str ""))
        datacenters result := by
  have hP : ∀ d : Datacenter,
      (fun (d : Datacenter) (m : GoMap) =>
        m "code" = (if d.Code = "" then none else some (.str d.Code)) ∧
        m "name" = (if d.Name = "" then none else some (.str d.Name)) ∧
        m "group" = (if d.Group = "" then none else some (.str d.Group)) ∧
        m "shield" = (if d.Shield = "" then none else some (.str d.Shield)) ∧
        (∀ k, k ∉ ["code", "name", "group", "shield"] → m k = none) ∧
        ∀ k, m k ≠ some (.str "")) d
        (GoMap.pruneEmpty (GoMap.ofList
          [ ("code", .str d.Code), ("name", .str d.Name), ("group", .str d.Group),
            ("shield", .str d.Shield) ])) := by
    intro d
    refine ⟨?_, ?_, ?_, ?_, ?_, ?_⟩
    · by_cases hs : d.Code = "" <;> simp [GoMap.pruneEmpty, GoMap.ofList, List.lookup, hs]
    · by_cases hs : d.Name = "" <;> simp [GoMap.pruneEmpty, GoMap.ofList, List.lookup, hs]
    · by_cases hs : d.Group = "" <;> simp [GoMap.pruneEmpty, GoMap.ofList, List.lookup, hs]
    · by_cases hs : d.Shield = "" <;> simp [GoMap.pruneEmpty, GoMap.ofList, List.lookup, hs]
    · intro k hk
      exact GoMap.pruneEmpty_of_none (GoMap.ofList_of_not_mem (by simpa using hk))
    · intro k
      exact GoMap.pruneEmpty_ne_empty _ k
  cases datacenters with
  | nil => exact ⟨[], rfl, rfl, rfl, List.Forall₂.nil⟩
  | cons d rest =>
    refine ⟨(d :: rest).map fun resource =>
        GoMap.pruneEmpty (GoMap.ofList
          [ ("code", .str resource.Code), ("name", .str resource.Name),
            ("group", .str resource.Group), ("shield", .str resource.Shield) ]),
      by simp [flattenDatacenters], by simp [flattenDatacenters, GoSlice.isNil],
      by simp, ?_⟩
    exact forall₂_map_self _ _ _ (fun d _ => hP d)

/-! ## The projection of backends keeps every key -/

/-- The 23 attribute names `flattenBackend` writes for every service type. -/
theorem flattenBackend_base_keys (sa : ServiceMetadata) (k : String) :
    k ∈ (BackendServiceAttributeHandler.GetSchema sa).map Prod.fst ↔
      (k ∈ ["address", "auto_loadbalance", "between_bytes_timeout", "connect_timeout",
        "error_threshold", "first_byte_timeout", "healthcheck", "max_conn",
        "max_tls_version", "min_tls_version", "name", "override_host",
        "port", "shield", "ssl_ca_cert", "ssl_cert_hostname",
        "ssl_check_cert", "ssl_ciphers", "ssl_client_cert", "ssl_client_key",
        "ssl_sni_hostname", "use_ssl", "weight"] ∨
        (sa.serviceType = ServiceTypeVCL ∧ k = "request_condition")) := by
  by_cases hvcl : sa.serviceType = ServiceTypeVCL <;>
    simp [BackendServiceAttributeHandler.GetSchema, hvcl, or_assoc]

/-- C26: for every list of remote backends and every service type, `flattenBackend`
returns a slice that is not nil with one map per backend, in order, and every
map has the same key set whatever the field values: the attribute names of the
schema (the 23 backend keys, plus `request_condition` for VCL). Each key holds
the remote field as it is, so an empty string or a zero is never pruned: an
empty remote field appears as `""`. -/
theorem flattenBackend_never_prunes (backendList : List Backend) (sa : ServiceMetadata) :
    (flattenBackendResult backendList sa).isNil = false ∧
    (flattenBackendResult backendList sa).toList = flattenBackend backendList sa ∧
    (flattenBackend backendList sa).length = backendList.length ∧
    List.Forall₂ (fun b m =>
      (∀ k, (m k).isSome = true ↔
        k ∈ (BackendServiceAttributeHandler.GetSchema sa).map Prod.fst) ∧
      m "address" = some (.str b.Address) ∧
      m "auto_loadbalance" = some (.bool b.AutoLoadbalance) ∧
      m "between_bytes_timeout" = some (.int b.BetweenBytesTimeout) ∧
      m "connect_timeout" = some (.int b.ConnectTimeout) ∧
      m "error_threshold" = some (.int b.ErrorThreshold) ∧
      m "first_byte_timeout" = some (.int b.FirstByteTimeout) ∧
      m "healthcheck" = some (.str b.HealthCheck) ∧
      m "max_conn" = some (.int b.MaxConn) ∧
      m "max_tls_version" = some (.str b.MaxTLSVersion) ∧
      m "min_tls_version" = some (.str b.MinTLSVersion) ∧
      m "name" = some (.str b.Name) ∧
      m "override_host" = some (.str b.OverrideHost) ∧
      m "port" = some (.int b.Port) ∧
      m "shield" = some (.str b.Shield) ∧
      m "ssl_ca_cert" = some (.str b.SSLCACert) ∧
      m "ssl_cert_hostname" = some (.str b.SSLCertHostname) ∧
      m "ssl_check_cert" = some (.bool b.SSLCheckCert) ∧
      m "ssl_ciphers" = some (.str b.SSLCiphers) ∧
      m "ssl_client_cert" = some (.str b.SSLClientCert) ∧
      m "ssl_client_key" = some (.str b.SSLClientKey) ∧
      m "ssl_sni_hostname" = some (.str b.SSLSNIHostname) ∧
      m "use_ssl" = some (.bool b.UseSSL) ∧
      m "weight" = some (.int b.Weight) ∧
      (sa.serviceType = ServiceTypeVCL →
        m "request_condition" = some (.str b.RequestCondition)))
      backendList (flattenBackend backendList sa) := by
  refine ⟨rfl, rfl, by simp [flattenBackend], ?_⟩
  apply forall₂_map_self
  intro b _
  refine ⟨?_, ?_, ?_, ?_, ?_, ?_, ?_, ?_, ?_, ?_, ?_, ?_, ?_, ?_, ?_, ?_, ?_, ?_, ?_, ?_, ?_, ?_, ?_, ?_, ?_⟩
  · intro k
    rw [flattenBackend_base_keys]
    by_cases hk : k ∈ ["address", "auto_loadbalance", "between_bytes_timeout", "connect_timeout", "error_threshold", "first_byte_timeout", "healthcheck", "max_conn", "max_tls_version", "min_tls_version", "name", "override_host", "port", "shield", "ssl_ca_cert", "ssl_cert_hostname", "ssl_check_cert", "ssl_ciphers", "ssl_client_cert", "ssl_client_key", "ssl_sni_hostname", "use_ssl", "weight"]
    · have hsome : ∀ (m : GoMap), (m k).isSome = true →
          (((if sa.serviceType = ServiceTypeVCL then
            m.set "request_condition" (.str b.RequestCondition) else m) : GoMap) k).isSome =
            true := by
        intro m hm
        by_cases hvcl : sa.serviceType = ServiceTypeVCL
        · simp only [hvcl, if_true, GoMap.set]
          split
          · rfl
          · exact hm
        · simp only [hvcl, if_false]
          exact hm
      refine ⟨fun _ => Or.inl hk, fun _ => hsome _ ?_⟩
      simp only [List.mem_cons, List.mem_singleton, List.not_mem_nil, or_false] at hk
      rcases hk with rfl | rfl | rfl | rfl | rfl | rfl | rfl | rfl | rfl | rfl | rfl | rfl | rfl | rfl | rfl | rfl | rfl | rfl | rfl | rfl | rfl | rfl | rfl <;>
        simp [GoMap.ofList, List.lookup]
    · have hnone : GoMap.ofList
          [ ("address", Value.str b.Address),
            ("auto_loadbalance", Value.bool b.AutoLoadbalance),
            ("between_bytes_timeout", Value.int b.BetweenBytesTimeout),
            ("connect_timeout", Value.int b.ConnectTimeout),
            ("error_threshold", Value.int b.ErrorThreshold),
            ("first_byte_timeout", Value.int b.FirstByteTimeout),
            ("healthcheck", Value.str b.HealthCheck),
            ("max_conn", Value.int b.MaxConn),
            ("max_tls_version", Value.str b.MaxTLSVersion),
            ("min_tls_version", Value.str b.MinTLSVersion),
            ("name", Value.str b.Name),
            ("override_host", Value.str b.OverrideHost),
            ("port", Value.int b.Port),
            ("shield", Value.str b.Shield),
            ("ssl_ca_cert", Value.str b.SSLCACert),
            ("ssl_cert_hostname", Value.str b.SSLCertHostname),
            ("ssl_check_cert", Value.bool b.SSLCheckCert),
            ("ssl_ciphers", Value.str b.SSLCiphers),
            ("ssl_client_cert", Value.str b.SSLClientCert),
            ("ssl_client_key", Value.str b.SSLClientKey),
            ("ssl_sni_hostname", Value.str b.SSLSNIHostname),
            ("use_ssl", Value.bool b.UseSSL),
            ("weight", Value.int b.Weight) ] k = none :=
        GoMap.ofList_of_not_mem (by simpa using hk)
      by_cases hvcl : sa.serviceType = ServiceTypeVCL
      · by_cases hrc : k = "request_condition"
        · subst hrc
          simp [hvcl, GoMap.set]
        · simp only [hvcl, if_true, GoMap.set, hrc, if_false, hnone]
          simp [hk, hrc]
      · simp only [hvcl, if_false, hnone]
        simp [hk, hvcl]
  · by_cases hvcl : sa.serviceType = ServiceTypeVCL <;>
      simp [GoMap.ofList, GoMap.set, List.lookup, hvcl]
  · by_cases hvcl : sa.serviceType = ServiceTypeVCL <;>
      simp [GoMap.ofList, GoMap.set, List.lookup, hvcl]
  · by_cases hvcl : sa.serviceType = ServiceTypeVCL <;>
      simp [GoMap.ofList, GoMap.set, List.lookup, hvcl]
  · by_cases hvcl : sa.serviceType = ServiceTypeVCL <;>
      simp [GoMap.ofList, GoMap.set, List.lookup, hvcl]
  · by_cases hvcl : sa.serviceType = ServiceTypeVCL <;>
      simp [GoMap.ofList, GoMap.set, List.lookup, hvcl]
  · by_cases hvcl : sa.serviceType = ServiceTypeVCL <;>
      simp [GoMap.ofList, GoMap.set, List.lookup, hvcl]
  · by_cases hvcl : sa.serviceType = ServiceTypeVCL <;>
      simp [GoMap.ofList, GoMap.set, List.lookup, hvcl]
  · by_cases hvcl : sa.serviceType = ServiceTypeVCL <;>
      simp [GoMap.ofList, GoMap.set, List.lookup, hvcl]
  · by_cases hvcl : sa.serviceType = ServiceTypeVCL <;>
      simp [GoMap.ofList, GoMap.set, List.lookup, hvcl]
  · by_cases hvcl : sa.serviceType = ServiceTypeVCL <;>
      simp [GoMap.ofList, GoMap.set, List.lookup, hvcl]
  · by_cases hvcl : sa.serviceType = ServiceTypeVCL <;>
      simp [GoMap.ofList, GoMap.set, List.lookup, hvcl]
  · by_cases hvcl : sa.serviceType = ServiceTypeVCL <;>
      simp [GoMap.ofList, GoMap.set, List.lookup, hvcl]
  · by_cases hvcl : sa.serviceType = ServiceTypeVCL <;>
      simp [GoMap.ofList, GoMap.set, List.lookup, hvcl]
  · by_cases hvcl : sa.serviceType = ServiceTypeVCL <;>
      simp [GoMap.ofList, GoMap.set, List.lookup, hvcl]
  · by_cases hvcl : sa.serviceType = ServiceTypeVCL <;>
      simp [GoMap.ofList, GoMap.set, List.lookup, hvcl]
  · by_cases hvcl : sa.serviceType = ServiceTypeVCL <;>
      simp [GoMap.ofList, GoMap.set, List.lookup, hvcl]
  · by_cases hvcl : sa.serviceType = ServiceTypeVCL <;>
      simp [GoMap.ofList, GoMap.set, List.lookup, hvcl]
  · by_cases hvcl : sa.serviceType = ServiceTypeVCL <;>
      simp [GoMap.ofList, GoMap.set, List.lookup, hvcl]
  · by_cases hvcl : sa.serviceType = ServiceTypeVCL <;>
      simp [GoMap.ofList, GoMap.set, List.lookup, hvcl]
  · by_cases hvcl : sa.serviceType = ServiceTypeVCL <;>
      simp [GoMap.ofList, GoMap.set, List.lookup, hvcl]
  · by_cases hvcl : sa.serviceType = ServiceTypeVCL <;>
      simp [GoMap.ofList, GoMap.set, List.lookup, hvcl]
  · by_cases hvcl : sa.serviceType = ServiceTypeVCL <;>
      simp [GoMap.ofList, GoMap.set, List.lookup, hvcl]
  · by_cases hvcl : sa.serviceType = ServiceTypeVCL <;>
      simp [GoMap.ofList, GoMap.set, List.lookup, hvcl]
  · intro hvcl
    simp [GoMap.set, hvcl]

/-! ## An update never renames an element -/

theorem ifChangedString_keeps {α : Type} (P : α → Prop) {modified : GoMap} {k : String}
    {assign : α → Option String → α} {opts opts' : α}
    (h : ifChangedString modified k assign opts = some opts')
    (hassign : ∀ o v, P o → P (assign o v)) (hp : P opts) : P opts' := by
  rcases ifChangedString_some h with e | ⟨v, e⟩ <;> rw [e]
  · exact hp
  · exact hassign _ _ hp

theorem ifChangedInt_keeps {α : Type} (P : α → Prop) {modified : GoMap} {k : String}
    {assign : α → Option Int → α} {opts opts' : α}
    (h : ifChangedInt modified k assign opts = some opts')
    (hassign : ∀ o v, P o → P (assign o v)) (hp : P opts) : P opts' := by
  rcases ifChangedInt_some h with e | ⟨v, e⟩ <;> rw [e]
  · exact hp
  · exact hassign _ _ hp

theorem ifChangedBool_keeps {α : Type} (P : α → Prop) {modified : GoMap} {k : String}
    {assign : α → Option Bool → α} {opts opts' : α}
    (h : ifChangedBool modified k assign opts = some opts')
    (hassign : ∀ o v, P o → P (assign o v)) (hp : P opts) : P opts' := by
  rcases ifChangedBool_some h with e | ⟨v, e⟩ <;> rw [e]
  · exact hp
  · exact hassign _ _ hp

theorem ifChangedStringWhen_keeps {α : Type} (P : α → Prop) {gate : Prop} [Decidable gate]
    {modified : GoMap} {k : String} {assign : α → Option String → α} {opts opts' : α}
    (h : ifChangedStringWhen gate modified k assign opts = some opts')
    (hassign : ∀ o v, P o → P (assign o v)) (hp : P opts) :
    P opts' := by
  rcases ifChangedStringWhen_some h with e | ⟨-, v, e⟩ <;> rw [e]
  · exact hp
  · exact hassign _ _ hp

/-- Every payload `buildUpdateBackendInput` returns has the name of `resource`, the
given service ID and the given version: no block assigns these fields. -/
theorem BackendServiceAttributeHandler.buildUpdateBackendInput_frame
    (sa : ServiceMetadata) (serviceID : String) (latestVersion : Int)
    (resource modified : GoMap) (u : UpdateBackendInput)
    (h : BackendServiceAttributeHandler.buildUpdateBackendInput sa serviceID latestVersion
      resource modified = some u) :
    resource "name" = some (.str u.Name) ∧ u.ServiceID = serviceID ∧
      u.ServiceVersion = latestVersion := by
  let P : UpdateBackendInput → Prop := fun o => resource "name" = some (.str o.Name) ∧
    o.ServiceID = serviceID ∧ o.ServiceVersion = latestVersion
  have goal : P u := by
    unfold BackendServiceAttributeHandler.buildUpdateBackendInput at h
    obtain ⟨o_ssl_ciphers, h, h_ssl_ciphers⟩ := bind_eq_some_inv h
    obtain ⟨o_max_tls_version, h, h_max_tls_version⟩ := bind_eq_some_inv h
    obtain ⟨o_min_tls_version, h, h_min_tls_version⟩ := bind_eq_some_inv h
    obtain ⟨o_ssl_sni_hostname, h, h_ssl_sni_hostname⟩ := bind_eq_some_inv h
    obtain ⟨o_ssl_cert_hostname, h, h_ssl_cert_hostname⟩ := bind_eq_some_inv h
    obtain ⟨o_ssl_client_key, h, h_ssl_client_key⟩ := bind_eq_some_inv h
    obtain ⟨o_ssl_client_cert, h, h_ssl_client_cert⟩ := bind_eq_some_inv h
    obtain ⟨o_ssl_ca_cert, h, h_ssl_ca_cert⟩ := bind_eq_some_inv h
    obtain ⟨o_ssl_check_cert, h, h_ssl_check_cert⟩ := bind_eq_some_inv h
    obtain ⟨o_use_ssl, h, h_use_ssl⟩ := bind_eq_some_inv h
    obtain ⟨o_shield, h, h_shield⟩ := bind_eq_some_inv h
    obtain ⟨o_healthcheck, h, h_healthcheck⟩ := bind_eq_some_inv h
    obtain ⟨o_request_condition, h, h_request_condition⟩ := bind_eq_some_inv h
    obtain ⟨o_weight, h, h_weight⟩ := bind_eq_some_inv h
    obtain ⟨o_auto_loadbalance, h, h_auto_loadbalance⟩ := bind_eq_some_inv h
    obtain ⟨o_between_bytes_timeout, h, h_between_bytes_timeout⟩ := bind_eq_some_inv h
    obtain ⟨o_first_byte_timeout, h, h_first_byte_timeout⟩ := bind_eq_some_inv h
    obtain ⟨o_error_threshold, h, h_error_threshold⟩ := bind_eq_some_inv h
    obtain ⟨o_max_conn, h, h_max_conn⟩ := bind_eq_some_inv h
    obtain ⟨o_connect_timeout, h, h_connect_timeout⟩ := bind_eq_some_inv h
    obtain ⟨o_override_host, h, h_override_host⟩ := bind_eq_some_inv h
    obtain ⟨o_port, h, h_port⟩ := bind_eq_some_inv h
    obtain ⟨o_address, h, h_address⟩ := bind_eq_some_inv h
    simp only [Option.map_eq_some'] at h
    obtain ⟨name, hname, e0⟩ := h
    have hn : resource "name" = some (.str name) := assertString_eq_some hname
    have q : P o_address := by rw [← e0]; exact ⟨hn, rfl, rfl⟩
    replace q : P o_port := ifChangedString_keeps P h_address (fun _ _ hp => hp) q
    replace q : P o_override_host := ifChangedInt_keeps P h_port (fun _ _ hp => hp) q
    replace q : P o_connect_timeout := ifChangedString_keeps P h_override_host (fun _ _ hp => hp) q
    replace q : P o_max_conn := ifChangedInt_keeps P h_connect_timeout (fun _ _ hp => hp) q
    replace q : P o_error_threshold := ifChangedInt_keeps P h_max_conn (fun _ _ hp => hp) q
    replace q : P o_first_byte_timeout := ifChangedInt_keeps P h_error_threshold (fun _ _ hp => hp) q
    replace q : P o_between_bytes_timeout := ifChangedInt_keeps P h_first_byte_timeout (fun _ _ hp => hp) q
    replace q : P o_auto_loadbalance := ifChangedInt_keeps P h_between_bytes_timeout (fun _ _ hp => hp) q
    replace q : P o_weight := ifChangedBool_keeps P h_auto_loadbalance (fun _ _ hp => hp) q
    replace q : P o_request_condition := ifChangedInt_keeps P h_weight (fun _ _ hp => hp) q
    replace q : P o_healthcheck := ifChangedStringWhen_keeps P h_request_condition (fun _ _ hp => hp) q
    replace q : P o_shield := ifChangedString_keeps P h_healthcheck (fun _ _ hp => hp) q
    replace q : P o_use_ssl := ifChangedString_keeps P h_shield (fun _ _ hp => hp) q
    replace q : P o_ssl_check_cert := ifChangedBool_keeps P h_use_ssl (fun _ _ hp => hp) q
    replace q : P o_ssl_ca_cert := ifChangedBool_keeps P h_ssl_check_cert (fun _ _ hp => hp) q
    replace q : P o_ssl_client_cert := ifChangedString_keeps P h_ssl_ca_cert (fun _ _ hp => hp) q
    replace q : P o_ssl_client_key := ifChangedString_keeps P h_ssl_client_cert (fun _ _ hp => hp) q
    replace q : P o_ssl_cert_hostname := ifChangedString_keeps P h_ssl_client_key (fun _ _ hp => hp) q
    replace q : P o_ssl_sni_hostname := ifChangedString_keeps P h_ssl_cert_hostname (fun _ _ hp => hp) q
    replace q : P o_min_tls_version := ifChangedString_keeps P h_ssl_sni_hostname (fun _ _ hp => hp) q
    replace q : P o_max_tls_version := ifChangedString_keeps P h_min_tls_version (fun _ _ hp => hp) q
    replace q : P o_ssl_ciphers := ifChangedString_keeps P h_max_tls_version (fun _ _ hp => hp) q
    replace q : P u := ifChangedString_keeps P h_ssl_ciphers (fun _ _ hp => hp) q
    exact q
  exact goal

/-- Every payload the Cloud Files `Update` builds has the name of `resource`, the
given service ID and the given version: no block assigns these fields. -/
theorem CloudfilesServiceAttributeHandler.updateOpts_frame
    (serviceID : String) (serviceVersion : Int) (resource modified : GoMap)
    (u : UpdateCloudfilesInput)
    (h : CloudfilesServiceAttributeHandler.updateOpts serviceID serviceVersion resource
      modified = some u) :
    resource "name" = some (.str u.Name) ∧ u.ServiceID = serviceID ∧
      u.ServiceVersion = serviceVersion := by
  let P : UpdateCloudfilesInput → Prop := fun o => resource "name" = some (.str o.Name) ∧
    o.ServiceID = serviceID ∧ o.ServiceVersion = serviceVersion
  have goal : P u := by
    unfold CloudfilesServiceAttributeHandler.updateOpts at h
    obtain ⟨o_public_key, h, h_public_key⟩ := bind_eq_some_inv h
    obtain ⟨o_timestamp_format, h, h_timestamp_format⟩ := bind_eq_some_inv h
    obtain ⟨o_message_type, h, h_message_type⟩ := bind_eq_some_inv h
    obtain ⟨o_response_condition, h, h_response_condition⟩ := bind_eq_some_inv h
    obtain ⟨o_format_version, h, h_format_version⟩ := bind_eq_some_inv h
    obtain ⟨o_format, h, h_format⟩ := bind_eq_some_inv h
    obtain ⟨o_gzip_level, h, h_gzip_level⟩ := bind_eq_some_inv h
    obtain ⟨o_period, h, h_period⟩ := bind_eq_some_inv h
    obtain ⟨o_placement, h, h_placement⟩ := bind_eq_some_inv h
    obtain ⟨o_region, h, h_region⟩ := bind_eq_some_inv h
    obtain ⟨o_path, h, h_path⟩ := bind_eq_some_inv h
    obtain ⟨o_bucket_name, h, h_bucket_name⟩ := bind_eq_some_inv h
    obtain ⟨o_access_key, h, h_access_key⟩ := bind_eq_some_inv h
    obtain ⟨o_user, h, h_user⟩ := bind_eq_some_inv h
    simp only [Option.map_eq_some'] at h
    obtain ⟨name, hname, e0⟩ := h
    have hn : resource "name" = some (.str name) := assertString_eq_some hname
    have q : P o_user := by rw [← e0]; exact ⟨hn, rfl, rfl⟩
    replace q : P o_access_key := ifChangedString_keeps P h_user (fun _ _ hp => hp) q
    replace q : P o_bucket_name := ifChangedString_keeps P h_access_key (fun _ _ hp => hp) q
    replace q : P o_path := ifChangedString_keeps P h_bucket_name (fun _ _ hp => hp) q
    replace q : P o_region := ifChangedString_keeps P h_path (fun _ _ hp => hp) q
    replace q : P o_placement := ifChangedString_keeps P h_region (fun _ _ hp => hp) q
    replace q : P o_period := ifChangedString_keeps P h_placement (fun _ _ hp => hp) q
    replace q : P o_gzip_level := ifChangedInt_keeps P h_period (fun _ _ hp => hp) q
    replace q : P o_format := ifChangedInt_keeps P h_gzip_level (fun _ _ hp => hp) q
    replace q : P o_format_version := ifChangedString_keeps P h_format (fun _ _ hp => hp) q
    replace q : P o_response_condition := ifChangedInt_keeps P h_format_version (fun _ _ hp => hp) q
    replace q : P o_message_type := ifChangedString_keeps P h_response_condition (fun _ _ hp => hp) q
    replace q : P o_timestamp_format := ifChangedString_keeps P h_message_type (fun _ _ hp => hp) q
    replace q : P o_public_key := ifChangedString_keeps P h_timestamp_format (fun _ _ hp => hp) q
    replace q : P u := ifChangedString_keeps P h_public_key (fun _ _ hp => hp) q
    exact q
  exact goal

/-- C25: an update never renames an element. For every resource map and every
`modified` map (one with a `name` key included), every payload built by
`buildUpdateBackendInput` and by the Cloud Files `Update` has the name
`resource["name"]`, the given service ID and the given version, whatever
`modified` holds; and a payload is built whenever the name of `resource` is a
string and `modified` is well typed. -/
theorem update_never_renames (sa : ServiceMetadata) (serviceID : String) (serviceVersion : Int)
    (resource modified : GoMap) :
    (∀ u, BackendServiceAttributeHandler.buildUpdateBackendInput sa serviceID serviceVersion
        resource modified = some u →
      resource "name" = some (.str u.Name) ∧ u.ServiceID = serviceID ∧
        u.ServiceVersion = serviceVersion) ∧
    (∀ u, CloudfilesServiceAttributeHandler.updateOpts serviceID serviceVersion resource
        modified = some u →
      resource "name" = some (.str u.Name) ∧ u.ServiceID = serviceID ∧
        u.ServiceVersion = serviceVersion) ∧
    (∀ name, resource "name" = some (.str name) →
      wellTypedChange (BackendServiceAttributeHandler.GetSchema sa) modified = true →
      ∃ u, BackendServiceAttributeHandler.buildUpdateBackendInput sa serviceID serviceVersion
          resource modified = some u ∧
        u.Name = name ∧ u.ServiceID = serviceID ∧ u.ServiceVersion = serviceVersion) ∧
    (∀ name, resource "name" = some (.str name) →
      wellTypedChange
        (CloudfilesServiceAttributeHandler.GetSchema { serviceType := ServiceTypeVCL })
        modified = true →
      ∃ u, CloudfilesServiceAttributeHandler.updateOpts serviceID serviceVersion resource
          modified = some u ∧
        u.Name = name ∧ u.ServiceID = serviceID ∧ u.ServiceVersion = serviceVersion) := by
  refine ⟨fun u h => BackendServiceAttributeHandler.buildUpdateBackendInput_frame sa serviceID
      serviceVersion resource modified u h,
    fun u h => CloudfilesServiceAttributeHandler.updateOpts_frame serviceID serviceVersion
      resource modified u h, ?_, ?_⟩
  · intro name hname hty
    exact ⟨_, buildUpdateBackendInput_eq sa serviceID serviceVersion resource modified name
      hname hty, rfl, rfl, rfl⟩
  · intro name hname hty
    exact ⟨_, CloudfilesServiceAttributeHandler.updateOpts_eq serviceID serviceVersion resource
      modified name hname hty, rfl, rfl, rfl⟩

/-- C25, at concrete inputs: a `modified` map with a `name` key leaves the name of
both update payloads as the one of `resource`. -/
theorem update_keeps_name_example :
    (BackendServiceAttributeHandler.buildUpdateBackendInput { serviceType := ServiceTypeVCL }
        "svc" 3 exampleBackend (GoMap.ofList [("name", .str "renamed"), ("port", .int 8080)])).map
      (fun u => (u.Name, u.ServiceID, u.ServiceVersion, u.Port)) =
      (assertString (exampleBackend "name")).map (fun n => (n, "svc", 3, some 8080)) ∧
    (CloudfilesServiceAttributeHandler.updateOpts "svc" 3 exampleCloudfiles
        (GoMap.ofList [("name", .str "renamed"), ("period", .int 60)])).map
      (fun u => (u.Name, u.ServiceID, u.ServiceVersion, u.Period)) =
      (assertString (exampleCloudfiles "name")).map (fun n => (n, "svc", 3, some 60)) := by
  refine ⟨by decide, by decide⟩

/-! ## The two delete error filters -/

/-- C27: the two delete error filters agree. `HTTPError.IsNotFound` holds exactly
when the status code is 404, and whenever the two remote delete calls give the
same result (success, an HTTP error of any status, or another error), the
method `Delete` of the backend handler returns what `deleteCloudfiles` returns:
nil for a success and for a 404, the error itself otherwise. -/
theorem delete_error_filters_agree (DeleteBackend : DeleteBackendInput → Option GoError)
    (DeleteCloudfiles : DeleteCloudfilesInput → Option GoError) (serviceID : String)
    (resource : GoMap) (serviceVersion : Int) (opts : DeleteBackendInput)
    (i : DeleteCloudfilesInput)
    (hopts : BackendServiceAttributeHandler.createDeleteBackendInput serviceID serviceVersion
      resource = some opts)
    (hsame : DeleteBackend opts = DeleteCloudfiles i) :
    (∀ e : HTTPError, e.IsNotFound = true ↔ e.StatusCode = 404) ∧
    BackendServiceAttributeHandler.Delete DeleteBackend serviceID resource serviceVersion =
      some (deleteCloudfiles DeleteCloudfiles i) ∧
    deleteCloudfiles DeleteCloudfiles i =
      (match DeleteCloudfiles i with
        | some (.http e) => if e.StatusCode = 404 then none else some (.http e)
        | r => r) := by
  refine ⟨fun e => by simp [HTTPError.IsNotFound], ?_, ?_⟩
  · simp only [BackendServiceAttributeHandler.Delete, hopts, Option.map_some', deleteCloudfiles,
      hsame]
    rcases DeleteCloudfiles i with _ | e
    · rfl
    · cases e with
      | http e => by_cases h : e.StatusCode = 404 <;> simp [HTTPError.IsNotFound, h]
      | other msg => rfl
  · simp only [deleteCloudfiles]
    rcases DeleteCloudfiles i with _ | e
    · rfl
    · cases e with
      | http e => by_cases h : e.StatusCode = 404 <;> simp [HTTPError.IsNotFound, h]
      | other msg => rfl

/-- C27, at a concrete input: both filters turn a 404 into a success. -/
theorem delete_error_filters_agree_witness :
    (∀ e : HTTPError, e.IsNotFound = true ↔ e.StatusCode = 404) ∧
    BackendServiceAttributeHandler.Delete (fun _ => some (.http { StatusCode := 404 })) "svc"
        exampleBackend 3 =
      some (deleteCloudfiles (fun _ => some (.http { StatusCode := 404 }))
        { ServiceID := "svc", ServiceVersion := 3, Name := "cf" }) ∧
    deleteCloudfiles (fun _ => some (.http { StatusCode := 404 }))
        { ServiceID := "svc", ServiceVersion := 3, Name := "cf" } =
      (match (fun _ => some (.http { StatusCode := 404 }) :
          DeleteCloudfilesInput → Option GoError)
          { ServiceID := "svc", ServiceVersion := 3, Name := "cf" } with
        | some (.http e) => if e.StatusCode = 404 then none else some (.http e)
        | r => r) :=
  delete_error_filters_agree (fun _ => some (.http { StatusCode := 404 }))
    (fun _ => some (.http { StatusCode := 404 })) "svc" exampleBackend 3
    { ServiceID := "svc", ServiceVersion := 3, Name := "origin" }
    { ServiceID := "svc", ServiceVersion := 3, Name := "cf" } (by decide) rfl

/-! ## `gzip_level` on update and on create -/

/-- C29: the Cloud Files update payload applies no sentinel filtering. For a
resource with a string name and a well-typed `modified` that holds
`gzip_level = g`, the sentinel `g = -1` included, the payload built in `Update`
and handed to the client carries `GzipLevel = g`, whereas `buildCreate` leaves
`GzipLevel` unset for a well-typed element whose `gzip_level` is `-1`. -/
theorem update_sends_gzip_level_unfiltered
    (UpdateCloudfiles : UpdateCloudfilesInput → Option GoError) (serviceID : String)
    (serviceVersion : Int) (resource modified : GoMap) (name : String) (g : Int)
    (hname : resource "name" = some (.str name))
    (hty : wellTypedChange
      (CloudfilesServiceAttributeHandler.GetSchema { serviceType := ServiceTypeVCL })
      modified = true)
    (hg : modified "gzip_level" = some (.int g)) :
    (∃ opts,
      CloudfilesServiceAttributeHandler.updateOpts serviceID serviceVersion resource modified =
        some opts ∧
      CloudfilesServiceAttributeHandler.Update UpdateCloudfiles serviceID resource modified
        serviceVersion = some (UpdateCloudfiles opts) ∧
      opts.GzipLevel = some g ∧ opts.wire "gzip_level" = some (.int g)) ∧
    (∀ (getVCLLoggingAttributes : GoMap → Option VCLLoggingAttributes) (sa : ServiceMetadata)
      (df : GoMap) (vla : VCLLoggingAttributes),
      wellTypedElement (CloudfilesServiceAttributeHandler.GetSchema sa) df = true →
      getVCLLoggingAttributes df = some vla →
      df "gzip_level" = some (.int (-1)) →
      ∃ c, CloudfilesServiceAttributeHandler.buildCreate getVCLLoggingAttributes (.map df)
          serviceID serviceVersion = some c ∧ c.GzipLevel = none) := by
  have heq := CloudfilesServiceAttributeHandler.updateOpts_eq serviceID serviceVersion resource
    modified name hname hty
  refine ⟨⟨_, heq, ?_, ?_, ?_⟩, ?_⟩
  · simp only [CloudfilesServiceAttributeHandler.Update, heq, Option.map_some']
  · simp only [hg]
    rfl
  · simp only [UpdateCloudfilesInput.wire, hg]
    simp [assertInt]
  · intro getVCLLoggingAttributes sa df vla htyc hvla hgc
    exact ⟨_, CloudfilesServiceAttributeHandler.buildCreate_eq getVCLLoggingAttributes sa df
      serviceID serviceVersion vla (-1) htyc hvla hgc, by simp⟩

/-- C29, at a concrete input: an update to the sentinel `-1` sends `-1`, and the
create payload of an element whose `gzip_level` is `-1` has no `GzipLevel`. -/
theorem update_sends_gzip_level_unfiltered_witness :
    (∃ opts,
      CloudfilesServiceAttributeHandler.updateOpts "svc" 3 exampleCloudfiles
        (GoMap.ofList [("gzip_level", .int (-1))]) = some opts ∧
      CloudfilesServiceAttributeHandler.Update (fun _ => none) "svc" exampleCloudfiles
        (GoMap.ofList [("gzip_level", .int (-1))]) 3 = some ((fun _ => none) opts) ∧
      opts.GzipLevel = some (-1) ∧ opts.wire "gzip_level" = some (.int (-1))) ∧
    (∀ (getVCLLoggingAttributes : GoMap → Option VCLLoggingAttributes) (sa : ServiceMetadata)
      (df : GoMap) (vla : VCLLoggingAttributes),
      wellTypedElement (CloudfilesServiceAttributeHandler.GetSchema sa) df = true →
      getVCLLoggingAttributes df = some vla →
      df "gzip_level" = some (.int (-1)) →
      ∃ c, CloudfilesServiceAttributeHandler.buildCreate getVCLLoggingAttributes (.map df)
          "svc" 3 = some c ∧ c.GzipLevel = none) :=
  update_sends_gzip_level_unfiltered (fun _ => none) "svc" 3 exampleCloudfiles
    (GoMap.ofList [("gzip_level", .int (-1))]) "cf" (-1) (by decide) (by decide) (by decide)

/-- The create payload of the example element with its `gzip_level` at the sentinel
`-1` has no `GzipLevel`, and an update of the same element to `-1` sends `-1`. -/
theorem gzip_level_sentinel_example :
    (CloudfilesServiceAttributeHandler.buildCreate (fun _ => some exampleVLA)
        (.map (GoMap.set exampleCloudfiles "gzip_level" (.int (-1)))) "svc" 3).map
      (fun c => c.GzipLevel) = some none ∧
    (CloudfilesServiceAttributeHandler.updateOpts "svc" 3 exampleCloudfiles
        (GoMap.ofList [("gzip_level", .int (-1))])).map (fun u => u.GzipLevel) =
      some (some (-1)) := by
  refine ⟨by decide, by decide⟩

/-! ## Schema defaults -/

/-- C24: for every service type, each field of the backend and Cloud Files schemas
whose description documents a default has exactly that default: backend
`auto_loadbalance` false, `between_bytes_timeout` 10000, `connect_timeout` 1000,
`error_threshold` 0, `first_byte_timeout` 15000, `max_conn` 200, `port` 80,
`ssl_check_cert` true, `use_ssl` false, `weight` 100; Cloud Files `period` 3600
and, for VCL, `format_version` 2 (for another service type the attribute has no
default, as it is not in the schema). Every default has the type its attribute
declares, and the set-typed block is optional and not required for every
service type. -/
theorem schema_defaults_as_documented (sa : ServiceMetadata) :
    (BackendServiceAttributeHandler.GetSchemaDefaults sa).lookup "auto_loadbalance" =
        some (.bool false) ∧
    (BackendServiceAttributeHandler.GetSchemaDefaults sa).lookup "between_bytes_timeout" =
        some (.int 10000) ∧
    (BackendServiceAttributeHandler.GetSchemaDefaults sa).lookup "connect_timeout" =
        some (.int 1000) ∧
    (BackendServiceAttributeHandler.GetSchemaDefaults sa).lookup "error_threshold" =
        some (.int 0) ∧
    (BackendServiceAttributeHandler.GetSchemaDefaults sa).lookup "first_byte_timeout" =
        some (.int 15000) ∧
    (BackendServiceAttributeHandler.GetSchemaDefaults sa).lookup "max_conn" =
        some (.int 200) ∧
    (BackendServiceAttributeHandler.GetSchemaDefaults sa).lookup "port" = some (.int 80) ∧
    (BackendServiceAttributeHandler.GetSchemaDefaults sa).lookup "ssl_check_cert" =
        some (.bool true) ∧
    (BackendServiceAttributeHandler.GetSchemaDefaults sa).lookup "use_ssl" =
        some (.bool false) ∧
    (BackendServiceAttributeHandler.GetSchemaDefaults sa).lookup "weight" = some (.int 100) ∧
    (CloudfilesServiceAttributeHandler.GetSchemaDefaults sa).lookup "period" =
        some (.int 3600) ∧
    (CloudfilesServiceAttributeHandler.GetSchemaDefaults sa).lookup "format_version" =
        (if sa.serviceType = ServiceTypeVCL then some (.int 2) else none) ∧
    (∀ p ∈ BackendServiceAttributeHandler.GetSchemaDefaults sa,
      ∃ q ∈ BackendServiceAttributeHandler.GetSchema sa, q.1 = p.1 ∧ p.2.hasType q.2 = true) ∧
    (∀ p ∈ CloudfilesServiceAttributeHandler.GetSchemaDefaults sa,
      ∃ q ∈ CloudfilesServiceAttributeHandler.GetSchema sa,
        q.1 = p.1 ∧ p.2.hasType q.2 = true) ∧
    BackendServiceAttributeHandler.GetSchemaBlock sa = { Required := false, Optional := true } ∧
    CloudfilesServiceAttributeHandler.GetSchemaBlock sa =
      { Required := false, Optional := true } := by
  by_cases hvcl : sa.serviceType = ServiceTypeVCL
  · refine ⟨?_, ?_, ?_, ?_, ?_, ?_, ?_, ?_, ?_, ?_, ?_, ?_, ?_, ?_, rfl, rfl⟩ <;>
      simp only [BackendServiceAttributeHandler.GetSchemaDefaults,
        CloudfilesServiceAttributeHandler.GetSchemaDefaults,
        BackendServiceAttributeHandler.GetSchema, CloudfilesServiceAttributeHandler.GetSchema,
        hvcl, if_true] <;> decide
  · refine ⟨?_, ?_, ?_, ?_, ?_, ?_, ?_, ?_, ?_, ?_, ?_, ?_, ?_, ?_, rfl, rfl⟩ <;>
      simp only [BackendServiceAttributeHandler.GetSchemaDefaults,
        CloudfilesServiceAttributeHandler.GetSchemaDefaults,
        BackendServiceAttributeHandler.GetSchema, CloudfilesServiceAttributeHandler.GetSchema,
        hvcl, if_false] <;> decide

/-! ## Errors of a block's `Read` -/

/-- C23, as stated, fails: the remote list call succeeds and storing the projected
list into state fails (`d.Set` returns an error), yet `Read` of the backend
handler and `Read` of the Cloud Files handler return nil; the failure is only
logged as a warning. -/
theorem read_returns_nil_when_set_fails :
    BackendServiceAttributeHandler.Read (fun _ _ => .ok [])
        (fun _ => some (.other "set failed")) exampleErrorText
        { serviceType := ServiceTypeVCL } "svc" [.map exampleBackend] false 3 =
      (["[DEBUG] Refreshing Backends for (svc)",
        "[WARN] Error setting Backends for (svc): set failed"], none) ∧
    CloudfilesServiceAttributeHandler.Read (fun _ _ => .ok [exampleRemoteCloudfiles])
        (fun m => m) (fun _ => some (.other "set failed")) exampleErrorText
        "svc" [.map exampleCloudfiles] false 3 =
      some (["[DEBUG] Refreshing Cloud Files logging endpoints for (svc)",
        "[WARN] Error setting Cloud Files logging endpoints for (svc): set failed"], none) := by
  refine ⟨by decide, by decide⟩

/-- C23, amended: for `Read` of the backend handler and `Read` of the Cloud Files
handler, when the block has elements in state or the service is imported and
the remote List call fails, `Read` returns a non-nil error whose text names the
service ID and the version and ends with the text of the List error; when the
List call succeeds, `Read` returns nil whatever storing the projected list into
state returns, and a failure to store is only logged as a warning; when the
block has no element in state and the service is not imported, `Read` calls
nothing and returns nil. -/
theorem read_returns_list_error_only
    (ListBackends : String → Int → Except GoError (List Backend))
    (ListCloudfiles : String → Int → Except GoError (List Cloudfiles))
    (pruneVCLLoggingAttributes : GoMap → GoMap)
    (dSet : List GoMap → Option GoError) (errorText : GoError → String)
    (sa : ServiceMetadata) (id : String) (resources : List GoAny) (imported : Bool)
    (serviceVersion : Int) :
    (∀ err, (resources.length > 0 ∨ imported = true) →
      ListBackends id serviceVersion = .error err →
      BackendServiceAttributeHandler.Read ListBackends dSet errorText sa id resources imported
          serviceVersion =
        (["[DEBUG] Refreshing Backends for (" ++ id ++ ")"],
          some (.other ("error looking up Backends for (" ++ id ++ "), version (" ++
            toString serviceVersion ++ "): " ++ errorText err)))) ∧
    (∀ backendList, ListBackends id serviceVersion = .ok backendList →
      (BackendServiceAttributeHandler.Read ListBackends dSet errorText sa id resources imported
          serviceVersion).2 = none) ∧
    (∀ backendList err, (resources.length > 0 ∨ imported = true) →
      ListBackends id serviceVersion = .ok backendList →
      dSet (flattenBackend backendList sa) = some err →
      BackendServiceAttributeHandler.Read ListBackends dSet errorText sa id resources imported
          serviceVersion =
        (["[DEBUG] Refreshing Backends for (" ++ id ++ ")",
          "[WARN] Error setting Backends for (" ++ id ++ "): " ++ errorText err], none)) ∧
    (¬(resources.length > 0 ∨ imported = true) →
      BackendServiceAttributeHandler.Read ListBackends dSet errorText sa id resources imported
          serviceVersion = ([], none)) ∧
    (∀ err, (resources.length > 0 ∨ imported = true) →
      ListCloudfiles id serviceVersion = .error err →
      CloudfilesServiceAttributeHandler.Read ListCloudfiles pruneVCLLoggingAttributes dSet
          errorText id resources imported serviceVersion =
        some (["[DEBUG] Refreshing Cloud Files logging endpoints for (" ++ id ++ ")"],
          some (.other ("error looking up Cloud Files logging endpoints for (" ++ id ++
            "), version (" ++ toString serviceVersion ++ "): " ++ errorText err)))) ∧
    (∀ cloudfilesList r, ListCloudfiles id serviceVersion = .ok cloudfilesList →
      CloudfilesServiceAttributeHandler.Read ListCloudfiles pruneVCLLoggingAttributes dSet
          errorText id resources imported serviceVersion = some r → r.2 = none) ∧
    (∀ cloudfilesList ell err, (resources.length > 0 ∨ imported = true) →
      ListCloudfiles id serviceVersion = .ok cloudfilesList →
      flattenCloudfiles cloudfilesList resources = some ell →
      dSet (ell.map pruneVCLLoggingAttributes) = some err →
      CloudfilesServiceAttributeHandler.Read ListCloudfiles pruneVCLLoggingAttributes dSet
          errorText id resources imported serviceVersion =
        some (["[DEBUG] Refreshing Cloud Files logging endpoints for (" ++ id ++ ")",
          "[WARN] Error setting Cloud Files logging endpoints for (" ++ id ++ "): " ++
            errorText err], none)) ∧
    (∀ cloudfilesList ell, (resources.length > 0 ∨ imported = true) →
      ListCloudfiles id serviceVersion = .ok cloudfilesList →
      flattenCloudfiles cloudfilesList resources = some ell →
      ∃ logs, CloudfilesServiceAttributeHandler.Read ListCloudfiles pruneVCLLoggingAttributes
          dSet errorText id resources imported serviceVersion = some (logs, none)) ∧
    (¬(resources.length > 0 ∨ imported = true) →
      CloudfilesServiceAttributeHandler.Read ListCloudfiles pruneVCLLoggingAttributes dSet
          errorText id resources imported serviceVersion = some ([], none)) := by
  refine ⟨?_, ?_, ?_, ?_, ?_, ?_, ?_, ?_, ?_⟩
  · intro err hc hl
    simp only [BackendServiceAttributeHandler.Read, if_pos hc, hl]
  · intro backendList hl
    unfold BackendServiceAttributeHandler.Read
    split
    · simp only [hl]
      split <;> rfl
    · rfl
  · intro backendList err hc hl hs
    simp only [BackendServiceAttributeHandler.Read, if_pos hc, hl, hs]
  · intro hc
    simp only [BackendServiceAttributeHandler.Read, if_neg hc]
  · intro err hc hl
    simp only [CloudfilesServiceAttributeHandler.Read, if_pos hc, hl]
  · intro cloudfilesList r hl hr
    unfold CloudfilesServiceAttributeHandler.Read at hr
    split at hr
    · simp only [hl, Option.map_eq_some'] at hr
      obtain ⟨ell, -, rfl⟩ := hr
      split <;> rfl
    · rw [← Option.some.inj hr]
  · intro cloudfilesList ell err hc hl hf hs
    simp only [CloudfilesServiceAttributeHandler.Read, if_pos hc, hl, hf, Option.map_some', hs]
  · intro cloudfilesList ell hc hl hf
    simp only [CloudfilesServiceAttributeHandler.Read, if_pos hc, hl, hf, Option.map_some']
    split
    · exact ⟨_, rfl⟩
    · exact ⟨_, rfl⟩
  · intro hc
    simp only [CloudfilesServiceAttributeHandler.Read, if_neg hc]

/-- A failed List call at concrete inputs: the error of both `Read` methods names
the service ID and the version. -/
theorem read_list_error_example :
    BackendServiceAttributeHandler.Read (fun _ _ => .error (.other "connection reset"))
        (fun _ => none) exampleErrorText { serviceType := ServiceTypeVCL } "svc"
        [.map exampleBackend] false 3 =
      (["[DEBUG] Refreshing Backends for (svc)"],
        some (.other "error looking up Backends for (svc), version (3): connection reset")) ∧
    CloudfilesServiceAttributeHandler.Read (fun _ _ => .error (.http { StatusCode := 500 }))
        (fun m => m) (fun _ => none) exampleErrorText "svc" [] true 3 =
      some (["[DEBUG] Refreshing Cloud Files logging endpoints for (svc)"],
        some (.other
          "error looking up Cloud Files logging endpoints for (svc), version (3): 500")) := by
  refine ⟨by decide, by decide⟩

/-! ## The ID after a successful create -/

/-- A poll that ends without error: some attempt `n` within the bound saw the state
`issued` after `n` lookups that saw another state, the read that followed
returned no error through `diagToErr`, and the resource data is the one that
read left. `c` is the number of lookups answered before the poll. -/
theorem RetryContext_validation_inv (GetTLSSubscription : Nat → LookupResult)
    (diagToErr : Option GoError → Option GoError) (d : ResourceData) :
    ∀ (attempts : Nat) (last : GoError) (c : Nat) (s' : PollState),
      RetryContext (validationRetryFunc GetTLSSubscription diagToErr) attempts last
        { d := d, calls := c } = (s', none) →
      ∃ n, n < attempts ∧
        (∀ k, k < n → ∃ sub, GetTLSSubscription (c + k) = .ok sub ∧
          sub.State ≠ subscriptionStateIssued) ∧
        (∃ sub, GetTLSSubscription (c + n) = .ok sub ∧ sub.State = subscriptionStateIssued) ∧
        diagToErr (resourceFastlyTLSSubscriptionValidationRead
          (GetTLSSubscription (c + n + 1)) d).2 = none ∧
        s'.d = (resourceFastlyTLSSubscriptionValidationRead
          (GetTLSSubscription (c + n + 1)) d).1 := by
  intro attempts
  induction attempts with
  | zero =>
    intro last c s' h
    simp [RetryContext] at h
  | succ a ih =>
    intro last c s' h
    unfold RetryContext at h
    cases hg : GetTLSSubscription c with
    | failed err =>
      simp [validationRetryFunc, hg, NonRetryableError] at h
    | ok sub =>
      by_cases hs : sub.State = subscriptionStateIssued
      · cases hd : diagToErr (resourceFastlyTLSSubscriptionValidationRead
            (GetTLSSubscription (c + 1)) d).2 with
        | some err =>
          simp [validationRetryFunc, hg, hs, hd, NonRetryableError] at h
        | none =>
          simp only [validationRetryFunc, hg, hs, hd, ne_eq, not_true_eq_false, if_false,
            Prod.mk.injEq, and_true] at h
          refine ⟨0, Nat.succ_pos a, fun k hk => absurd hk (Nat.not_lt_zero k),
            ⟨sub, hg, hs⟩, hd, ?_⟩
          rw [← h]
      · simp only [validationRetryFunc, hg, ne_eq, hs, not_false_eq_true, if_true,
          RetryableError] at h
        obtain ⟨n, hn, hbefore, hissued, hdiag, hd⟩ := ih _ (c + 1) s' h
        refine ⟨n + 1, Nat.succ_lt_succ hn, ?_, ?_, ?_, ?_⟩
        · intro k hk
          cases k with
          | zero => exact ⟨sub, hg, hs⟩
          | succ k =>
            have := hbefore k (Nat.lt_of_succ_lt_succ hk)
            rwa [Nat.add_assoc, Nat.add_comm 1 k] at this
        · rwa [Nat.add_assoc, Nat.add_comm 1 n] at hissued
        · rwa [Nat.add_assoc c 1 n, Nat.add_comm 1 n] at hdiag
        · rwa [Nat.add_assoc c 1 n, Nat.add_comm 1 n] at hd

/-- A poll ends without error at the first attempt that sees the state `issued`,
when that attempt is within the bound and the read that follows returns no
error through `diagToErr`. -/
theorem RetryContext_validation_ok (GetTLSSubscription : Nat → LookupResult)
    (diagToErr : Option GoError → Option GoError) (d : ResourceData) :
    ∀ (n attempts : Nat) (last : GoError) (c : Nat), n < attempts →
      (∀ k, k < n → ∃ sub, GetTLSSubscription (c + k) = .ok sub ∧
        sub.State ≠ subscriptionStateIssued) →
      (∃ sub, GetTLSSubscription (c + n) = .ok sub ∧ sub.State = subscriptionStateIssued) →
      diagToErr (resourceFastlyTLSSubscriptionValidationRead
        (GetTLSSubscription (c + n + 1)) d).2 = none →
      RetryContext (validationRetryFunc GetTLSSubscription diagToErr) attempts last
          { d := d, calls := c } =
        ({ d := (resourceFastlyTLSSubscriptionValidationRead
            (GetTLSSubscription (c + n + 1)) d).1, calls := c + n + 2 }, none) := by
  intro n
  induction n with
  | zero =>
    intro attempts last c hn _ hissued hdiag
    obtain ⟨sub, hg, hs⟩ := hissued
    cases attempts with
    | zero => exact absurd hn (Nat.lt_irrefl 0)
    | succ a =>
      simp only [Nat.add_zero] at hg hdiag ⊢
      simp [RetryContext, validationRetryFunc, hg, hs, hdiag]
  | succ n ih =>
    intro attempts last c hn hbefore hissued hdiag
    cases attempts with
    | zero => exact absurd hn (Nat.not_lt_zero _)
    | succ a =>
      obtain ⟨sub, hg, hs⟩ := hbefore 0 (Nat.succ_pos n)
      simp only [Nat.add_zero] at hg
      have hrec := ih a (.other ("Expected subscription state to be " ++
          subscriptionStateIssued ++ " but it was " ++ sub.State)) (c + 1)
        (Nat.lt_of_succ_lt_succ hn)
        (fun k hk => by
          have := hbefore (k + 1) (Nat.succ_lt_succ hk)
          rwa [Nat.add_assoc, Nat.add_comm 1 k])
        (by rwa [Nat.add_assoc, Nat.add_comm 1 n])
        (by rwa [Nat.add_assoc c 1 n, Nat.add_comm 1 n])
      rw [Nat.add_assoc c 1 n, Nat.add_comm 1 n] at hrec
      unfold RetryContext
      simp only [validationRetryFunc, hg, ne_eq, hs, not_false_eq_true, if_true, RetryableError]
      exact hrec

/-- C28, as stated, fails: the first lookup observes the state `issued`, the lookup
of the read that follows observes `pending` (or gets a 404), so the read clears
the ID and returns no error, and the create returns without error with an
empty ID instead of `subscription_id`. -/
theorem create_succeeds_with_empty_id :
    resourceFastlyTLSSubscriptionValidationCreate
        (fun n => if n = 0 then .ok { State := "issued" } else .ok { State := "pending" })
        id 100 { Id := "", subscription_id := "sub-1" } =
      ({ Id := "", subscription_id := "sub-1" }, none) ∧
    resourceFastlyTLSSubscriptionValidationCreate
        (fun n => if n = 0 then .ok { State := "issued" }
          else .failed (.http { StatusCode := 404 }))
        id 100 { Id := "", subscription_id := "sub-1" } =
      ({ Id := "", subscription_id := "sub-1" }, none) := by
  refine ⟨by decide, by decide⟩

/-- C28, amended: when `diagToErr` keeps every error, a create that returns without
error has observed the state `issued` in some lookup `n` of the poll, after `n`
lookups that observed another state, and its ID was set by the read that
followed, from the answer to lookup `n + 1`: the ID equals `subscription_id`
when that lookup observed `issued` as well, and it is empty when that lookup
observed another state or was answered with a 404. In particular the ID equals
`subscription_id` whenever the two lookups got the same answer. Conversely,
when lookups `n` and `n + 1` both observe `issued` within the timeout and
`diagToErr` maps no error to no error, the create returns without error with
the ID `subscription_id`. -/
theorem create_success_id_set_by_read (GetTLSSubscription : Nat → LookupResult)
    (diagToErr : Option GoError → Option GoError) (attempts : Nat) (d d' : ResourceData)
    (hdiag : ∀ e, diagToErr (some e) ≠ none)
    (h : resourceFastlyTLSSubscriptionValidationCreate GetTLSSubscription diagToErr attempts d =
      (d', none)) :
    (∃ n, n < attempts ∧
      (∀ k, k < n → ∃ sub, GetTLSSubscription k = .ok sub ∧
        sub.State ≠ subscriptionStateIssued) ∧
      (∃ sub, GetTLSSubscription n = .ok sub ∧ sub.State = subscriptionStateIssued) ∧
      d' = (resourceFastlyTLSSubscriptionValidationRead (GetTLSSubscription (n + 1)) d).1 ∧
      d'.subscription_id = d.subscription_id ∧
      (((∃ sub, GetTLSSubscription (n + 1) = .ok sub ∧
            sub.State = subscriptionStateIssued) ∧ d'.Id = d.subscription_id) ∨
        (((∃ sub, GetTLSSubscription (n + 1) = .ok sub ∧
              sub.State ≠ subscriptionStateIssued) ∨
            ∃ e, GetTLSSubscription (n + 1) = .failed (.http e) ∧ e.IsNotFound = true) ∧
          d'.Id = "")) ∧
      (GetTLSSubscription (n + 1) = GetTLSSubscription n → d'.Id = d.subscription_id)) ∧
    (∀ n, n < attempts →
      (∀ k, k < n → ∃ sub, GetTLSSubscription k = .ok sub ∧
        sub.State ≠ subscriptionStateIssued) →
      (∃ sub, GetTLSSubscription n = .ok sub ∧ sub.State = subscriptionStateIssued) →
      (∃ sub, GetTLSSubscription (n + 1) = .ok sub ∧ sub.State = subscriptionStateIssued) →
      diagToErr none = none →
      resourceFastlyTLSSubscriptionValidationCreate GetTLSSubscription diagToErr attempts d =
        ({ d with Id := d.subscription_id }, none)) := by
  refine ⟨?_, ?_⟩
  · unfold resourceFastlyTLSSubscriptionValidationCreate at h
    simp only [Prod.mk.injEq] at h
    obtain ⟨hd', herr⟩ := h
    obtain ⟨n, hn, hbefore, hissued, hnone, hd⟩ :=
      RetryContext_validation_inv GetTLSSubscription diagToErr d attempts _ 0 _
        (Prod.ext rfl herr)
    simp only [Nat.zero_add] at hbefore hissued hnone hd
    rw [hd'] at hd
    have hread : (resourceFastlyTLSSubscriptionValidationRead
        (GetTLSSubscription (n + 1)) d).2 = none := by
      cases hr : (resourceFastlyTLSSubscriptionValidationRead
          (GetTLSSubscription (n + 1)) d).2 with
      | none => rfl
      | some e =>
        rw [hr] at hnone
        exact absurd hnone (hdiag e)
    refine ⟨n, hn, hbefore, hissued, hd, ?_, ?_, ?_⟩
    · rw [hd]
      unfold resourceFastlyTLSSubscriptionValidationRead
      cases GetTLSSubscription (n + 1) with
      | failed err =>
        cases err with
        | http e => by_cases he : e.IsNotFound = true <;> simp [he]
        | other msg => rfl
      | ok sub => by_cases hs : sub.State = subscriptionStateIssued <;> simp [hs]
    · rw [hd]
      unfold resourceFastlyTLSSubscriptionValidationRead at hread ⊢
      cases hg : GetTLSSubscription (n + 1) with
      | failed err =>
        cases err with
        | http e =>
          by_cases he : e.IsNotFound = true
          · exact Or.inr ⟨Or.inr ⟨e, rfl, he⟩, by simp [he]⟩
          · simp [hg, he] at hread
        | other msg => simp [hg] at hread
      | ok sub =>
        by_cases hs : sub.State = subscriptionStateIssued
        · exact Or.inl ⟨⟨sub, rfl, hs⟩, by simp [hs]⟩
        · exact Or.inr ⟨Or.inl ⟨sub, rfl, hs⟩, by simp [hs]⟩
    · intro hsame
      obtain ⟨sub, hg, hs⟩ := hissued
      rw [hd, hsame, hg]
      simp [resourceFastlyTLSSubscriptionValidationRead, hs]
  · intro n hn hbefore hissued hnext hnil
    obtain ⟨sub, hg, hs⟩ := hnext
    have hread : resourceFastlyTLSSubscriptionValidationRead (GetTLSSubscription (n + 1)) d =
        ({ d with Id := d.subscription_id }, none) := by
      simp [resourceFastlyTLSSubscriptionValidationRead, hg, hs]
    have hok := RetryContext_validation_ok GetTLSSubscription diagToErr d n attempts
      (.other "timeout while waiting for state to become 'success'") 0 hn
      (by simpa using hbefore) (by simpa using hissued)
      (by simp only [Nat.zero_add, hread]; exact hnil)
    unfold resourceFastlyTLSSubscriptionValidationCreate
    rw [hok]
    simp only [Nat.zero_add, hread]

/-- C28 amended, at a concrete input: the second poll attempt observes `issued`, and
so does the read that follows; the ID is `subscription_id`. -/
theorem create_success_id_set_by_read_witness :
    (∃ n, n < 100 ∧
      (∀ k, k < n → ∃ sub, (fun n => if n = 0 then LookupResult.ok { State := "pending" }
          else .ok { State := "issued" }) k = .ok sub ∧
        sub.State ≠ subscriptionStateIssued) ∧
      (∃ sub, (fun n => if n = 0 then LookupResult.ok { State := "pending" }
          else .ok { State := "issued" }) n = .ok sub ∧
        sub.State = subscriptionStateIssued) ∧
      ({ Id := "sub-1", subscription_id := "sub-1" } : ResourceData) =
        (resourceFastlyTLSSubscriptionValidationRead
          ((fun n => if n = 0 then LookupResult.ok { State := "pending" }
            else .ok { State := "issued" }) (n + 1))
          { Id := "", subscription_id := "sub-1" }).1 ∧
      ({ Id := "sub-1", subscription_id := "sub-1" } : ResourceData).subscription_id =
        ({ Id := "", subscription_id := "sub-1" } : ResourceData).subscription_id ∧
      (((∃ sub, (fun n => if n = 0 then LookupResult.ok { State := "pending" }
            else .ok { State := "issued" }) (n + 1) = .ok sub ∧
            sub.State = subscriptionStateIssued) ∧
          ({ Id := "sub-1", subscription_id := "sub-1" } : ResourceData).Id =
            ({ Id := "", subscription_id := "sub-1" } : ResourceData).subscription_id) ∨
        (((∃ sub, (fun n => if n = 0 then LookupResult.ok { State := "pending" }
              else .ok { State := "issued" }) (n + 1) = .ok sub ∧
              sub.State ≠ subscriptionStateIssued) ∨
            ∃ e, (fun n => if n = 0 then LookupResult.ok { State := "pending" }
              else .ok { State := "issued" }) (n + 1) = .failed (.http e) ∧
              e.IsNotFound = true) ∧
          ({ Id := "sub-1", subscription_id := "sub-1" } : ResourceData).Id = "")) ∧
      ((fun n => if n = 0 then LookupResult.ok { State := "pending" }
          else .ok { State := "issued" }) (n + 1) =
        (fun n => if n = 0 then LookupResult.ok { State := "pending" }
          else .ok { State := "issued" }) n →
        ({ Id := "sub-1", subscription_id := "sub-1" } : ResourceData).Id =
          ({ Id := "", subscription_id := "sub-1" } : ResourceData).subscription_id)) ∧
    (∀ n, n < 100 →
      (∀ k, k < n → ∃ sub, (fun n => if n = 0 then LookupResult.ok { State := "pending" }
          else .ok { State := "issued" }) k = .ok sub ∧
        sub.State ≠ subscriptionStateIssued) →
      (∃ sub, (fun n => if n = 0 then LookupResult.ok { State := "pending" }
          else .ok { State := "issued" }) n = .ok sub ∧
        sub.State = subscriptionStateIssued) →
      (∃ sub, (fun n => if n = 0 then LookupResult.ok { State := "pending" }
          else .ok { State := "issued" }) (n + 1) = .ok sub ∧
        sub.State = subscriptionStateIssued) →
      id (none : Option GoError) = none →
      resourceFastlyTLSSubscriptionValidationCreate
          (fun n => if n = 0 then LookupResult.ok { State := "pending" }
            else .ok { State := "issued" })
          id 100 { Id := "", subscription_id := "sub-1" } =
        ({ ({ Id := "", subscription_id := "sub-1" } : ResourceData) with
          Id := ({ Id := "", subscription_id := "sub-1" } : ResourceData).subscription_id },
          none)) :=
  create_success_id_set_by_read
    (fun n => if n = 0 then LookupResult.ok { State := "pending" } else .ok { State := "issued" })
    id 100 { Id := "", subscription_id := "sub-1" } { Id := "sub-1", subscription_id := "sub-1" }
    (fun e => by simp) (by decide)

end Fastly
